import Mathlib

/-!
# Packet-buffer ownership protocol of CPU High (wlan_mac_high.c)

A shallow embedding of the parts of `wlan_mac_high.c` that implement the
packet-buffer ownership protocol between CPU High ("Control") and CPU Low
("Radio"): the boot-time reconciliation loops of `wlan_mac_high_init`, the
admission check `wlan_mac_num_tx_pkt_buf_available`, the slot search
`wlan_mac_high_get_empty_tx_packet_buffer`, the transfer wrapper
`wlan_mac_high_cdma_start_transfer`, the handoff `wlan_mac_high_mpdu_transmit`,
the message handler `wlan_mac_high_process_ipc_msg` with the setters of the
parameters it re-pushes, the register read `wlan_mac_high_read_low_mem`, the
rate fallback `wlan_mac_sanitize_tx_params`, and `poll_tx_queues` of the station
application (wlan_mac_sta.c).

Shared memory is a pair of index-addressed pools (`CALC_PKT_BUF_ADDR(base, i)`),
the hardware mutex is one owner cell per slot, and every side effect CPU High
performs is appended to a trace, in program order.
-/

namespace WlanMacHigh

/-! ## Data model -/

/-- The two processors that can own a packet-buffer mutex. -/
inductive cpu_t
  | CPU_HIGH
  | CPU_LOW
  deriving DecidableEq, Repr

/-- Modelled from the spec: the enum `tx_pkt_buf_state_t` is declared in
`wlan_mac_pkt_buf_util.h`, which is not among the sources. The five tags are the
ones the code names (spec 4.1: UNINITIALIZED, CONTROL_OWNED, READY, RADIO_OWNED,
DONE); `corrupt raw` stands for a stored value outside the enum. -/
inductive tx_pkt_buf_state_t
  | TX_PKT_BUF_UNINITIALIZED
  | TX_PKT_BUF_HIGH_CTRL
  | TX_PKT_BUF_READY
  | TX_PKT_BUF_LOW_CTRL
  | TX_PKT_BUF_DONE
  | corrupt (raw : Nat)
  deriving DecidableEq, Repr

/-- Modelled from the spec: the enum `rx_pkt_buf_state_t` is declared in
`wlan_mac_pkt_buf_util.h`, which is not among the sources. The four tags are the
ones the code names (spec 4.2); `corrupt raw` stands for a stored value outside
the enum. -/
inductive rx_pkt_buf_state_t
  | RX_PKT_BUF_UNINITIALIZED
  | RX_PKT_BUF_HIGH_CTRL
  | RX_PKT_BUF_READY
  | RX_PKT_BUF_LOW_CTRL
  | corrupt (raw : Nat)
  deriving DecidableEq, Repr

/-- Modelled from the spec: the enum `pkt_buf_group_t` is declared in a header
that is not among the sources. The three groups are the ones the code names;
`other_value raw` stands for any other stored value. -/
inductive pkt_buf_group_t
  | PKT_BUF_GROUP_GENERAL
  | PKT_BUF_GROUP_DTIM_MCAST
  | PKT_BUF_GROUP_OTHER
  | other_value (raw : Nat)
  deriving DecidableEq, Repr

open cpu_t tx_pkt_buf_state_t rx_pkt_buf_state_t pkt_buf_group_t

/-- Membership of a Tx state tag in its enum. -/
def tx_pkt_buf_state_t.is_enum_member : tx_pkt_buf_state_t → Bool
  | .corrupt _ => false
  | _ => true

/-- Membership of an Rx state tag in its enum. -/
def rx_pkt_buf_state_t.is_enum_member : rx_pkt_buf_state_t → Bool
  | .corrupt _ => false
  | _ => true

/-- Modelled from the spec: the pool layout macros live in
`wlan_mac_pkt_buf_util.h`, which is not among the sources. The spec fixes a Tx
pool whose general rotation is followed by the reserved roles; the values are
the layout of the reference design: 16 Tx buffers. -/
def NUM_TX_PKT_BUFS : Nat := 16

/-- Modelled from the spec: number of Rx buffers (header not among the sources);
the reference design has a ring of 8. -/
def NUM_RX_PKT_BUFS : Nat := 8

/-- Modelled from the spec: number of Tx buffers in the general rotation (header
not among the sources); the init switch names six, TX_PKT_BUF_MPDU_1..6. -/
def NUM_TX_PKT_BUF_MPDU : Nat := 6

/-- Modelled from the spec: index of the first general Tx buffer (header absent). -/
def TX_PKT_BUF_MPDU_1 : Nat := 0
/-- Modelled from the spec: index of the second general Tx buffer (header absent). -/
def TX_PKT_BUF_MPDU_2 : Nat := 1
/-- Modelled from the spec: index of the third general Tx buffer (header absent). -/
def TX_PKT_BUF_MPDU_3 : Nat := 2
/-- Modelled from the spec: index of the fourth general Tx buffer (header absent). -/
def TX_PKT_BUF_MPDU_4 : Nat := 3
/-- Modelled from the spec: index of the fifth general Tx buffer (header absent). -/
def TX_PKT_BUF_MPDU_5 : Nat := 4
/-- Modelled from the spec: index of the sixth general Tx buffer (header absent). -/
def TX_PKT_BUF_MPDU_6 : Nat := 5
/-- Modelled from the spec: index of the reserved beacon Tx buffer (header absent). -/
def TX_PKT_BUF_BEACON : Nat := 6
/-- Modelled from the spec: index of the reserved RTS Tx buffer (header absent). -/
def TX_PKT_BUF_RTS : Nat := 7
/-- Modelled from the spec: index of the reserved ACK/CTS Tx buffer (header absent). -/
def TX_PKT_BUF_ACK_CTS : Nat := 8

/-- Modelled from the spec: `tx_params_t` is declared in a header that is not
among the sources; the code reads `phy.mcs` and `phy.phy_mode` and copies the
struct whole. -/
structure phy_tx_params_t where
  mcs : Nat
  phy_mode : Nat
  antenna_mode : Nat
  power : Int
  deriving DecidableEq, Repr

/-- Modelled from the spec: MAC half of `tx_params_t` (header absent). -/
structure mac_tx_params_t where
  flags : Nat
  deriving DecidableEq, Repr

/-- Modelled from the spec: `tx_params_t` (header absent), PHY and MAC halves. -/
structure tx_params_t where
  phy : phy_tx_params_t
  mac : mac_tx_params_t
  deriving DecidableEq, Repr

/-- Modelled from the spec: `queue_info` of a Tx frame (header absent); the four
fields are the ones written at wlan_mac_high.c:2079-2084. -/
structure tx_queue_details_t where
  id : Nat
  pkt_buf_group : pkt_buf_group_t
  occupancy : Nat
  enqueue_timestamp : Nat
  deriving DecidableEq, Repr

/-- Modelled from the spec: header of a Tx packet buffer, `tx_frame_info_t`
(declared in a header that is not among the sources), with the fields the code
under `src/` reads or writes. -/
structure tx_frame_info_t where
  tx_pkt_buf_state : tx_pkt_buf_state_t
  length : Nat
  queue_info : tx_queue_details_t
  flags : Nat
  unique_seq : Nat
  params : tx_params_t
  deriving DecidableEq, Repr

/-- Modelled from the spec: header of an Rx packet buffer, `rx_frame_info_t`
(header absent): the state tag and the rest of the header, which the embedded
code never writes. -/
structure rx_frame_info_t where
  rx_pkt_buf_state : rx_pkt_buf_state_t
  length : Nat
  flags : Nat
  deriving DecidableEq, Repr

/-- Modelled from the spec: return codes of the packet-buffer mutex functions
(`wlan_mac_pkt_buf_util.h`, absent). SUCCESS and FAIL_NOT_LOCK_OWNER are named
in the code; the already-unlocked outcome is the one the comment at
wlan_mac_high.c:1185 describes; FAIL_ALREADY_LOCKED is the failure of a lock
attempt on a slot the other processor holds. -/
inductive pkt_buf_mutex_status_t
  | PKT_BUF_MUTEX_SUCCESS
  | PKT_BUF_MUTEX_FAIL_ALREADY_LOCKED
  | PKT_BUF_MUTEX_FAIL_NOT_LOCK_OWNER
  | PKT_BUF_MUTEX_ALREADY_UNLOCKED
  deriving DecidableEq, Repr

open pkt_buf_mutex_status_t

/-- Message types CPU High writes to or reads from the mailbox. -/
inductive ipc_mbox_msg_t
  | IPC_MBOX_TX_PKT_BUF_READY
  | IPC_MBOX_TX_PKT_BUF_DONE
  | IPC_MBOX_TX_BEACON_DONE
  | IPC_MBOX_RX_PKT_BUF_READY
  | IPC_MBOX_PHY_TX_REPORT
  | IPC_MBOX_CPU_STATUS
  | IPC_MBOX_MEM_READ_WRITE
  | IPC_MBOX_LOW_PARAM
  | IPC_MBOX_LOW_RANDOM_SEED
  | IPC_MBOX_CONFIG_CHANNEL
  | IPC_MBOX_CONFIG_DSSS_EN
  | IPC_MBOX_CONFIG_RX_ANT_MODE
  | IPC_MBOX_CONFIG_TX_CTRL_POW
  | IPC_MBOX_SET_RADIO_TX_POWER
  | IPC_MBOX_CONFIG_RX_FILTER
  | IPC_MBOX_MCAST_BUFFER_ENABLE
  | IPC_MBOX_TXRX_BEACON_CONFIG
  | unknown (raw : Nat)
  deriving DecidableEq, Repr

open ipc_mbox_msg_t

/-- The fixed-shape mailbox message `wlan_ipc_msg_t`; the payload pointer is
replaced by the words it points to. -/
structure wlan_ipc_msg_t where
  msg_id : ipc_mbox_msg_t
  arg0 : Nat
  num_payload_words : Nat
  payload : List Nat
  deriving DecidableEq, Repr

/-- User callbacks and external collaborators CPU High invokes. -/
inductive callback_t
  | mpdu_tx_dequeue_callback
  | mpdu_tx_high_done_callback
  | mpdu_tx_low_done_callback
  | mpdu_rx_callback
  | tx_poll_callback
  | beacon_tx_done_callback
  | cpu_low_reboot_callback
  | station_info_posttx_process
  | station_info_postrx_process
  | station_info_txreport_process
  | network_info_rx_process
  | station_info_rx_process_counts
  | station_info_create
  | wlan_exp_log_create_tx_low_entry
  | wlan_exp_log_create_rx_entry
  | wlan_exp_log_create_tx_high_entry
  | wlan_exp_node_set_type_low
  | wlan_platform_high_userio_disp_status
  deriving DecidableEq, Repr

/-- One side effect of CPU High, as recorded in the trace. A `tx_write` or
`rx_write` carries the owner of the slot's mutex at the moment of the write; a
print carries the source line of the statement. -/
inductive Event
  | lock_tx_pkt_buf (i : Nat) (status : pkt_buf_mutex_status_t)
  | unlock_tx_pkt_buf (i : Nat) (status : pkt_buf_mutex_status_t)
  | force_lock_tx_pkt_buf (i : Nat)
  | lock_rx_pkt_buf (i : Nat) (status : pkt_buf_mutex_status_t)
  | unlock_rx_pkt_buf (i : Nat) (status : pkt_buf_mutex_status_t)
  | tx_write (i : Nat) (owner : Option cpu_t)
  | rx_write (i : Nat) (owner : Option cpu_t)
  | write_mailbox_msg (msg : wlan_ipc_msg_t)
  | callback (which : callback_t) (arg : Nat)
  | cdma_finish_transfer
  | XAxiCdma_SimpleTransfer (src dest size : Nat) (status : Int)
  | memcpy (dest src size : Nat)
  | print (line : Nat)
  deriving DecidableEq, Repr

/-- The state CPU High acts on: both pools (header of slot `i` at
`CALC_PKT_BUF_ADDR(base, i)`), the mutex owner of every slot, the DLMB region of
`platform_high_dev_info`, and the trace of side effects so far; then the
globals of wlan_mac_high.c:87-106 with the values `wlan_mac_high_init` gives them
(lines 263-271), whether the interrupt controller is started, and the word
memory the register-read buffer points into. -/
structure State where
  tx_pkt_buf : Nat → tx_frame_info_t
  rx_pkt_buf : Nat → rx_frame_info_t
  tx_pkt_buf_mutex : Nat → Option cpu_t
  rx_pkt_buf_mutex : Nat → Option cpu_t
  dlmb_baseaddr : Nat
  dlmb_size : Nat
  trace : List Event
  low_param_channel : Nat := 0xFFFFFFFF
  low_param_dsss_en : Nat := 0xFFFFFFFF
  low_param_rx_ant_mode : Nat := 0xFF
  low_param_tx_ctrl_pow : Int := -127
  low_param_radio_tx_pow : Int := -127
  low_param_rx_filter : Nat := 0xFFFFFFFF
  low_param_random_seed : Nat := 0xFFFFFFFF
  cpu_low_status : Nat := 0
  cpu_low_reg_read_buffer : Nat := 0
  cpu_low_reg_read_buffer_status : Nat := 0
  intc_is_started : Bool := false
  mem : Nat → Nat := fun _ => 0

/-- Append one event to the trace. -/
def State.log (s : State) (e : Event) : State :=
  { s with trace := s.trace ++ [e] }

/-- A store by CPU High into the header of Tx slot `i`. -/
def tx_frame_info_write (i : Nat) (f : tx_frame_info_t → tx_frame_info_t) (s : State) : State :=
  { s with
    tx_pkt_buf := Function.update s.tx_pkt_buf i (f (s.tx_pkt_buf i))
    trace := s.trace ++ [Event.tx_write i (s.tx_pkt_buf_mutex i)] }

/-- A store by CPU High into the header of Rx slot `i`. -/
def rx_frame_info_write (i : Nat) (f : rx_frame_info_t → rx_frame_info_t) (s : State) : State :=
  { s with
    rx_pkt_buf := Function.update s.rx_pkt_buf i (f (s.rx_pkt_buf i))
    trace := s.trace ++ [Event.rx_write i (s.rx_pkt_buf_mutex i)] }

/-- The assignment `tx_frame_info->tx_pkt_buf_state = v` for slot `i`. -/
def set_tx_pkt_buf_state (i : Nat) (v : tx_pkt_buf_state_t) (s : State) : State :=
  tx_frame_info_write i (fun f => { f with tx_pkt_buf_state := v }) s

/-- The assignment `rx_frame_info->rx_pkt_buf_state = v` for slot `i`. -/
def set_rx_pkt_buf_state (i : Nat) (v : rx_pkt_buf_state_t) (s : State) : State :=
  rx_frame_info_write i (fun f => { f with rx_pkt_buf_state := v }) s

/-! ## The per-slot ownership lock, as seen from CPU High -/

/-- Modelled from the spec: outcome of CPU High releasing a mutex with the given
owner (`wlan_mac_pkt_buf_util.c` is not among the sources). Spec 4.1: release
fails NotOwner when the other side holds the lock; the comments at
wlan_mac_high.c:1176 and 1185 separate that case ("CPU_LOW currently has the
mutex lock") from "it was already unlocked". -/
def unlock_result : Option cpu_t → pkt_buf_mutex_status_t × Option cpu_t
  | some CPU_HIGH => (PKT_BUF_MUTEX_SUCCESS, none)
  | some CPU_LOW => (PKT_BUF_MUTEX_FAIL_NOT_LOCK_OWNER, some CPU_LOW)
  | none => (PKT_BUF_MUTEX_ALREADY_UNLOCKED, none)

/-- Modelled from the spec: outcome of CPU High acquiring a mutex with the given
owner (`wlan_mac_pkt_buf_util.c` absent). Spec 4.1: acquire succeeds when the
lock is free or self-owned and fails when the other side holds it. -/
def lock_result : Option cpu_t → pkt_buf_mutex_status_t × Option cpu_t
  | some CPU_LOW => (PKT_BUF_MUTEX_FAIL_ALREADY_LOCKED, some CPU_LOW)
  | _ => (PKT_BUF_MUTEX_SUCCESS, some CPU_HIGH)

/-- Modelled from the spec: `lock_tx_pkt_buf` (source file absent), spec 4.1
`acquire`. -/
def lock_tx_pkt_buf (i : Nat) (s : State) : pkt_buf_mutex_status_t × State :=
  let r := lock_result (s.tx_pkt_buf_mutex i)
  (r.1, { s with
    tx_pkt_buf_mutex := Function.update s.tx_pkt_buf_mutex i r.2
    trace := s.trace ++ [Event.lock_tx_pkt_buf i r.1] })

/-- Modelled from the spec: `unlock_tx_pkt_buf` (source file absent), spec 4.1
`release`. -/
def unlock_tx_pkt_buf (i : Nat) (s : State) : pkt_buf_mutex_status_t × State :=
  let r := unlock_result (s.tx_pkt_buf_mutex i)
  (r.1, { s with
    tx_pkt_buf_mutex := Function.update s.tx_pkt_buf_mutex i r.2
    trace := s.trace ++ [Event.unlock_tx_pkt_buf i r.1] })

/-- Modelled from the spec: `force_lock_tx_pkt_buf` (source file absent), spec
4.1 `forceAcquire`: unconditional, CPU High owns the mutex afterwards. -/
def force_lock_tx_pkt_buf (i : Nat) (s : State) : State :=
  { s with
    tx_pkt_buf_mutex := Function.update s.tx_pkt_buf_mutex i (some CPU_HIGH)
    trace := s.trace ++ [Event.force_lock_tx_pkt_buf i] }

/-- Modelled from the spec: `lock_rx_pkt_buf` (source file absent), spec 4.1
`acquire`. -/
def lock_rx_pkt_buf (i : Nat) (s : State) : pkt_buf_mutex_status_t × State :=
  let r := lock_result (s.rx_pkt_buf_mutex i)
  (r.1, { s with
    rx_pkt_buf_mutex := Function.update s.rx_pkt_buf_mutex i r.2
    trace := s.trace ++ [Event.lock_rx_pkt_buf i r.1] })

/-- Modelled from the spec: `unlock_rx_pkt_buf` (source file absent), spec 4.1
`release`. -/
def unlock_rx_pkt_buf (i : Nat) (s : State) : pkt_buf_mutex_status_t × State :=
  let r := unlock_result (s.rx_pkt_buf_mutex i)
  (r.1, { s with
    rx_pkt_buf_mutex := Function.update s.rx_pkt_buf_mutex i r.2
    trace := s.trace ++ [Event.unlock_rx_pkt_buf i r.1] })

/-! ## Admission controller: `wlan_mac_num_tx_pkt_buf_available` -/

/-- One iteration of the counting loop (wlan_mac_high.c:1928-1940): the pair
`(num_empty, num_low_owned)` after looking at slot `i`. Both counters are `u8`
and never exceed `NUM_TX_PKT_BUF_MPDU`, so they do not wrap. -/
def count_tx_pkt_buf (s : State) (pkt_buf_group : pkt_buf_group_t) (acc : Nat × Nat) (i : Nat) :
    Nat × Nat :=
  let tx_frame_info := s.tx_pkt_buf i
  let num_empty :=
    if tx_frame_info.tx_pkt_buf_state = TX_PKT_BUF_HIGH_CTRL then acc.1 + 1 else acc.1
  let num_low_owned :=
    if tx_frame_info.queue_info.pkt_buf_group = pkt_buf_group ∧
        (tx_frame_info.tx_pkt_buf_state = TX_PKT_BUF_READY ∨
         tx_frame_info.tx_pkt_buf_state = TX_PKT_BUF_LOW_CTRL) then acc.2 + 1 else acc.2
  (num_empty, num_low_owned)

/-- The function `wlan_mac_num_tx_pkt_buf_available` (wlan_mac_high.c:1920-1977);
the warning prints of the clipping branches are not part of the result. -/
def wlan_mac_num_tx_pkt_buf_available (s : State) (pkt_buf_group : pkt_buf_group_t) : Int :=
  let counts := (List.range NUM_TX_PKT_BUF_MPDU).foldl (count_tx_pkt_buf s pkt_buf_group) (0, 0)
  let num_empty := counts.1
  let num_low_owned := counts.2
  if num_empty = 0 then 0
  else if pkt_buf_group = PKT_BUF_GROUP_GENERAL then
    let num_low_owned := if num_low_owned > 2 then 2 else num_low_owned
    (2 : Int) - (num_low_owned : Int)
  else if pkt_buf_group = PKT_BUF_GROUP_DTIM_MCAST then
    let num_low_owned := if num_low_owned > 3 then 3 else num_low_owned
    (3 : Int) - (num_low_owned : Int)
  else 0

/-- The function `wlan_mac_high_get_empty_tx_packet_buffer`
(wlan_mac_high.c:1989-2007): the loop with its `break`, as a search from index
`i` with `n` iterations left. -/
def get_empty_tx_packet_buffer_loop (s : State) : Nat → Nat → Int
  | 0, _ => -1
  | n + 1, i =>
    if (s.tx_pkt_buf i).tx_pkt_buf_state = TX_PKT_BUF_HIGH_CTRL then (i : Int)
    else get_empty_tx_packet_buffer_loop s n (i + 1)

/-- The function `wlan_mac_high_get_empty_tx_packet_buffer`: index of the first
general slot in state TX_PKT_BUF_HIGH_CTRL, or -1. It reads the pool only. -/
def wlan_mac_high_get_empty_tx_packet_buffer (s : State) : Int :=
  get_empty_tx_packet_buffer_loop s NUM_TX_PKT_BUF_MPDU 0

/-! ## Boot reconciliation: the two loops of `wlan_mac_high_init` -/

/-- Body of the Tx loop of `wlan_mac_high_init` (wlan_mac_high.c:277-316) for
index `i`. The outer switch selects the six general buffers, then the beacon
buffer (which falls through into the RTS / ACK_CTS case), then RTS and ACK_CTS;
the inner switch runs the force-lock branch for UNINITIALIZED, HIGH_CTRL, DONE
and `default`, and does nothing for READY and LOW_CTRL. -/
def wlan_mac_high_init_tx_pkt_buf (s : State) (i : Nat) : State :=
  if i = TX_PKT_BUF_MPDU_1 ∨ i = TX_PKT_BUF_MPDU_2 ∨ i = TX_PKT_BUF_MPDU_3 ∨
      i = TX_PKT_BUF_MPDU_4 ∨ i = TX_PKT_BUF_MPDU_5 ∨ i = TX_PKT_BUF_MPDU_6 then
    match (s.tx_pkt_buf i).tx_pkt_buf_state with
    | TX_PKT_BUF_UNINITIALIZED | TX_PKT_BUF_HIGH_CTRL | TX_PKT_BUF_DONE
    | tx_pkt_buf_state_t.corrupt _ =>
      set_tx_pkt_buf_state i TX_PKT_BUF_HIGH_CTRL (force_lock_tx_pkt_buf i s)
    | TX_PKT_BUF_READY | TX_PKT_BUF_LOW_CTRL => s
  else if i = TX_PKT_BUF_BEACON then
    let s1 := (unlock_tx_pkt_buf TX_PKT_BUF_BEACON s).2
    let s2 := set_tx_pkt_buf_state i TX_PKT_BUF_HIGH_CTRL s1
    (unlock_tx_pkt_buf i s2).2
  else if i = TX_PKT_BUF_RTS ∨ i = TX_PKT_BUF_ACK_CTS then
    (unlock_tx_pkt_buf i s).2
  else s

/-- Body of the Rx loop of `wlan_mac_high_init` (wlan_mac_high.c:323-347) for
index `i`: nothing for UNINITIALIZED and LOW_CTRL; for HIGH_CTRL, READY and
`default` the tag is set to LOW_CTRL and the mutex is released. -/
def wlan_mac_high_init_rx_pkt_buf (s : State) (i : Nat) : State :=
  match (s.rx_pkt_buf i).rx_pkt_buf_state with
  | RX_PKT_BUF_UNINITIALIZED | RX_PKT_BUF_LOW_CTRL => s
  | RX_PKT_BUF_HIGH_CTRL | RX_PKT_BUF_READY | rx_pkt_buf_state_t.corrupt _ =>
    (unlock_rx_pkt_buf i (set_rx_pkt_buf_state i RX_PKT_BUF_LOW_CTRL s)).2

/-- The Tx reconciliation loop, `for(i = 0; i < NUM_TX_PKT_BUFS; i++)`. -/
def wlan_mac_high_init_tx_loop (s : State) : State :=
  (List.range NUM_TX_PKT_BUFS).foldl wlan_mac_high_init_tx_pkt_buf s

/-- The Rx reconciliation loop, `for(i = 0; i < NUM_RX_PKT_BUFS; i++)`. -/
def wlan_mac_high_init_rx_loop (s : State) : State :=
  (List.range NUM_RX_PKT_BUFS).foldl wlan_mac_high_init_rx_pkt_buf s

/-- The packet-buffer part of `wlan_mac_high_init` (wlan_mac_high.c:276-348): the
Tx loop followed by the Rx loop. -/
def wlan_mac_high_init (s : State) : State :=
  wlan_mac_high_init_rx_loop (wlan_mac_high_init_tx_loop s)

/-- Effect of one Tx loop iteration on the pair (header, mutex owner) of the
slot it visits; used to read the loop slot by slot. -/
def init_tx_slot (i : Nat) (p : tx_frame_info_t × Option cpu_t) :
    tx_frame_info_t × Option cpu_t :=
  if i = TX_PKT_BUF_MPDU_1 ∨ i = TX_PKT_BUF_MPDU_2 ∨ i = TX_PKT_BUF_MPDU_3 ∨
      i = TX_PKT_BUF_MPDU_4 ∨ i = TX_PKT_BUF_MPDU_5 ∨ i = TX_PKT_BUF_MPDU_6 then
    match p.1.tx_pkt_buf_state with
    | TX_PKT_BUF_READY | TX_PKT_BUF_LOW_CTRL => p
    | _ => ({ p.1 with tx_pkt_buf_state := TX_PKT_BUF_HIGH_CTRL }, some CPU_HIGH)
  else if i = TX_PKT_BUF_BEACON then
    ({ p.1 with tx_pkt_buf_state := TX_PKT_BUF_HIGH_CTRL },
      (unlock_result (unlock_result p.2).2).2)
  else if i = TX_PKT_BUF_RTS ∨ i = TX_PKT_BUF_ACK_CTS then
    (p.1, (unlock_result p.2).2)
  else p

/-- Effect of one Rx loop iteration on the pair (header, mutex owner) of the
slot it visits. -/
def init_rx_slot (p : rx_frame_info_t × Option cpu_t) : rx_frame_info_t × Option cpu_t :=
  match p.1.rx_pkt_buf_state with
  | RX_PKT_BUF_UNINITIALIZED | RX_PKT_BUF_LOW_CTRL => p
  | _ => ({ p.1 with rx_pkt_buf_state := RX_PKT_BUF_LOW_CTRL }, (unlock_result p.2).2)

/-- The pair (header, mutex owner) of Tx slot `i`. -/
def State.tx_slot (s : State) (i : Nat) : tx_frame_info_t × Option cpu_t :=
  (s.tx_pkt_buf i, s.tx_pkt_buf_mutex i)

/-- The pair (header, mutex owner) of Rx slot `i`. -/
def State.rx_slot (s : State) (i : Nat) : rx_frame_info_t × Option cpu_t :=
  (s.rx_pkt_buf i, s.rx_pkt_buf_mutex i)

/-! ## Transfer engine and handoff -/

/-- Modelled from the spec: `station_info_t` is declared in a header that is not
among the sources; these are the fields the code under `src/` reads. -/
structure station_info_t where
  capabilities : Nat
  tx_params_mgmt : tx_params_t
  tx_params_data : tx_params_t
  deriving DecidableEq, Repr

/-- Modelled from the spec: the 802.11 header at the start of a queued frame
(declared in a header that is not among the sources); the handoff reads
`address_1` and `frame_control_1`. -/
structure mac_header_80211 where
  frame_control_1 : Nat
  address_1 : List Nat
  deriving DecidableEq, Repr

/-- Modelled from the spec: a Tx queue entry, `tx_queue_buffer_t` (declared in a
header that is not among the sources), with the fields the handoff reads;
`frame_addr` is the address of the frame bytes, `&(tx_queue_buffer->frame)`. -/
structure tx_queue_buffer_t where
  length : Nat
  queue_info : tx_queue_details_t
  flags : Nat
  station_info : Option station_info_t
  frame : mac_header_80211
  frame_addr : Nat
  deriving DecidableEq, Repr

/-- Selector argument of `wlan_mac_get_default_tx_params`. -/
inductive default_tx_params_sel_t
  | unicast_mgmt
  | unicast_data
  | mcast_mgmt
  | mcast_data
  deriving DecidableEq, Repr

/-- What the embedded functions use but `src/` does not define: macros and
constants of absent headers, the Xilinx CDMA driver call, framework helpers and
the registered user callback. They are parameters of the embedding. -/
structure Extern where
  /-- The macro `CALC_HIGH_ADDR(base, size)`. -/
  CALC_HIGH_ADDR : Nat → Nat → Nat
  /-- Status returned by `XAxiCdma_SimpleTransfer(&cdma_inst, src, dest, size, ..)`. -/
  XAxiCdma_SimpleTransfer : Nat → Nat → Nat → Int
  /-- The address `CALC_PKT_BUF_ADDR(base, i) + sizeof(tx_frame_info_t) +
  PHY_TX_PKT_BUF_PHY_HDR_SIZE` of the payload of Tx slot `i`. -/
  tx_pkt_buf_payload_addr : Nat → Nat
  /-- The macro `wlan_addr_mcast(addr)`. -/
  wlan_addr_mcast : List Nat → Bool
  /-- The framework helper `wlan_mac_get_default_tx_params`. -/
  wlan_mac_get_default_tx_params : default_tx_params_sel_t → tx_params_t
  /-- The registered `mpdu_tx_dequeue_callback`, which may modify the packet. -/
  mpdu_tx_dequeue_callback : tx_queue_buffer_t → tx_queue_buffer_t
  WLAN_PHY_FCS_NBYTES : Nat
  TX_QUEUE_BUFFER_FLAGS_FILL_TIMESTAMP : Nat
  TX_QUEUE_BUFFER_FLAGS_FILL_DURATION : Nat
  TX_QUEUE_BUFFER_FLAGS_FILL_UNIQ_SEQ : Nat
  TX_FRAME_INFO_FLAGS_FILL_TIMESTAMP : Nat
  TX_FRAME_INFO_FLAGS_FILL_DURATION : Nat
  TX_FRAME_INFO_FLAGS_FILL_UNIQ_SEQ : Nat
  TX_FRAME_INFO_FLAGS_REQ_TO : Nat
  MAC_FRAME_CTRL1_MASK_TYPE : Nat
  MAC_FRAME_CTRL1_TYPE_MGMT : Nat

/-- Xilinx status code `XST_SUCCESS`. -/
def XST_SUCCESS : Int := 0
/-- Xilinx status code `XST_FAILURE`. -/
def XST_FAILURE : Int := 1

/-- The function `wlan_mac_high_cdma_finish_transfer` (wlan_mac_high.c:1064-1067):
the busy-wait on the CDMA engine, recorded as one barrier event. -/
def wlan_mac_high_cdma_finish_transfer (s : State) : State :=
  s.log Event.cdma_finish_transfer

/-- The function `wlan_mac_high_cdma_start_transfer` (wlan_mac_high.c:1013-1049).
Addresses and sizes are `u32` values. -/
def wlan_mac_high_cdma_start_transfer (x : Extern) (dest src size : Nat) (s : State) :
    Int × State :=
  let return_value : Int := XST_SUCCESS
  let out_of_range : Nat :=
    if src ≥ s.dlmb_baseaddr ∧ src ≤ x.CALC_HIGH_ADDR s.dlmb_baseaddr s.dlmb_size then 1
    else if dest ≥ s.dlmb_baseaddr ∧ dest ≤ x.CALC_HIGH_ADDR s.dlmb_baseaddr s.dlmb_size then 1
    else 0
  if size = 0 then
    (XST_FAILURE, s.log (Event.print 1032))
  else if out_of_range = 0 then
    let s1 := wlan_mac_high_cdma_finish_transfer s
    let return_value := x.XAxiCdma_SimpleTransfer src dest size
    let s2 := s1.log (Event.XAxiCdma_SimpleTransfer src dest size return_value)
    (return_value, if return_value ≠ 0 then s2.log (Event.print 1041) else s2)
  else
    (return_value, (s.log (Event.print 1044)).log (Event.memcpy dest src size))

/-- The statement `if(cond) tx_frame_info->flags |= bit;` for slot `i`. -/
def tx_frame_info_flags_or (cond : Bool) (i bit : Nat) (s : State) : State :=
  if cond then tx_frame_info_write i (fun f => { f with flags := f.flags ||| bit }) s else s

/-- The Tx parameters `wlan_mac_high_mpdu_transmit` copies into the slot
(wlan_mac_high.c:1131-1157). -/
def mpdu_transmit_params (x : Extern) (tx_queue_buffer : tx_queue_buffer_t)
    (is_multicast : Bool) : tx_params_t :=
  let frame_control_1 := tx_queue_buffer.frame.frame_control_1
  match tx_queue_buffer.station_info with
  | none =>
    if is_multicast then
      if frame_control_1 &&& x.MAC_FRAME_CTRL1_MASK_TYPE = x.MAC_FRAME_CTRL1_TYPE_MGMT then
        x.wlan_mac_get_default_tx_params default_tx_params_sel_t.mcast_mgmt
      else x.wlan_mac_get_default_tx_params default_tx_params_sel_t.mcast_data
    else
      if frame_control_1 &&& x.MAC_FRAME_CTRL1_MASK_TYPE = x.MAC_FRAME_CTRL1_TYPE_MGMT then
        x.wlan_mac_get_default_tx_params default_tx_params_sel_t.unicast_mgmt
      else x.wlan_mac_get_default_tx_params default_tx_params_sel_t.unicast_data
  | some station_info =>
    if frame_control_1 &&& x.MAC_FRAME_CTRL1_MASK_TYPE = x.MAC_FRAME_CTRL1_TYPE_MGMT then
      station_info.tx_params_mgmt
    else station_info.tx_params_data

/-- First part of `wlan_mac_high_mpdu_transmit` (wlan_mac_high.c:1093-1160): the
dequeue callback, the start of the payload copy, the metadata writes and the
wait for the copy. `xfer_len` is a `u32`. -/
def wlan_mac_high_mpdu_transmit_fill (x : Extern) (packet : tx_queue_buffer_t)
    (tx_pkt_buf : Nat) (s : State) : State :=
  let is_multicast := x.wlan_addr_mcast packet.frame.address_1
  let copy_destination := x.tx_pkt_buf_payload_addr tx_pkt_buf
  let copy_source := packet.frame_addr
  let tx_queue_buffer := x.mpdu_tx_dequeue_callback packet
  let s := s.log (Event.callback callback_t.mpdu_tx_dequeue_callback packet.frame_addr)
  let xfer_len : Nat :=
    (((tx_queue_buffer.length : Int) - (x.WLAN_PHY_FCS_NBYTES : Int)) % (2 ^ 32 : Int)).toNat
  let s := (wlan_mac_high_cdma_start_transfer x copy_destination copy_source xfer_len s).2
  let s := tx_frame_info_write tx_pkt_buf (fun f => { f with length := tx_queue_buffer.length }) s
  let s := tx_frame_info_write tx_pkt_buf
    (fun f => { f with queue_info := tx_queue_buffer.queue_info }) s
  let s := tx_frame_info_write tx_pkt_buf (fun f => { f with flags := 0 }) s
  let s := tx_frame_info_flags_or
    (tx_queue_buffer.flags &&& x.TX_QUEUE_BUFFER_FLAGS_FILL_TIMESTAMP != 0)
    tx_pkt_buf x.TX_FRAME_INFO_FLAGS_FILL_TIMESTAMP s
  let s := tx_frame_info_flags_or
    (tx_queue_buffer.flags &&& x.TX_QUEUE_BUFFER_FLAGS_FILL_DURATION != 0)
    tx_pkt_buf x.TX_FRAME_INFO_FLAGS_FILL_DURATION s
  let s := tx_frame_info_flags_or
    (tx_queue_buffer.flags &&& x.TX_QUEUE_BUFFER_FLAGS_FILL_UNIQ_SEQ != 0)
    tx_pkt_buf x.TX_FRAME_INFO_FLAGS_FILL_UNIQ_SEQ s
  let s := tx_frame_info_flags_or (!is_multicast) tx_pkt_buf x.TX_FRAME_INFO_FLAGS_REQ_TO s
  let s := tx_frame_info_write tx_pkt_buf (fun f => { f with unique_seq := 0 }) s
  let s := tx_frame_info_write tx_pkt_buf
    (fun f => { f with params := mpdu_transmit_params x tx_queue_buffer is_multicast }) s
  wlan_mac_high_cdma_finish_transfer s

/-- The message `ipc_msg_to_low` built at wlan_mac_high.c:1162-1164. -/
def tx_pkt_buf_ready_msg (tx_pkt_buf : Nat) : wlan_ipc_msg_t :=
  { msg_id := IPC_MBOX_TX_PKT_BUF_READY, arg0 := tx_pkt_buf, num_payload_words := 0,
    payload := [] }

/-- The function `wlan_mac_high_mpdu_transmit` (wlan_mac_high.c:1081-1189): fill
the slot, set its tag to READY, release the mutex; if the release fails because
CPU Low holds the mutex, revert the tag to HIGH_CTRL, otherwise write the READY
message to the mailbox. -/
def wlan_mac_high_mpdu_transmit (x : Extern) (packet : tx_queue_buffer_t) (tx_pkt_buf : Nat)
    (s : State) : State :=
  let s := wlan_mac_high_mpdu_transmit_fill x packet tx_pkt_buf s
  let ipc_msg_to_low := tx_pkt_buf_ready_msg tx_pkt_buf
  let s := set_tx_pkt_buf_state tx_pkt_buf TX_PKT_BUF_READY s
  let r := unlock_tx_pkt_buf tx_pkt_buf s
  if r.1 = PKT_BUF_MUTEX_FAIL_NOT_LOCK_OWNER then
    set_tx_pkt_buf_state tx_pkt_buf TX_PKT_BUF_HIGH_CTRL (r.2.log (Event.print 1182))
  else
    r.2.log (Event.write_mailbox_msg ipc_msg_to_low)

/-- The events a call appended: the trace of `s1` beyond the length of the trace
of `s0`. -/
def State.events_since (s1 s0 : State) : List Event :=
  s1.trace.drop s0.trace.length

/-- Recogniser of an IPC_MBOX_TX_PKT_BUF_READY message written to the mailbox. -/
def Event.is_tx_pkt_buf_ready_msg : Event → Bool
  | Event.write_mailbox_msg m => decide (m.msg_id = IPC_MBOX_TX_PKT_BUF_READY)
  | _ => false

/-- Last part of `wlan_mac_high_mpdu_transmit` (wlan_mac_high.c:1162-1188): the
statements after the wait for the copy, applied to the state the fill part
leaves. -/
def wlan_mac_high_mpdu_transmit_handoff (tx_pkt_buf : Nat) (s : State) : State :=
  let ipc_msg_to_low := tx_pkt_buf_ready_msg tx_pkt_buf
  let s := set_tx_pkt_buf_state tx_pkt_buf TX_PKT_BUF_READY s
  let r := unlock_tx_pkt_buf tx_pkt_buf s
  if r.1 = PKT_BUF_MUTEX_FAIL_NOT_LOCK_OWNER then
    set_tx_pkt_buf_state tx_pkt_buf TX_PKT_BUF_HIGH_CTRL (r.2.log (Event.print 1182))
  else
    r.2.log (Event.write_mailbox_msg ipc_msg_to_low)

/-- First statements of `wlan_mac_high_mpdu_transmit` (wlan_mac_high.c:1093-1110):
the state right after the dequeue callback and the call that starts the payload
copy. -/
def wlan_mac_high_mpdu_transmit_start (x : Extern) (packet : tx_queue_buffer_t)
    (tx_pkt_buf : Nat) (s : State) : State :=
  let copy_destination := x.tx_pkt_buf_payload_addr tx_pkt_buf
  let copy_source := packet.frame_addr
  let tx_queue_buffer := x.mpdu_tx_dequeue_callback packet
  let s := s.log (Event.callback callback_t.mpdu_tx_dequeue_callback packet.frame_addr)
  let xfer_len : Nat :=
    (((tx_queue_buffer.length : Int) - (x.WLAN_PHY_FCS_NBYTES : Int)) % (2 ^ 32 : Int)).toNat
  (wlan_mac_high_cdma_start_transfer x copy_destination copy_source xfer_len s).2

/-! ## Parameters tracked for CPU Low, and their setters -/

/-- Modelled from the spec: the reason codes of an IPC_MBOX_CPU_STATUS message
(declared in a header that is not among the sources); `other` stands for any
value the switch at wlan_mac_high.c:1431 sends to `default`. -/
inductive cpu_status_reason_t
  | CPU_STATUS_REASON_EXCEPTION
  | CPU_STATUS_REASON_BOOTED
  | CPU_STATUS_REASON_RESPONSE
  | other
  deriving DecidableEq, Repr

/-- What the message handler, the setters and the register read use but `src/`
does not define: macros and constants of absent headers, compile-time switches,
framework helpers, and what the registered Rx callback returns. They are
parameters of the embedding. The other registered callbacks return nothing the
code uses; a call through one of these function pointers is recorded in the
trace as an event. What the registered function does when it runs is not part
of the embedding of the framework function that calls it: `wlan_mac_high_init`
installs `wlan_null_callback` for each pointer (wlan_mac_high.c:242-255), and
an application may register its own. The station application registers
`poll_tx_queues` as `tx_poll_callback` (wlan_mac_sta.c:191); it is embedded
below as `poll_tx_queues` and passes the frames it dequeues to
`transmit_checkin` (queue module, not among the sources), the caller of
`wlan_mac_high_mpdu_transmit`. A write to a Tx slot made while a callback runs
is therefore a write of `wlan_mac_high_mpdu_transmit`, not of the function that
made the call. -/
structure Collab where
  /-- The test `wlan_verify_channel(ch) == XST_SUCCESS`. -/
  wlan_verify_channel : Nat → Bool
  RX_ANTMODE_SISO_ANTA : Nat
  RX_ANTMODE_SISO_ANTB : Nat
  RX_ANTMODE_SISO_ANTC : Nat
  RX_ANTMODE_SISO_ANTD : Nat
  RX_ANTMODE_SISO_SELDIV_2ANT : Nat
  /-- Decoding of `msg->arg0` of an IPC_MBOX_CPU_STATUS message into its case. -/
  cpu_status_reason : Nat → cpu_status_reason_t
  /-- The flags the registered `mpdu_rx_callback` returns for Rx slot `i`. -/
  mpdu_rx_callback : Nat → Nat
  MAC_RX_CALLBACK_RETURN_FLAG_NO_COUNTS : Nat
  MAC_RX_CALLBACK_RETURN_FLAG_DUP : Nat
  RX_PROCESS_COUNTS_OPTION_FLAG_IS_DUPLICATE : Nat
  /-- The field `station_info_create(bcast_addr)->tx_params_mgmt`. -/
  bcast_tx_params_mgmt : tx_params_t
  WLAN_SW_CONFIG_ENABLE_LOGGING : Bool
  WLAN_SW_CONFIG_ENABLE_TXRX_COUNTS : Bool
  WLAN_SW_CONFIG_ENABLE_WLAN_EXP : Bool
  WLAN_EXP_CPU_LOW_DATA_REQ_TIMEOUT : Nat
  IPC_REG_READ_MODE : Nat
  /-- The value found in `ipc_msg_to_low.arg0` where the code does not assign it. -/
  unassigned_arg0 : Nat
  /-- The address of the buffer `ipc_msg_from_low_payload`. -/
  ipc_msg_from_low_payload_addr : Nat

/-- The null pointer. -/
def NULL : Nat := 0
/-- The macro at wlan_mac_high.c:108. -/
def CPU_LOW_REG_READ_BUFFER_STATUS_READY : Nat := 1
/-- The macro at wlan_mac_high.c:109. -/
def CPU_LOW_REG_READ_BUFFER_STATUS_NOT_READY : Nat := 0

/-- The value a `u32` parameter holds when the call passes `v`. -/
def to_u32 (v : Nat) : Nat := v % 2 ^ 32

/-- The value a `u8` parameter holds when the call passes `v`. -/
def to_u8 (v : Nat) : Nat := v % 2 ^ 8

/-- The value an `s8` parameter holds when the call passes `v`: the integer in
-128..127 that is congruent to `v` modulo 2^8. -/
def to_s8 (v : Int) : Int := (v + 128) % 256 - 128

/-- The conversion `(u32)pow` of an `s8`. -/
def s8_to_u32 (pow : Int) : Nat := (pow % (2 ^ 32 : Int)).toNat

/-- The call `write_mailbox_msg(&msg)`. -/
def write_mailbox_msg (msg : wlan_ipc_msg_t) (s : State) : State :=
  s.log (Event.write_mailbox_msg msg)

/-- A setter message: one payload word, `arg0` not assigned. -/
def low_param_msg (c : Collab) (id : ipc_mbox_msg_t) (word : Nat) : wlan_ipc_msg_t :=
  { msg_id := id, arg0 := c.unassigned_arg0, num_payload_words := 1, payload := [word] }

/-- The function `wlan_mac_high_set_srand` (wlan_mac_high.c:1519-1533); the
parameter is a `u32`. -/
def wlan_mac_high_set_srand (c : Collab) (seed : Nat) (s : State) : State :=
  let seed := to_u32 seed
  let s := { s with low_param_random_seed := seed }
  write_mailbox_msg (low_param_msg c IPC_MBOX_LOW_RANDOM_SEED seed) s

/-- The function `wlan_mac_high_set_radio_channel` (wlan_mac_high.c:1560-1578);
the parameter is a `u32`. -/
def wlan_mac_high_set_radio_channel (c : Collab) (mac_channel : Nat) (s : State) : State :=
  let mac_channel := to_u32 mac_channel
  if c.wlan_verify_channel mac_channel then
    let s := { s with low_param_channel := mac_channel }
    write_mailbox_msg (low_param_msg c IPC_MBOX_CONFIG_CHANNEL mac_channel) s
  else
    s.log (Event.print 1576)

/-- The function `wlan_mac_high_set_rx_ant_mode` (wlan_mac_high.c:1612-1638); the
parameter is a `u8`. -/
def wlan_mac_high_set_rx_ant_mode (c : Collab) (ant_mode : Nat) (s : State) : State :=
  let ant_mode := to_u8 ant_mode
  if ant_mode = c.RX_ANTMODE_SISO_ANTA ∨ ant_mode = c.RX_ANTMODE_SISO_ANTB ∨
      ant_mode = c.RX_ANTMODE_SISO_ANTC ∨ ant_mode = c.RX_ANTMODE_SISO_ANTD ∨
      ant_mode = c.RX_ANTMODE_SISO_SELDIV_2ANT then
    let s := { s with low_param_rx_ant_mode := ant_mode }
    write_mailbox_msg (low_param_msg c IPC_MBOX_CONFIG_RX_ANT_MODE ant_mode) s
  else
    s.log (Event.print 1627)

/-- The function `wlan_mac_high_set_tx_ctrl_power` (wlan_mac_high.c:1651-1665);
the parameter and the tracking variable are `s8`, the payload word is
`(u32)pow`. -/
def wlan_mac_high_set_tx_ctrl_power (c : Collab) (pow : Int) (s : State) : State :=
  let pow := to_s8 pow
  let s := { s with low_param_tx_ctrl_pow := pow }
  write_mailbox_msg (low_param_msg c IPC_MBOX_CONFIG_TX_CTRL_POW (s8_to_u32 pow)) s

/-- The function `wlan_mac_high_set_radio_tx_power` (wlan_mac_high.c:1677-1691);
the parameter and the tracking variable are `s8`, the payload word is
`(u32)pow`. -/
def wlan_mac_high_set_radio_tx_power (c : Collab) (pow : Int) (s : State) : State :=
  let pow := to_s8 pow
  let s := { s with low_param_radio_tx_pow := pow }
  write_mailbox_msg (low_param_msg c IPC_MBOX_SET_RADIO_TX_POWER (s8_to_u32 pow)) s

/-- The function `wlan_mac_high_set_rx_filter_mode` (wlan_mac_high.c:1713-1727);
the parameter is a `u32`. -/
def wlan_mac_high_set_rx_filter_mode (c : Collab) (filter_mode : Nat) (s : State) : State :=
  let filter_mode := to_u32 filter_mode
  let s := { s with low_param_rx_filter := filter_mode }
  write_mailbox_msg (low_param_msg c IPC_MBOX_CONFIG_RX_FILTER filter_mode) s

/-- The function `wlan_mac_high_set_dsss` (wlan_mac_high.c:1861-1875); the
parameter is a `u32`. -/
def wlan_mac_high_set_dsss (c : Collab) (dsss_value : Nat) (s : State) : State :=
  let dsss_value := to_u32 dsss_value
  let s := { s with low_param_dsss_en := dsss_value }
  write_mailbox_msg (low_param_msg c IPC_MBOX_CONFIG_DSSS_EN dsss_value) s

/-! ## Messages from CPU Low: `wlan_mac_high_process_ipc_msg` -/

/-- A call that exists only when a compile-time switch is on. -/
def log_if (b : Bool) (e : Event) (s : State) : State :=
  if b then s.log e else s

/-- The case IPC_MBOX_TX_BEACON_DONE (wlan_mac_high.c:1229-1268). -/
def process_tx_beacon_done (c : Collab) (msg : wlan_ipc_msg_t) (s : State) : State :=
  let tx_pkt_buf := msg.arg0
  if tx_pkt_buf = TX_PKT_BUF_BEACON then
    let r := lock_tx_pkt_buf tx_pkt_buf s
    if r.1 ≠ PKT_BUF_MUTEX_SUCCESS then
      r.2.log (Event.print 1237)
    else
      let s := set_tx_pkt_buf_state tx_pkt_buf TX_PKT_BUF_HIGH_CTRL r.2
      let s := s.log (Event.callback callback_t.station_info_posttx_process tx_pkt_buf)
      let s := log_if c.WLAN_SW_CONFIG_ENABLE_LOGGING
        (Event.callback callback_t.wlan_exp_log_create_tx_low_entry tx_pkt_buf) s
      let s := s.log (Event.callback callback_t.beacon_tx_done_callback tx_pkt_buf)
      let s := s.log (Event.callback callback_t.station_info_create 0)
      let s := tx_frame_info_write tx_pkt_buf
        (fun f => { f with params := c.bcast_tx_params_mgmt }) s
      let s := set_tx_pkt_buf_state tx_pkt_buf TX_PKT_BUF_READY s
      let r := unlock_tx_pkt_buf tx_pkt_buf s
      if r.1 ≠ PKT_BUF_MUTEX_SUCCESS then r.2.log (Event.print 1260) else r.2
  else
    s.log (Event.print 1265)

/-- The calls between the two tag writes of the normal Rx path
(wlan_mac_high.c:1293-1315): BSS info, station info, logging, the user Rx
callback and the counts. -/
def rx_pkt_buf_ready_callbacks (c : Collab) (rx_pkt_buf : Nat) (s : State) : State :=
  let s := s.log (Event.callback callback_t.network_info_rx_process rx_pkt_buf)
  let s := s.log (Event.callback callback_t.station_info_postrx_process rx_pkt_buf)
  let s := log_if c.WLAN_SW_CONFIG_ENABLE_LOGGING
    (Event.callback callback_t.wlan_exp_log_create_rx_entry rx_pkt_buf) s
  let mpdu_rx_process_flags := c.mpdu_rx_callback rx_pkt_buf
  let s := s.log (Event.callback callback_t.mpdu_rx_callback rx_pkt_buf)
  log_if (c.WLAN_SW_CONFIG_ENABLE_TXRX_COUNTS &&
      (mpdu_rx_process_flags &&& c.MAC_RX_CALLBACK_RETURN_FLAG_NO_COUNTS == 0))
    (Event.callback callback_t.station_info_rx_process_counts
      (if mpdu_rx_process_flags &&& c.MAC_RX_CALLBACK_RETURN_FLAG_DUP ≠ 0
        then c.RX_PROCESS_COUNTS_OPTION_FLAG_IS_DUPLICATE else 0)) s

/-- The statements at wlan_mac_high.c:1330-1332: release the Rx mutex and report
when CPU High turns out to have owned it. -/
def rx_pkt_buf_unlock_report (rx_pkt_buf : Nat) (s : State) : State :=
  let r := unlock_rx_pkt_buf rx_pkt_buf s
  if r.1 = PKT_BUF_MUTEX_SUCCESS then r.2.log (Event.print 1331) else r.2

/-- The case IPC_MBOX_RX_PKT_BUF_READY (wlan_mac_high.c:1271-1338). In the inner
switch `default` shares the branch of RX_PKT_BUF_HIGH_CTRL, which falls through
into the branch of UNINITIALIZED and LOW_CTRL. -/
def process_rx_pkt_buf_ready (c : Collab) (msg : wlan_ipc_msg_t) (s : State) : State :=
  let rx_pkt_buf := msg.arg0
  if rx_pkt_buf < NUM_RX_PKT_BUFS then
    match (s.rx_pkt_buf rx_pkt_buf).rx_pkt_buf_state with
    | RX_PKT_BUF_READY =>
      let r := lock_rx_pkt_buf rx_pkt_buf s
      if r.1 ≠ PKT_BUF_MUTEX_SUCCESS then
        r.2.log (Event.print 1288)
      else
        let s := set_rx_pkt_buf_state rx_pkt_buf RX_PKT_BUF_HIGH_CTRL r.2
        let s := rx_pkt_buf_ready_callbacks c rx_pkt_buf s
        let s := set_rx_pkt_buf_state rx_pkt_buf RX_PKT_BUF_LOW_CTRL s
        let r := unlock_rx_pkt_buf rx_pkt_buf s
        if r.1 ≠ PKT_BUF_MUTEX_SUCCESS then r.2.log (Event.print 1320) else r.2
    | RX_PKT_BUF_HIGH_CTRL | rx_pkt_buf_state_t.corrupt _ =>
      rx_pkt_buf_unlock_report rx_pkt_buf
        (set_rx_pkt_buf_state rx_pkt_buf RX_PKT_BUF_LOW_CTRL s)
    | RX_PKT_BUF_UNINITIALIZED | RX_PKT_BUF_LOW_CTRL =>
      rx_pkt_buf_unlock_report rx_pkt_buf s
  else
    s.log (Event.print 1336)

/-- The case IPC_MBOX_PHY_TX_REPORT (wlan_mac_high.c:1341-1357). -/
def process_phy_tx_report (c : Collab) (msg : wlan_ipc_msg_t) (s : State) : State :=
  let tx_pkt_buf := msg.arg0
  if tx_pkt_buf < NUM_TX_PKT_BUFS then
    let s := log_if c.WLAN_SW_CONFIG_ENABLE_LOGGING
      (Event.callback callback_t.wlan_exp_log_create_tx_low_entry tx_pkt_buf) s
    let s := s.log (Event.callback callback_t.station_info_txreport_process tx_pkt_buf)
    s.log (Event.callback callback_t.mpdu_tx_low_done_callback tx_pkt_buf)
  else s

/-- The calls between the lock and the tag write of the normal DONE path
(wlan_mac_high.c:1384-1393): the Tx poll, station info, logging and the user
Tx-done callback, each recorded as an event. The handoffs that a registered
`tx_poll_callback` makes at line 1384 are executions of
`wlan_mac_high_mpdu_transmit`; they are not part of this definition. -/
def tx_pkt_buf_done_callbacks (c : Collab) (tx_pkt_buf : Nat) (s : State) : State :=
  let s := s.log (Event.callback callback_t.tx_poll_callback 0)
  let s := s.log (Event.callback callback_t.station_info_posttx_process tx_pkt_buf)
  let s := log_if c.WLAN_SW_CONFIG_ENABLE_LOGGING
    (Event.callback callback_t.wlan_exp_log_create_tx_high_entry tx_pkt_buf) s
  s.log (Event.callback callback_t.mpdu_tx_high_done_callback tx_pkt_buf)

/-- The case IPC_MBOX_TX_PKT_BUF_DONE (wlan_mac_high.c:1360-1418). The inner
switch has no `default`; the branch of UNINITIALIZED and HIGH_CTRL falls through
into the release of the branch of READY and LOW_CTRL. -/
def process_tx_pkt_buf_done (c : Collab) (msg : wlan_ipc_msg_t) (s : State) : State :=
  let tx_pkt_buf := msg.arg0
  if tx_pkt_buf < NUM_TX_PKT_BUFS then
    match (s.tx_pkt_buf tx_pkt_buf).tx_pkt_buf_state with
    | TX_PKT_BUF_DONE =>
      let r := lock_tx_pkt_buf tx_pkt_buf s
      if r.1 ≠ PKT_BUF_MUTEX_SUCCESS then
        set_tx_pkt_buf_state tx_pkt_buf TX_PKT_BUF_HIGH_CTRL (r.2.log (Event.print 1377))
      else
        let s := tx_pkt_buf_done_callbacks c tx_pkt_buf r.2
        set_tx_pkt_buf_state tx_pkt_buf TX_PKT_BUF_HIGH_CTRL s
    | TX_PKT_BUF_UNINITIALIZED | TX_PKT_BUF_HIGH_CTRL =>
      let s := force_lock_tx_pkt_buf tx_pkt_buf s
      let s := set_tx_pkt_buf_state tx_pkt_buf TX_PKT_BUF_HIGH_CTRL s
      (unlock_tx_pkt_buf tx_pkt_buf s).2
    | TX_PKT_BUF_READY | TX_PKT_BUF_LOW_CTRL =>
      (unlock_tx_pkt_buf tx_pkt_buf s).2
    | tx_pkt_buf_state_t.corrupt _ => s
  else
    s.log (Event.print 1415)

/-- The statement `if(low_param != unset) setter(low_param);`. -/
def repush (differs : Bool) (setter : State → State) (s : State) : State :=
  if differs then setter s else s

/-- The branch CPU_STATUS_REASON_BOOTED (wlan_mac_high.c:1438-1455). The call
`tx_poll_callback()` at line 1454 is recorded as an event; the handoffs a
registered poll makes there are executions of `wlan_mac_high_mpdu_transmit` and
are not part of this definition. -/
def process_cpu_status_booted (c : Collab) (ipc_msg_from_low_payload : List Nat) (s : State) :
    State :=
  let s := s.log (Event.callback callback_t.cpu_low_reboot_callback
    (ipc_msg_from_low_payload.getD 1 0))
  let s := repush (s.low_param_channel != 0xFFFFFFFF)
    (wlan_mac_high_set_radio_channel c s.low_param_channel) s
  let s := repush (s.low_param_dsss_en != 0xFFFFFFFF)
    (wlan_mac_high_set_dsss c s.low_param_dsss_en) s
  let s := repush (s.low_param_rx_ant_mode != 0xFF)
    (wlan_mac_high_set_rx_ant_mode c s.low_param_rx_ant_mode) s
  let s := repush (s.low_param_tx_ctrl_pow != -127)
    (wlan_mac_high_set_tx_ctrl_power c s.low_param_tx_ctrl_pow) s
  let s := repush (s.low_param_radio_tx_pow != -127)
    (wlan_mac_high_set_radio_tx_power c s.low_param_radio_tx_pow) s
  let s := repush (s.low_param_rx_filter != 0xFFFFFFFF)
    (wlan_mac_high_set_rx_filter_mode c s.low_param_rx_filter) s
  let s := repush (s.low_param_random_seed != 0xFFFFFFFF)
    (wlan_mac_high_set_srand c s.low_param_random_seed) s
  s.log (Event.callback callback_t.tx_poll_callback 0)

/-- The case IPC_MBOX_CPU_STATUS (wlan_mac_high.c:1422-1468). -/
def process_cpu_status (c : Collab) (msg : wlan_ipc_msg_t) (ipc_msg_from_low_payload : List Nat)
    (s : State) : State :=
  let s := { s with cpu_low_status := ipc_msg_from_low_payload.getD 0 0 }
  match c.cpu_status_reason msg.arg0 with
  | cpu_status_reason_t.CPU_STATUS_REASON_EXCEPTION =>
    ((s.log (Event.print 1433)).log (Event.print 1434)).log
      (Event.callback callback_t.wlan_platform_high_userio_disp_status 0)
  | cpu_status_reason_t.CPU_STATUS_REASON_BOOTED =>
    process_cpu_status_booted c ipc_msg_from_low_payload s
  | cpu_status_reason_t.CPU_STATUS_REASON_RESPONSE =>
    log_if c.WLAN_SW_CONFIG_ENABLE_WLAN_EXP
      (Event.callback callback_t.wlan_exp_node_set_type_low
        (ipc_msg_from_low_payload.getD 1 0)) s
  | cpu_status_reason_t.other => s

/-- The effect of `memcpy(dest, src, 4 * n)` on word memory, `src` given by its
words. -/
def memcpy_words (mem : Nat → Nat) (dest : Nat) (src : List Nat) (n : Nat) : Nat → Nat :=
  fun a =>
    if dest ≤ a ∧ a < dest + 4 * n ∧ (a - dest) % 4 = 0 then src.getD ((a - dest) / 4) 0
    else mem a

/-- The case IPC_MBOX_MEM_READ_WRITE (wlan_mac_high.c:1472-1483). -/
def process_mem_read_write (c : Collab) (msg : wlan_ipc_msg_t)
    (ipc_msg_from_low_payload : List Nat) (s : State) : State :=
  if s.cpu_low_reg_read_buffer ≠ NULL then
    let mem := memcpy_words s.mem s.cpu_low_reg_read_buffer ipc_msg_from_low_payload
      msg.num_payload_words
    let s := { s with mem := mem }
    let s := s.log (Event.memcpy s.cpu_low_reg_read_buffer c.ipc_msg_from_low_payload_addr
      (msg.num_payload_words * 4))
    { s with cpu_low_reg_read_buffer_status := CPU_LOW_REG_READ_BUFFER_STATUS_READY }
  else
    s.log (Event.print 1481)

/-- The function `wlan_mac_high_process_ipc_msg` (wlan_mac_high.c:1219-1506): the
switch on the message type. -/
def wlan_mac_high_process_ipc_msg (c : Collab) (msg : wlan_ipc_msg_t)
    (ipc_msg_from_low_payload : List Nat) (s : State) : State :=
  match msg.msg_id with
  | IPC_MBOX_TX_BEACON_DONE => process_tx_beacon_done c msg s
  | IPC_MBOX_RX_PKT_BUF_READY => process_rx_pkt_buf_ready c msg s
  | IPC_MBOX_PHY_TX_REPORT => process_phy_tx_report c msg s
  | IPC_MBOX_TX_PKT_BUF_DONE => process_tx_pkt_buf_done c msg s
  | IPC_MBOX_CPU_STATUS => process_cpu_status c msg ipc_msg_from_low_payload s
  | IPC_MBOX_MEM_READ_WRITE => process_mem_read_write c msg ipc_msg_from_low_payload s
  | IPC_MBOX_LOW_PARAM => s.log (Event.print 1497)
  | _ => s.log (Event.print 1503)

/-! ## Register read with timeout: `wlan_mac_high_read_low_mem` -/

/-- What happens around CPU High while it polls: the messages the mailbox
interrupt hands to `wlan_mac_high_process_ipc_msg` before the `k`-th evaluation
of the loop condition, between that evaluation and the `k`-th reading of the
system time, and between the end of the loop and the statement that resets the
buffer pointer; and the values `get_system_time_usec` returns. -/
structure PollEnv where
  before_status : Nat → List (wlan_ipc_msg_t × List Nat)
  before_time : Nat → List (wlan_ipc_msg_t × List Nat)
  before_reset : List (wlan_ipc_msg_t × List Nat)
  start_timestamp : Nat
  system_time : Nat → Nat

/-- The interrupt handler run on a burst of messages, in order. -/
def deliver (c : Collab) (msgs : List (wlan_ipc_msg_t × List Nat)) (s : State) : State :=
  msgs.foldl (fun s m => wlan_mac_high_process_ipc_msg c m.1 m.2 s) s

/-- The `u64` difference `get_system_time_usec() - start_timestamp`. -/
def elapsed_usec (now start : Nat) : Nat :=
  (((now : Int) - (start : Int)) % (2 ^ 64 : Int)).toNat

/-- The polling loop of `wlan_mac_high_read_low_mem` (wlan_mac_high.c:1798-1810)
from its `k`-th iteration on, with `fuel` iterations allowed; `none` when the
fuel runs out before the loop ends. Interrupts are enabled throughout, so the
handler may run between any two statements; its runs are taken from `env`. -/
def read_low_mem_wait (c : Collab) (env : PollEnv) : Nat → Nat → State → Option (Int × State)
  | 0, _, _ => none
  | fuel + 1, k, s =>
    let s := deliver c (env.before_status k) s
    if s.cpu_low_reg_read_buffer_status = CPU_LOW_REG_READ_BUFFER_STATUS_READY then
      let s := deliver c env.before_reset s
      some (0, { s with cpu_low_reg_read_buffer := NULL })
    else
      let s := deliver c (env.before_time k) s
      if elapsed_usec (env.system_time k) env.start_timestamp >
          c.WLAN_EXP_CPU_LOW_DATA_REQ_TIMEOUT then
        let s := s.log (Event.print 1800)
        let s := deliver c env.before_reset s
        some (-1, { s with cpu_low_reg_read_buffer := NULL })
      else
        read_low_mem_wait c env fuel (k + 1) s

/-- The function `wlan_mac_high_read_low_mem` (wlan_mac_high.c:1772-1818);
`payload` is the address of the caller's buffer. -/
def wlan_mac_high_read_low_mem (c : Collab) (env : PollEnv) (fuel : Nat)
    (num_words baseaddr payload : Nat) (s : State) : Option (Int × State) :=
  if s.intc_is_started then
    let ipc_msg_to_low : wlan_ipc_msg_t :=
      { msg_id := IPC_MBOX_MEM_READ_WRITE, num_payload_words := 2,
        arg0 := c.IPC_REG_READ_MODE, payload := [baseaddr, num_words] }
    let s := { s with cpu_low_reg_read_buffer := payload }
    let s := { s with
      cpu_low_reg_read_buffer_status := CPU_LOW_REG_READ_BUFFER_STATUS_NOT_READY }
    let s := write_mailbox_msg ipc_msg_to_low s
    read_low_mem_wait c env fuel 0 s
  else
    some (-1, s.log (Event.print 1813))

/-! ## Rate fallback: `wlan_mac_sanitize_tx_params` -/

/-- Constants of headers that are not among the sources, as used by
`wlan_mac_sanitize_tx_params`; they are parameters of the embedding. -/
structure RateConsts where
  STATION_INFO_CAPABILITIES_HT_CAPABLE : Nat
  PHY_MODE_HTMF : Nat
  PHY_MODE_NONHT : Nat

/-- The function `wlan_mac_sanitize_tx_params` (wlan_mac_high.c:2134-2157);
`phy.mcs` is a `u8`. -/
def wlan_mac_sanitize_tx_params (k : RateConsts) (station_info : station_info_t)
    (tx_params : tx_params_t) : tx_params_t :=
  let tx_params_ret := tx_params
  if station_info.capabilities &&& k.STATION_INFO_CAPABILITIES_HT_CAPABLE ≠ 0 then
    tx_params_ret
  else
    if tx_params.phy.phy_mode = k.PHY_MODE_HTMF then
      let tx_params_ret : tx_params_t :=
        { tx_params_ret with phy := { tx_params_ret.phy with phy_mode := k.PHY_MODE_NONHT } }
      if tx_params.phy.mcs = 0 ∨ tx_params.phy.mcs = 7 then
        { tx_params_ret with phy := { tx_params_ret.phy with mcs := tx_params.phy.mcs } }
      else
        { tx_params_ret with
          phy := { tx_params_ret.phy with mcs := (tx_params.phy.mcs + 1) % 256 } }
    else
      tx_params_ret

/-! ## Station application: `poll_tx_queues` (wlan_mac_sta.c) -/

/-- The macro `MAX_NUM_QUEUE` defined inside `poll_tx_queues`
(wlan_mac_sta.c:419). -/
def MAX_NUM_QUEUE : Nat := 2

/-- What `poll_tx_queues` uses but `src/` does not define: the two queue ids, and
`transmit_checkin` (queue module), whose effect on the pools is a parameter. -/
structure StaExtern where
  MANAGEMENT_QID : Nat
  UNICAST_QID : Nat
  transmit_checkin : tx_queue_buffer_t → State → State

/-- The state `poll_tx_queues` works on: the state of the framework, the global
`pause_data_queue`, the function-static `queue_index`, the Tx queues by queue
id, and two logs: the queue ids of the calls of `dequeue_from_head`, and the
entries passed to `transmit_checkin` with the queue id each came from. -/
structure StaState where
  high : State
  pause_data_queue : Nat
  queue_index : Nat
  tx_queue : Nat → List tx_queue_buffer_t
  dequeue_calls : List Nat
  checked_in : List (Nat × tx_queue_buffer_t)

/-- Modelled from the spec: `dequeue_from_head` (the queue module is not among
the sources): each queue is FIFO; the call removes and returns the head of
queue `qid`, or returns NULL when the queue is empty. -/
def dequeue_from_head (qid : Nat) (st : StaState) : Option tx_queue_buffer_t × StaState :=
  let st := { st with dequeue_calls := st.dequeue_calls ++ [qid] }
  match st.tx_queue qid with
  | [] => (none, st)
  | e :: rest => (some e, { st with tx_queue := Function.update st.tx_queue qid rest })

/-- The statements of `poll_tx_queues` for an entry dequeued from queue `qid`
(wlan_mac_sta.c:446-449 and 462-465): set its group to PKT_BUF_GROUP_GENERAL
and pass it to `transmit_checkin`. -/
def poll_tx_queues_submit (k : StaExtern) (qid : Nat) (entry : tx_queue_buffer_t)
    (st : StaState) : StaState :=
  let entry : tx_queue_buffer_t :=
    { entry with queue_info := { entry.queue_info with pkt_buf_group := PKT_BUF_GROUP_GENERAL } }
  { st with
    high := k.transmit_checkin entry st.high
    checked_in := st.checked_in ++ [(qid, entry)] }

/-- The loop of the branch `pause_data_queue == 0` (wlan_mac_sta.c:432-453), with
`n = 2*MAX_NUM_QUEUE - poll_loop_cnt` iterations left. `queue_index` is
`(queue_index + 1) % MAX_NUM_QUEUE`, so the switch sees 0 or 1. -/
def poll_tx_queues_unpaused (k : StaExtern) : Nat → Int → StaState → StaState
  | 0, _, st => st
  | n + 1, num_pkt_bufs_avail, st =>
    if num_pkt_bufs_avail > 0 then
      let queue_index := (st.queue_index + 1) % MAX_NUM_QUEUE
      let st := { st with queue_index := queue_index }
      let qid := if queue_index = 0 then k.MANAGEMENT_QID else k.UNICAST_QID
      let r := dequeue_from_head qid st
      match r.1 with
      | some entry =>
        poll_tx_queues_unpaused k n (num_pkt_bufs_avail - 1)
          (poll_tx_queues_submit k qid entry r.2)
      | none => poll_tx_queues_unpaused k n num_pkt_bufs_avail r.2
    else st

/-- The loop of the branch `pause_data_queue != 0` (wlan_mac_sta.c:457-470), with
`n` iterations left; an empty management queue ends it. -/
def poll_tx_queues_paused (k : StaExtern) : Nat → StaState → StaState
  | 0, st => st
  | n + 1, st =>
    let r := dequeue_from_head k.MANAGEMENT_QID st
    match r.1 with
    | some entry =>
      poll_tx_queues_paused k n (poll_tx_queues_submit k k.MANAGEMENT_QID entry r.2)
    | none => r.2

/-- The function `poll_tx_queues` (wlan_mac_sta.c:413-472). In the paused branch
the `u32` counter `i` is compared with the `int` `num_pkt_bufs_avail`, that is
with its value as a `u32`. -/
def poll_tx_queues (k : StaExtern) (st : StaState) : StaState :=
  let num_pkt_bufs_avail := wlan_mac_num_tx_pkt_buf_available st.high PKT_BUF_GROUP_GENERAL
  if st.pause_data_queue = 0 then
    poll_tx_queues_unpaused k (2 * MAX_NUM_QUEUE) num_pkt_bufs_avail st
  else
    poll_tx_queues_paused k (num_pkt_bufs_avail % (2 ^ 32 : Int)).toNat st

/-- The entries a call passed to `transmit_checkin`. -/
def StaState.checked_in_since (st1 st0 : StaState) : List (Nat × tx_queue_buffer_t) :=
  st1.checked_in.drop st0.checked_in.length

/-- The queue ids of the calls of `dequeue_from_head` a call made. -/
def StaState.dequeue_calls_since (st1 st0 : StaState) : List Nat :=
  st1.dequeue_calls.drop st0.dequeue_calls.length

/-! ## Concrete inputs -/

/-- A Tx header with the given tag and group, all other fields zero. -/
def tx_frame_info_example (tag : tx_pkt_buf_state_t) (g : pkt_buf_group_t) : tx_frame_info_t :=
  { tx_pkt_buf_state := tag, length := 0,
    queue_info := { id := 0, pkt_buf_group := g, occupancy := 0, enqueue_timestamp := 0 },
    flags := 0, unique_seq := 0,
    params := { phy := { mcs := 0, phy_mode := 0, antenna_mode := 0, power := 0 },
                mac := { flags := 0 } } }

/-- An Rx header with the given tag, all other fields zero. -/
def rx_frame_info_example (tag : rx_pkt_buf_state_t) : rx_frame_info_t :=
  { rx_pkt_buf_state := tag, length := 0, flags := 0 }

/-- A pool as CPU High may find it when it reboots: Tx slot 0 DONE, slot 1 READY,
slot 2 UNINITIALIZED, slot 3 with a corrupt tag, the RTS slot (7) in LOW_CTRL and
the ACK/CTS slot (8) with a corrupt tag, every other Tx slot HIGH_CTRL; Rx slot 0
READY, slot 1 corrupt, the others LOW_CTRL; CPU Low holds the mutexes of Tx slot
1 and of the RTS slot, CPU High those of Rx slot 0 and of the other Tx slots. -/
def reboot_state_example : State :=
  { tx_pkt_buf := fun i =>
      tx_frame_info_example
        (if i = 0 then TX_PKT_BUF_DONE else if i = 1 then TX_PKT_BUF_READY
         else if i = 2 then TX_PKT_BUF_UNINITIALIZED
         else if i = 3 then tx_pkt_buf_state_t.corrupt 77
         else if i = 7 then TX_PKT_BUF_LOW_CTRL
         else if i = 8 then tx_pkt_buf_state_t.corrupt 99
         else TX_PKT_BUF_HIGH_CTRL)
        PKT_BUF_GROUP_GENERAL
    rx_pkt_buf := fun i =>
      rx_frame_info_example
        (if i = 0 then RX_PKT_BUF_READY else if i = 1 then rx_pkt_buf_state_t.corrupt 55
         else RX_PKT_BUF_LOW_CTRL)
    tx_pkt_buf_mutex := fun i => if i = 1 ∨ i = 7 then some CPU_LOW else some CPU_HIGH
    rx_pkt_buf_mutex := fun i => if i = 0 then some CPU_HIGH else some CPU_LOW
    dlmb_baseaddr := 0
    dlmb_size := 65536
    trace := [] }

/-- Parameters for the concrete inputs: the macros with the values of the
reference design, a CDMA driver that accepts every transfer, and a dequeue
callback that leaves the packet alone. -/
def extern_example : Extern :=
  { CALC_HIGH_ADDR := fun base size => base + (size - 1)
    XAxiCdma_SimpleTransfer := fun _ _ _ => 0
    tx_pkt_buf_payload_addr := fun i => 3221225472 + i * 4096 + 112
    wlan_addr_mcast := fun addr => decide (addr.headD 0 % 2 = 1)
    wlan_mac_get_default_tx_params := fun _ =>
      { phy := { mcs := 0, phy_mode := 1, antenna_mode := 16, power := 15 },
        mac := { flags := 0 } }
    mpdu_tx_dequeue_callback := fun packet => packet
    WLAN_PHY_FCS_NBYTES := 4
    TX_QUEUE_BUFFER_FLAGS_FILL_TIMESTAMP := 1
    TX_QUEUE_BUFFER_FLAGS_FILL_DURATION := 2
    TX_QUEUE_BUFFER_FLAGS_FILL_UNIQ_SEQ := 4
    TX_FRAME_INFO_FLAGS_FILL_TIMESTAMP := 2
    TX_FRAME_INFO_FLAGS_FILL_DURATION := 4
    TX_FRAME_INFO_FLAGS_FILL_UNIQ_SEQ := 32
    TX_FRAME_INFO_FLAGS_REQ_TO := 1
    MAC_FRAME_CTRL1_MASK_TYPE := 12
    MAC_FRAME_CTRL1_TYPE_MGMT := 0 }

/-- A unicast data frame of 100 bytes queued for group `g`, with no station
info attached. -/
def packet_example (g : pkt_buf_group_t) : tx_queue_buffer_t :=
  { length := 100
    queue_info := { id := 1, pkt_buf_group := g, occupancy := 1, enqueue_timestamp := 0 }
    flags := 0
    station_info := none
    frame := { frame_control_1 := 8, address_1 := [0, 1, 2, 3, 4, 5] }
    frame_addr := 2147483648 }

/-- A pool in steady state: general slot 0 is HIGH_CTRL, general slots 1 to 5
are held by CPU Low for group PKT_BUF_GROUP_OTHER (tag READY), and the mutex of
slot 0 has owner `owner0`. -/
def handoff_state_example (owner0 : Option cpu_t) : State :=
  { tx_pkt_buf := fun i =>
      if i = 0 then tx_frame_info_example TX_PKT_BUF_HIGH_CTRL PKT_BUF_GROUP_GENERAL
      else tx_frame_info_example TX_PKT_BUF_READY PKT_BUF_GROUP_OTHER
    rx_pkt_buf := fun _ => rx_frame_info_example RX_PKT_BUF_LOW_CTRL
    tx_pkt_buf_mutex := fun i => if i = 0 then owner0 else some CPU_LOW
    rx_pkt_buf_mutex := fun _ => some CPU_LOW
    dlmb_baseaddr := 0
    dlmb_size := 65536
    trace := [] }

/-- `Ext P s0 s1`: the trace of `s1` is the trace of `s0` followed by events that
all satisfy `P`. -/
def Ext (P : Event → Bool) (s0 s1 : State) : Prop :=
  ∃ evs, s1.trace = s0.trace ++ evs ∧ ∀ e ∈ evs, P e = true

/-- The kinds of event the fill part of the handoff on slot `i` can emit: the
dequeue callback, the transfer engine events, prints, and writes to the header
of slot `i` made while the mutex of slot `i` has owner `o`. -/
def fill_event (i : Nat) (o : Option cpu_t) : Event → Bool
  | Event.callback callback_t.mpdu_tx_dequeue_callback _ => true
  | Event.cdma_finish_transfer => true
  | Event.XAxiCdma_SimpleTransfer _ _ _ _ => true
  | Event.memcpy _ _ _ => true
  | Event.print _ => true
  | Event.tx_write j o' => decide (j = i ∧ o' = o)
  | _ => false

/-- Parameters for the concrete inputs of the message handler: the null Rx
callback (flags 0), logging and counts compiled in, the channels 1 to 11 valid,
and distinct codes for the three status reasons. -/
def collab_example : Collab :=
  { wlan_verify_channel := fun ch => decide (1 ≤ ch ∧ ch ≤ 11)
    RX_ANTMODE_SISO_ANTA := 1
    RX_ANTMODE_SISO_ANTB := 2
    RX_ANTMODE_SISO_ANTC := 3
    RX_ANTMODE_SISO_ANTD := 4
    RX_ANTMODE_SISO_SELDIV_2ANT := 5
    cpu_status_reason := fun a =>
      if a = 1 then cpu_status_reason_t.CPU_STATUS_REASON_EXCEPTION
      else if a = 2 then cpu_status_reason_t.CPU_STATUS_REASON_BOOTED
      else if a = 4 then cpu_status_reason_t.CPU_STATUS_REASON_RESPONSE
      else cpu_status_reason_t.other
    mpdu_rx_callback := fun _ => 0
    MAC_RX_CALLBACK_RETURN_FLAG_NO_COUNTS := 2
    MAC_RX_CALLBACK_RETURN_FLAG_DUP := 1
    RX_PROCESS_COUNTS_OPTION_FLAG_IS_DUPLICATE := 1
    bcast_tx_params_mgmt :=
      { phy := { mcs := 0, phy_mode := 1, antenna_mode := 16, power := 15 },
        mac := { flags := 0 } }
    WLAN_SW_CONFIG_ENABLE_LOGGING := true
    WLAN_SW_CONFIG_ENABLE_TXRX_COUNTS := true
    WLAN_SW_CONFIG_ENABLE_WLAN_EXP := true
    WLAN_EXP_CPU_LOW_DATA_REQ_TIMEOUT := 500000
    IPC_REG_READ_MODE := 0
    unassigned_arg0 := 0
    ipc_msg_from_low_payload_addr := 268435456 }

/-- A message of type `id` naming slot `i`, without payload words. -/
def ipc_msg_example (id : ipc_mbox_msg_t) (i : Nat) : wlan_ipc_msg_t :=
  { msg_id := id, arg0 := i, num_payload_words := 0, payload := [] }

/-- A pool in steady state as the message handler may find it: Rx slot 2 is
READY and unlocked, Rx slot 3 is READY but still locked by CPU Low, the other
Rx slots are LOW_CTRL and locked by CPU Low; Tx slot 4 is DONE and unlocked, Tx
slot 5 is DONE but still locked by CPU Low, the other Tx slots are HIGH_CTRL
and locked by CPU High. The interrupt controller is started. -/
def ipc_state_example : State :=
  { tx_pkt_buf := fun i =>
      tx_frame_info_example
        (if i = 4 ∨ i = 5 then TX_PKT_BUF_DONE else TX_PKT_BUF_HIGH_CTRL) PKT_BUF_GROUP_GENERAL
    rx_pkt_buf := fun i =>
      rx_frame_info_example
        (if i = 2 ∨ i = 3 then RX_PKT_BUF_READY else RX_PKT_BUF_LOW_CTRL)
    tx_pkt_buf_mutex := fun i =>
      if i = 4 then none else if i = 5 then some CPU_LOW else some CPU_HIGH
    rx_pkt_buf_mutex := fun i => if i = 2 then none else some CPU_LOW
    dlmb_baseaddr := 0
    dlmb_size := 65536
    trace := []
    intc_is_started := true }

/-- A poll in which the mailbox stays silent: the clock starts at 1000 and
advances by 100000 microseconds per reading. -/
def poll_env_example : PollEnv :=
  { before_status := fun _ => []
    before_time := fun _ => []
    before_reset := []
    start_timestamp := 1000
    system_time := fun k => 1000 + 100000 * (k + 1) }

/-- A poll in which the first reading of the clock is already past the timeout
and the response of CPU Low, carrying the word 171, is handled after that
reading and before the buffer pointer is reset. -/
def late_response_env : PollEnv :=
  { before_status := fun _ => []
    before_time := fun _ => []
    before_reset :=
      [({ msg_id := IPC_MBOX_MEM_READ_WRITE, arg0 := 0, num_payload_words := 1,
          payload := [] }, [171])]
    start_timestamp := 0
    system_time := fun _ => 500001 }

/-- Values of the reference design for the rate constants. -/
def rate_consts_example : RateConsts :=
  { STATION_INFO_CAPABILITIES_HT_CAPABLE := 4, PHY_MODE_HTMF := 2, PHY_MODE_NONHT := 1 }

/-- A station with the given capabilities and zeroed rate parameters. -/
def station_info_example (capabilities : Nat) : station_info_t :=
  { capabilities := capabilities
    tx_params_mgmt := { phy := { mcs := 0, phy_mode := 1, antenna_mode := 16, power := 15 },
                        mac := { flags := 0 } }
    tx_params_data := { phy := { mcs := 0, phy_mode := 1, antenna_mode := 16, power := 15 },
                        mac := { flags := 0 } } }

/-- Rate parameters with the given MCS and PHY mode. -/
def tx_params_example (mcs phy_mode : Nat) : tx_params_t :=
  { phy := { mcs := mcs, phy_mode := phy_mode, antenna_mode := 16, power := 15 },
    mac := { flags := 8 } }

/-- A pool right after boot: every Tx slot is HIGH_CTRL and locked by CPU High,
every Rx slot is LOW_CTRL and locked by CPU Low. -/
def all_free_state_example : State :=
  { tx_pkt_buf := fun _ => tx_frame_info_example TX_PKT_BUF_HIGH_CTRL PKT_BUF_GROUP_GENERAL
    rx_pkt_buf := fun _ => rx_frame_info_example RX_PKT_BUF_LOW_CTRL
    tx_pkt_buf_mutex := fun _ => some CPU_HIGH
    rx_pkt_buf_mutex := fun _ => some CPU_LOW
    dlmb_baseaddr := 0
    dlmb_size := 65536
    trace := []
    intc_is_started := true }

/-- Queue ids 1 and 2, and a `transmit_checkin` that hands the entry off on the
slot the slot search returns and prints when there is none. -/
def sta_extern_example : StaExtern :=
  { MANAGEMENT_QID := 1
    UNICAST_QID := 2
    transmit_checkin := fun entry s =>
      if wlan_mac_high_get_empty_tx_packet_buffer s ≥ 0 then
        wlan_mac_high_mpdu_transmit extern_example entry
          (wlan_mac_high_get_empty_tx_packet_buffer s).toNat s
      else s.log (Event.print 0) }

/-- A station with three management frames and three data frames queued, on the
pool right after boot; `pause` is the value of `pause_data_queue`. -/
def sta_state_example (pause : Nat) : StaState :=
  { high := all_free_state_example
    pause_data_queue := pause
    queue_index := 0
    tx_queue := fun qid =>
      if qid = 1 then
        [{ packet_example PKT_BUF_GROUP_OTHER with length := 30 },
         { packet_example PKT_BUF_GROUP_OTHER with length := 31 },
         { packet_example PKT_BUF_GROUP_OTHER with length := 32 }]
      else if qid = 2 then
        [packet_example PKT_BUF_GROUP_OTHER,
         { packet_example PKT_BUF_GROUP_OTHER with length := 101 },
         { packet_example PKT_BUF_GROUP_OTHER with length := 102 }]
      else []
    dequeue_calls := []
    checked_in := [] }

/-! ## Specification-side notions -/

/-- Spec 4.3: a slot counts as empty when its tag is CONTROL_OWNED. -/
def is_empty_slot (s : State) (i : Nat) : Bool :=
  decide ((s.tx_pkt_buf i).tx_pkt_buf_state = TX_PKT_BUF_HIGH_CTRL)

/-- Spec 4.3: a slot is outstanding for group `g` when its group is `g` and its
tag is READY or RADIO_OWNED. -/
def is_outstanding (s : State) (g : pkt_buf_group_t) (i : Nat) : Bool :=
  decide ((s.tx_pkt_buf i).queue_info.pkt_buf_group = g ∧
    ((s.tx_pkt_buf i).tx_pkt_buf_state = TX_PKT_BUF_READY ∨
     (s.tx_pkt_buf i).tx_pkt_buf_state = TX_PKT_BUF_LOW_CTRL))

/-- Spec 4.3: `outstanding(g)` over the general slots. -/
def outstanding (s : State) (g : pkt_buf_group_t) : Nat :=
  ((List.range NUM_TX_PKT_BUF_MPDU).filter (is_outstanding s g)).length

/-- Spec 4.3: number of empty general slots. -/
def num_empty_slots (s : State) : Nat :=
  ((List.range NUM_TX_PKT_BUF_MPDU).filter (is_empty_slot s)).length

/-- Spec 4.3: the per-class ceiling, 2 for general and 3 for buffered/broadcast
traffic; a value that names no admitted class has ceiling 0. -/
def ceiling : pkt_buf_group_t → Int
  | PKT_BUF_GROUP_GENERAL => 2
  | PKT_BUF_GROUP_DTIM_MCAST => 3
  | _ => 0

/-- Spec 4.3: `clamp(x, lo, hi)`. -/
def clamp (x lo hi : Int) : Int := max lo (min x hi)

/-- Spec 4.3: `availableSlots(class)` as the specification words it. -/
def availableSlots_spec (s : State) (g : pkt_buf_group_t) : Int :=
  if num_empty_slots s = 0 then 0
  else clamp (ceiling g - (outstanding s g : Int)) 0 (ceiling g)

/-- Recogniser of a started CDMA transfer. -/
def Event.is_cdma_transfer : Event → Bool
  | Event.XAxiCdma_SimpleTransfer _ _ _ _ => true
  | _ => false

/-- Recogniser of a synchronous `memcpy`. -/
def Event.is_memcpy : Event → Bool
  | Event.memcpy _ _ _ => true
  | _ => false

/-- An event is not a write to a slot, or is a write made while CPU High owns
the mutex of the slot. -/
def Event.write_under_cpu_high : Event → Bool
  | Event.tx_write _ o => decide (o = some CPU_HIGH)
  | Event.rx_write _ o => decide (o = some CPU_HIGH)
  | _ => true

/-- The event is a write to the slot a message from CPU Low names: Rx slot
`arg0` for IPC_MBOX_RX_PKT_BUF_READY, Tx slot `arg0` for
IPC_MBOX_TX_PKT_BUF_DONE and IPC_MBOX_TX_BEACON_DONE. The statements of
`wlan_mac_high_process_ipc_msg` write no other slot (wlan_mac_high.c:1229-1418). -/
def Event.is_write_to_named_slot (msg : wlan_ipc_msg_t) : Event → Bool
  | Event.tx_write j _ =>
    decide ((msg.msg_id = IPC_MBOX_TX_PKT_BUF_DONE ∨ msg.msg_id = IPC_MBOX_TX_BEACON_DONE) ∧
      j = msg.arg0)
  | Event.rx_write j _ => decide (msg.msg_id = IPC_MBOX_RX_PKT_BUF_READY ∧ j = msg.arg0)
  | _ => false

/-- The event is not a write to a slot, or is a write to the slot the message
names. -/
def Event.no_write_but_named_slot (msg : wlan_ipc_msg_t) : Event → Bool
  | Event.tx_write j o => (Event.tx_write j o).is_write_to_named_slot msg
  | Event.rx_write j o => (Event.rx_write j o).is_write_to_named_slot msg
  | _ => true

/-- The event is the write `tx_write i o`. -/
def is_tx_write (i : Nat) (o : Option cpu_t) (e : Event) : Bool :=
  decide (e = Event.tx_write i o)

/-- The events of the calls between the two tag writes of the normal Rx path,
in program order. -/
def rx_pkt_buf_ready_callback_events (c : Collab) (i : Nat) : List Event :=
  [Event.callback callback_t.network_info_rx_process i,
   Event.callback callback_t.station_info_postrx_process i] ++
  (if c.WLAN_SW_CONFIG_ENABLE_LOGGING
    then [Event.callback callback_t.wlan_exp_log_create_rx_entry i] else []) ++
  [Event.callback callback_t.mpdu_rx_callback i] ++
  (if (c.WLAN_SW_CONFIG_ENABLE_TXRX_COUNTS &&
        (c.mpdu_rx_callback i &&& c.MAC_RX_CALLBACK_RETURN_FLAG_NO_COUNTS == 0))
    then [Event.callback callback_t.station_info_rx_process_counts
      (if c.mpdu_rx_callback i &&& c.MAC_RX_CALLBACK_RETURN_FLAG_DUP ≠ 0
        then c.RX_PROCESS_COUNTS_OPTION_FLAG_IS_DUPLICATE else 0)] else [])

/-- The events of the calls between the lock and the tag write of the normal
DONE path, in program order. -/
def tx_pkt_buf_done_callback_events (c : Collab) (i : Nat) : List Event :=
  [Event.callback callback_t.tx_poll_callback 0,
   Event.callback callback_t.station_info_posttx_process i] ++
  (if c.WLAN_SW_CONFIG_ENABLE_LOGGING
    then [Event.callback callback_t.wlan_exp_log_create_tx_high_entry i] else []) ++
  [Event.callback callback_t.mpdu_tx_high_done_callback i]

/-- The trace extended by a list of events. -/
def State.append (s : State) (evs : List Event) : State :=
  { s with trace := s.trace ++ evs }

/-- What the BOOTED branch emits for the channel when the tracked value is `v`. -/
def repush_channel_events (c : Collab) (v : Nat) : List Event :=
  if v != 0xFFFFFFFF then
    (if c.wlan_verify_channel (to_u32 v) then
      [Event.write_mailbox_msg (low_param_msg c IPC_MBOX_CONFIG_CHANNEL (to_u32 v))]
     else [Event.print 1576])
  else []

/-- What the BOOTED branch emits for DSSS enable when the tracked value is `v`. -/
def repush_dsss_events (c : Collab) (v : Nat) : List Event :=
  if v != 0xFFFFFFFF then
    [Event.write_mailbox_msg (low_param_msg c IPC_MBOX_CONFIG_DSSS_EN (to_u32 v))]
  else []

/-- What the BOOTED branch emits for the Rx antenna mode when the tracked value
is `v`. -/
def repush_rx_ant_mode_events (c : Collab) (v : Nat) : List Event :=
  if v != 0xFF then
    (if to_u8 v = c.RX_ANTMODE_SISO_ANTA ∨ to_u8 v = c.RX_ANTMODE_SISO_ANTB ∨
        to_u8 v = c.RX_ANTMODE_SISO_ANTC ∨ to_u8 v = c.RX_ANTMODE_SISO_ANTD ∨
        to_u8 v = c.RX_ANTMODE_SISO_SELDIV_2ANT then
      [Event.write_mailbox_msg (low_param_msg c IPC_MBOX_CONFIG_RX_ANT_MODE (to_u8 v))]
     else [Event.print 1627])
  else []

/-- What the BOOTED branch emits for the Tx control power when the tracked value
is `v`. -/
def repush_tx_ctrl_pow_events (c : Collab) (v : Int) : List Event :=
  if v != -127 then
    [Event.write_mailbox_msg
      (low_param_msg c IPC_MBOX_CONFIG_TX_CTRL_POW (s8_to_u32 (to_s8 v)))]
  else []

/-- What the BOOTED branch emits for the radio Tx power when the tracked value
is `v`. -/
def repush_radio_tx_pow_events (c : Collab) (v : Int) : List Event :=
  if v != -127 then
    [Event.write_mailbox_msg
      (low_param_msg c IPC_MBOX_SET_RADIO_TX_POWER (s8_to_u32 (to_s8 v)))]
  else []

/-- What the BOOTED branch emits for the Rx filter when the tracked value is `v`. -/
def repush_rx_filter_events (c : Collab) (v : Nat) : List Event :=
  if v != 0xFFFFFFFF then
    [Event.write_mailbox_msg (low_param_msg c IPC_MBOX_CONFIG_RX_FILTER (to_u32 v))]
  else []

/-- What the BOOTED branch emits for the random seed when the tracked value is
`v`. -/
def repush_random_seed_events (c : Collab) (v : Nat) : List Event :=
  if v != 0xFFFFFFFF then
    [Event.write_mailbox_msg (low_param_msg c IPC_MBOX_LOW_RANDOM_SEED (to_u32 v))]
  else []

/-- The events of the BOOTED branch, in program order. -/
def booted_events (c : Collab) (payload : List Nat) (s : State) : List Event :=
  [Event.callback callback_t.cpu_low_reboot_callback (payload.getD 1 0)] ++
  repush_channel_events c s.low_param_channel ++
  repush_dsss_events c s.low_param_dsss_en ++
  repush_rx_ant_mode_events c s.low_param_rx_ant_mode ++
  repush_tx_ctrl_pow_events c s.low_param_tx_ctrl_pow ++
  repush_radio_tx_pow_events c s.low_param_radio_tx_pow ++
  repush_rx_filter_events c s.low_param_rx_filter ++
  repush_random_seed_events c s.low_param_random_seed ++
  [Event.callback callback_t.tx_poll_callback 0]

/-- The tracking variables after the BOOTED branch: a value that was pushed
again has been stored again by its setter, through the type of the parameter
of the setter; the rest of the state is as before. -/
def booted_low_params (c : Collab) (s : State) : State :=
  { s with
    low_param_channel :=
      if (s.low_param_channel != 0xFFFFFFFF) = true ∧
          c.wlan_verify_channel (to_u32 s.low_param_channel) = true
      then to_u32 s.low_param_channel else s.low_param_channel
    low_param_dsss_en :=
      if (s.low_param_dsss_en != 0xFFFFFFFF) = true then to_u32 s.low_param_dsss_en
      else s.low_param_dsss_en
    low_param_rx_ant_mode :=
      if (s.low_param_rx_ant_mode != 0xFF) = true ∧
          (to_u8 s.low_param_rx_ant_mode = c.RX_ANTMODE_SISO_ANTA ∨
            to_u8 s.low_param_rx_ant_mode = c.RX_ANTMODE_SISO_ANTB ∨
            to_u8 s.low_param_rx_ant_mode = c.RX_ANTMODE_SISO_ANTC ∨
            to_u8 s.low_param_rx_ant_mode = c.RX_ANTMODE_SISO_ANTD ∨
            to_u8 s.low_param_rx_ant_mode = c.RX_ANTMODE_SISO_SELDIV_2ANT)
      then to_u8 s.low_param_rx_ant_mode else s.low_param_rx_ant_mode
    low_param_tx_ctrl_pow :=
      if (s.low_param_tx_ctrl_pow != -127) = true then to_s8 s.low_param_tx_ctrl_pow
      else s.low_param_tx_ctrl_pow
    low_param_radio_tx_pow :=
      if (s.low_param_radio_tx_pow != -127) = true then to_s8 s.low_param_radio_tx_pow
      else s.low_param_radio_tx_pow
    low_param_rx_filter :=
      if (s.low_param_rx_filter != 0xFFFFFFFF) = true then to_u32 s.low_param_rx_filter
      else s.low_param_rx_filter
    low_param_random_seed :=
      if (s.low_param_random_seed != 0xFFFFFFFF) = true then to_u32 s.low_param_random_seed
      else s.low_param_random_seed }

/-- The globals of the register read: buffer pointer, buffer status, and the
memory the pointer points into. -/
def State.reg_read (s : State) : Nat × Nat × (Nat → Nat) :=
  (s.cpu_low_reg_read_buffer, s.cpu_low_reg_read_buffer_status, s.mem)

/-- The table in the comment at wlan_mac_high.c:2139-2140: requested HT MCS
0..7, the non-HT MCS used instead. -/
def nonht_mcs_table : List Nat := [0, 2, 3, 4, 5, 6, 7, 7]

/-- Modelled from the spec: what CPU Low does to a Tx slot whose transmission it
has finished (its code is not among the sources): it tags the slot DONE and
releases its lock (spec 4.1, RADIO_OWNED to DONE), the rest of the header
staying as it was. -/
def radio_marks_done (i : Nat) (s : State) : State :=
  { s with
    tx_pkt_buf := Function.update s.tx_pkt_buf i
      { s.tx_pkt_buf i with tx_pkt_buf_state := TX_PKT_BUF_DONE }
    tx_pkt_buf_mutex := Function.update s.tx_pkt_buf_mutex i none }

/-! ## Theorems -/

/-- The counting loop computes the two filtered counts. -/
theorem count_foldl (s : State) (g : pkt_buf_group_t) (l : List Nat) (acc : Nat × Nat) :
    l.foldl (count_tx_pkt_buf s g) acc =
      (acc.1 + (l.filter (is_empty_slot s)).length,
       acc.2 + (l.filter (is_outstanding s g)).length) := by
  induction l generalizing acc with
  | nil => simp
  | cons a l ih =>
    rw [List.foldl_cons, ih]
    by_cases h1 : (s.tx_pkt_buf a).tx_pkt_buf_state = TX_PKT_BUF_HIGH_CTRL <;>
    by_cases h2 : ((s.tx_pkt_buf a).queue_info.pkt_buf_group = g ∧
        ((s.tx_pkt_buf a).tx_pkt_buf_state = TX_PKT_BUF_READY ∨
         (s.tx_pkt_buf a).tx_pkt_buf_state = TX_PKT_BUF_LOW_CTRL)) <;>
    simp [count_tx_pkt_buf, is_empty_slot, is_outstanding, h1, h2, List.filter_cons] <;>
    omega

/-- C1: for every pool state and every group, `wlan_mac_num_tx_pkt_buf_available`
returns 0 when no general slot is TX_PKT_BUF_HIGH_CTRL and otherwise
`clamp(ceiling(g) - outstanding(g), 0, ceiling(g))`, with ceiling 2 for GENERAL
and 3 for DTIM_MCAST (and 0 for any other group value). -/
theorem num_tx_pkt_buf_available_eq_spec (s : State) (g : pkt_buf_group_t) :
    wlan_mac_num_tx_pkt_buf_available s g = availableSlots_spec s g := by
  unfold wlan_mac_num_tx_pkt_buf_available availableSlots_spec
  rw [count_foldl]
  simp only [Nat.zero_add]
  show (if num_empty_slots s = 0 then (0 : Int) else _) = _
  by_cases he : num_empty_slots s = 0
  · simp [he]
  · simp only [he, if_false]
    show (if g = PKT_BUF_GROUP_GENERAL then _ else _) = _
    have ho : ((List.range NUM_TX_PKT_BUF_MPDU).filter (is_outstanding s g)).length
        = outstanding s g := rfl
    rw [ho]
    generalize outstanding s g = n
    cases g <;> simp [ceiling, clamp] <;> split <;> omega

/-! ### Reading the reconciliation loops slot by slot -/

/-- A loop whose body at `j` rewrites component `j` from its own old value, and
leaves every other component alone, rewrites exactly the visited components. -/
theorem foldl_pointwise {σ α : Type} (proj : σ → Nat → α) (body : σ → Nat → σ)
    (g : Nat → α → α)
    (h : ∀ s j i, proj (body s j) i = if i = j then g j (proj s j) else proj s i)
    (l : List Nat) (hl : l.Nodup) (s : σ) (i : Nat) :
    proj (l.foldl body s) i = if i ∈ l then g i (proj s i) else proj s i := by
  induction l generalizing s with
  | nil => simp
  | cons a l ih =>
    rw [List.foldl_cons, ih (List.nodup_cons.mp hl).2]
    have ha : a ∉ l := (List.nodup_cons.mp hl).1
    by_cases hia : i = a
    · subst hia
      simp [h, ha]
    · by_cases hil : i ∈ l
      · simp [h, hia, hil]
      · simp [h, hia, hil]

/-- A loop whose body leaves a component alone leaves it alone. -/
theorem foldl_frame {σ β : Type} (proj : σ → β) (body : σ → Nat → σ)
    (h : ∀ s j, proj (body s j) = proj s) (l : List Nat) (s : σ) :
    proj (l.foldl body s) = proj s := by
  induction l generalizing s with
  | nil => rfl
  | cons a l ih => rw [List.foldl_cons, ih, h]

/-- One Tx iteration, read on the slots. -/
theorem init_tx_pkt_buf_slot (s : State) (j i : Nat) :
    (wlan_mac_high_init_tx_pkt_buf s j).tx_slot i =
      if i = j then init_tx_slot j (s.tx_slot j) else s.tx_slot i := by
  unfold wlan_mac_high_init_tx_pkt_buf init_tx_slot State.tx_slot
  by_cases hij : i = j
  · subst hij
    simp only [if_true]
    split_ifs <;> try rfl
    · split <;> simp_all [set_tx_pkt_buf_state, tx_frame_info_write, force_lock_tx_pkt_buf]
    · simp_all [set_tx_pkt_buf_state, tx_frame_info_write, unlock_tx_pkt_buf]
    · simp [unlock_tx_pkt_buf]
  · simp only [hij, if_false]
    split_ifs <;> try rfl
    · split <;> simp [set_tx_pkt_buf_state, tx_frame_info_write, force_lock_tx_pkt_buf, hij]
    · simp_all [set_tx_pkt_buf_state, tx_frame_info_write, unlock_tx_pkt_buf, hij]
    · simp [unlock_tx_pkt_buf, hij]

/-! ### Projections of the primitive operations -/

@[simp] theorem log_trace (s : State) (e : Event) : (s.log e).trace = s.trace ++ [e] := rfl
@[simp] theorem log_tx_pkt_buf (s : State) (e : Event) : (s.log e).tx_pkt_buf = s.tx_pkt_buf := rfl
@[simp] theorem log_rx_pkt_buf (s : State) (e : Event) : (s.log e).rx_pkt_buf = s.rx_pkt_buf := rfl
@[simp] theorem log_tx_mutex (s : State) (e : Event) :
    (s.log e).tx_pkt_buf_mutex = s.tx_pkt_buf_mutex := rfl
@[simp] theorem log_rx_mutex (s : State) (e : Event) :
    (s.log e).rx_pkt_buf_mutex = s.rx_pkt_buf_mutex := rfl

@[simp] theorem tx_write_trace (i : Nat) (f : tx_frame_info_t → tx_frame_info_t) (s : State) :
    (tx_frame_info_write i f s).trace = s.trace ++ [Event.tx_write i (s.tx_pkt_buf_mutex i)] :=
  rfl
@[simp] theorem tx_write_tx_pkt_buf (i : Nat) (f : tx_frame_info_t → tx_frame_info_t)
    (s : State) :
    (tx_frame_info_write i f s).tx_pkt_buf = Function.update s.tx_pkt_buf i (f (s.tx_pkt_buf i)) :=
  rfl
@[simp] theorem tx_write_tx_mutex (i : Nat) (f : tx_frame_info_t → tx_frame_info_t) (s : State) :
    (tx_frame_info_write i f s).tx_pkt_buf_mutex = s.tx_pkt_buf_mutex := rfl
@[simp] theorem tx_write_rx_pkt_buf (i : Nat) (f : tx_frame_info_t → tx_frame_info_t)
    (s : State) : (tx_frame_info_write i f s).rx_pkt_buf = s.rx_pkt_buf := rfl
@[simp] theorem tx_write_rx_mutex (i : Nat) (f : tx_frame_info_t → tx_frame_info_t) (s : State) :
    (tx_frame_info_write i f s).rx_pkt_buf_mutex = s.rx_pkt_buf_mutex := rfl

@[simp] theorem flags_or_tx_mutex (c : Bool) (i bit : Nat) (s : State) :
    (tx_frame_info_flags_or c i bit s).tx_pkt_buf_mutex = s.tx_pkt_buf_mutex := by
  unfold tx_frame_info_flags_or; split <;> rfl
@[simp] theorem flags_or_rx_pkt_buf (c : Bool) (i bit : Nat) (s : State) :
    (tx_frame_info_flags_or c i bit s).rx_pkt_buf = s.rx_pkt_buf := by
  unfold tx_frame_info_flags_or; split <;> rfl
@[simp] theorem flags_or_rx_mutex (c : Bool) (i bit : Nat) (s : State) :
    (tx_frame_info_flags_or c i bit s).rx_pkt_buf_mutex = s.rx_pkt_buf_mutex := by
  unfold tx_frame_info_flags_or; split <;> rfl
theorem flags_or_tx_pkt_buf_ne (c : Bool) (i bit : Nat) (s : State) (j : Nat) (h : j ≠ i) :
    (tx_frame_info_flags_or c i bit s).tx_pkt_buf j = s.tx_pkt_buf j := by
  unfold tx_frame_info_flags_or; split <;> simp [h]
theorem flags_or_tx_pkt_buf_state (c : Bool) (i bit : Nat) (s : State) (j : Nat) :
    ((tx_frame_info_flags_or c i bit s).tx_pkt_buf j).tx_pkt_buf_state =
      (s.tx_pkt_buf j).tx_pkt_buf_state := by
  unfold tx_frame_info_flags_or
  split
  · by_cases h : j = i
    · subst h; simp
    · simp [h]
  · rfl
theorem flags_or_tx_pkt_buf_queue_info (c : Bool) (i bit : Nat) (s : State) (j : Nat) :
    ((tx_frame_info_flags_or c i bit s).tx_pkt_buf j).queue_info =
      (s.tx_pkt_buf j).queue_info := by
  unfold tx_frame_info_flags_or
  split
  · by_cases h : j = i
    · subst h; simp
    · simp [h]
  · rfl

@[simp] theorem cdma_start_tx_pkt_buf (x : Extern) (d a n : Nat) (s : State) :
    (wlan_mac_high_cdma_start_transfer x d a n s).2.tx_pkt_buf = s.tx_pkt_buf := by
  unfold wlan_mac_high_cdma_start_transfer; dsimp only; split_ifs <;> rfl
@[simp] theorem cdma_start_tx_mutex (x : Extern) (d a n : Nat) (s : State) :
    (wlan_mac_high_cdma_start_transfer x d a n s).2.tx_pkt_buf_mutex = s.tx_pkt_buf_mutex := by
  unfold wlan_mac_high_cdma_start_transfer; dsimp only; split_ifs <;> rfl
@[simp] theorem cdma_start_rx_pkt_buf (x : Extern) (d a n : Nat) (s : State) :
    (wlan_mac_high_cdma_start_transfer x d a n s).2.rx_pkt_buf = s.rx_pkt_buf := by
  unfold wlan_mac_high_cdma_start_transfer; dsimp only; split_ifs <;> rfl
@[simp] theorem cdma_start_rx_mutex (x : Extern) (d a n : Nat) (s : State) :
    (wlan_mac_high_cdma_start_transfer x d a n s).2.rx_pkt_buf_mutex = s.rx_pkt_buf_mutex := by
  unfold wlan_mac_high_cdma_start_transfer; dsimp only; split_ifs <;> rfl

@[simp] theorem cdma_finish_tx_pkt_buf (s : State) :
    (wlan_mac_high_cdma_finish_transfer s).tx_pkt_buf = s.tx_pkt_buf := rfl
@[simp] theorem cdma_finish_tx_mutex (s : State) :
    (wlan_mac_high_cdma_finish_transfer s).tx_pkt_buf_mutex = s.tx_pkt_buf_mutex := rfl
@[simp] theorem cdma_finish_rx_pkt_buf (s : State) :
    (wlan_mac_high_cdma_finish_transfer s).rx_pkt_buf = s.rx_pkt_buf := rfl
@[simp] theorem cdma_finish_rx_mutex (s : State) :
    (wlan_mac_high_cdma_finish_transfer s).rx_pkt_buf_mutex = s.rx_pkt_buf_mutex := rfl
@[simp] theorem cdma_finish_trace (s : State) :
    (wlan_mac_high_cdma_finish_transfer s).trace = s.trace ++ [Event.cdma_finish_transfer] := rfl

/-! ### The handoff, step by step -/

/-- The fill part leaves every Tx mutex as it was. -/
theorem mpdu_transmit_fill_mutex (x : Extern) (p : tx_queue_buffer_t) (i : Nat) (s : State) :
    (wlan_mac_high_mpdu_transmit_fill x p i s).tx_pkt_buf_mutex = s.tx_pkt_buf_mutex := by
  simp [wlan_mac_high_mpdu_transmit_fill]

/-- The fill part writes no header other than that of the slot it is given. -/
theorem mpdu_transmit_fill_tx_pkt_buf_ne (x : Extern) (p : tx_queue_buffer_t) (i : Nat)
    (s : State) (j : Nat) (h : j ≠ i) :
    (wlan_mac_high_mpdu_transmit_fill x p i s).tx_pkt_buf j = s.tx_pkt_buf j := by
  simp [wlan_mac_high_mpdu_transmit_fill, flags_or_tx_pkt_buf_ne, h]

/-- The fill part touches neither the Rx pool nor the Rx mutexes. -/
theorem mpdu_transmit_fill_rx (x : Extern) (p : tx_queue_buffer_t) (i : Nat) (s : State) :
    (wlan_mac_high_mpdu_transmit_fill x p i s).rx_pkt_buf = s.rx_pkt_buf ∧
    (wlan_mac_high_mpdu_transmit_fill x p i s).rx_pkt_buf_mutex = s.rx_pkt_buf_mutex := by
  simp [wlan_mac_high_mpdu_transmit_fill]

/-! ### Traces only grow -/

theorem events_since_append (s0 s1 : State) (evs : List Event)
    (h : s1.trace = s0.trace ++ evs) : s1.events_since s0 = evs := by
  simp [State.events_since, h]

theorem mem_events_since_right {s0 s1 s2 : State} {e : Event}
    (h01 : s0.trace <+: s1.trace) (h12 : s1.trace <+: s2.trace)
    (he : e ∈ s1.events_since s0) : e ∈ s2.events_since s0 := by
  obtain ⟨a, ha⟩ := h01
  obtain ⟨b, hb⟩ := h12
  rw [events_since_append s0 s1 a ha.symm] at he
  rw [events_since_append s0 s2 (a ++ b) (by rw [← hb, ← ha, List.append_assoc])]
  exact List.mem_append_left _ he

theorem mem_events_since_left {s0 s1 s2 : State} {e : Event}
    (h01 : s0.trace <+: s1.trace) (h12 : s1.trace <+: s2.trace)
    (he : e ∈ s2.events_since s1) : e ∈ s2.events_since s0 := by
  obtain ⟨a, ha⟩ := h01
  obtain ⟨b, hb⟩ := h12
  rw [events_since_append s1 s2 b hb.symm] at he
  rw [events_since_append s0 s2 (a ++ b) (by rw [← hb, ← ha, List.append_assoc])]
  exact List.mem_append_right _ he

theorem foldl_trace_grows (body : State → Nat → State)
    (h : ∀ s j, s.trace <+: (body s j).trace) (l : List Nat) (s : State) :
    s.trace <+: (l.foldl body s).trace := by
  induction l generalizing s with
  | nil => exact List.prefix_refl _
  | cons a l ih => exact (h s a).trans (ih (body s a))

/-- If the iteration at `i` emits `e` whenever a condition on the state holds, and
the other iterations keep the condition, a loop that visits `i` emits `e`. -/
theorem foldl_emits (body : State → Nat → State) (i : Nat) (e : Event) (C : State → Prop)
    (hpre : ∀ s j, s.trace <+: (body s j).trace)
    (hkeep : ∀ s j, j ≠ i → C s → C (body s j))
    (hemit : ∀ s, C s → e ∈ (body s i).events_since s)
    (l : List Nat) (hi : i ∈ l) (s : State) (hC : C s) :
    e ∈ (l.foldl body s).events_since s := by
  induction l generalizing s with
  | nil => simp at hi
  | cons a l ih =>
    rw [List.foldl_cons]
    by_cases hai : a = i
    · subst hai
      exact mem_events_since_right (hpre s a) (foldl_trace_grows body hpre l _) (hemit s hC)
    · have hil : i ∈ l := by
        rcases List.mem_cons.mp hi with h | h
        · exact absurd h.symm hai
        · exact h
      exact mem_events_since_left (hpre s a) (foldl_trace_grows body hpre l _)
        (ih hil (body s a) (hkeep s a hai hC))

/-! ### The reconciliation loops, slot by slot -/

theorem init_tx_pkt_buf_grows (s : State) (j : Nat) :
    s.trace <+: (wlan_mac_high_init_tx_pkt_buf s j).trace := by
  unfold wlan_mac_high_init_tx_pkt_buf
  split_ifs
  · split <;>
      simp [set_tx_pkt_buf_state, tx_frame_info_write, force_lock_tx_pkt_buf, List.append_assoc]
  · simp [set_tx_pkt_buf_state, tx_frame_info_write, unlock_tx_pkt_buf, List.append_assoc]
  · simp [unlock_tx_pkt_buf]
  · exact List.prefix_refl _

theorem init_rx_pkt_buf_grows (s : State) (j : Nat) :
    s.trace <+: (wlan_mac_high_init_rx_pkt_buf s j).trace := by
  unfold wlan_mac_high_init_rx_pkt_buf
  split <;>
    simp [set_rx_pkt_buf_state, rx_frame_info_write, unlock_rx_pkt_buf, List.append_assoc]

/-- One Rx iteration, read on the slots. -/
theorem init_rx_pkt_buf_slot (s : State) (j i : Nat) :
    (wlan_mac_high_init_rx_pkt_buf s j).rx_slot i =
      if i = j then init_rx_slot (s.rx_slot j) else s.rx_slot i := by
  unfold wlan_mac_high_init_rx_pkt_buf init_rx_slot State.rx_slot
  by_cases hij : i = j
  · subst hij
    simp only [if_true]
    split <;> simp_all [set_rx_pkt_buf_state, rx_frame_info_write, unlock_rx_pkt_buf]
  · simp only [hij, if_false]
    split <;> simp [set_rx_pkt_buf_state, rx_frame_info_write, unlock_rx_pkt_buf, hij]

/-- A Tx iteration touches neither the Rx pool nor the Rx mutexes. -/
theorem init_tx_pkt_buf_rx (s : State) (j : Nat) :
    (fun i => (wlan_mac_high_init_tx_pkt_buf s j).rx_slot i) = fun i => s.rx_slot i := by
  funext i
  unfold wlan_mac_high_init_tx_pkt_buf State.rx_slot
  split_ifs
  · split <;> rfl
  · rfl
  · rfl
  · rfl

/-- An Rx iteration touches neither the Tx pool nor the Tx mutexes. -/
theorem init_rx_pkt_buf_tx (s : State) (j : Nat) :
    (fun i => (wlan_mac_high_init_rx_pkt_buf s j).tx_slot i) = fun i => s.tx_slot i := by
  funext i
  unfold wlan_mac_high_init_rx_pkt_buf State.tx_slot
  split <;> rfl

/-- The Tx loop, read on the Tx slots. -/
theorem init_tx_loop_tx_slot (s : State) (i : Nat) :
    (wlan_mac_high_init_tx_loop s).tx_slot i =
      if i < NUM_TX_PKT_BUFS then init_tx_slot i (s.tx_slot i) else s.tx_slot i := by
  unfold wlan_mac_high_init_tx_loop
  rw [foldl_pointwise (fun s i => s.tx_slot i) wlan_mac_high_init_tx_pkt_buf init_tx_slot
    init_tx_pkt_buf_slot _ (List.nodup_range _)]
  simp [List.mem_range]

/-- The Tx loop leaves the Rx slots alone. -/
theorem init_tx_loop_rx_slot (s : State) (i : Nat) :
    (wlan_mac_high_init_tx_loop s).rx_slot i = s.rx_slot i := by
  unfold wlan_mac_high_init_tx_loop
  exact congrFun (foldl_frame (fun s => fun i => s.rx_slot i) wlan_mac_high_init_tx_pkt_buf
    init_tx_pkt_buf_rx _ s) i

/-- The Rx loop, read on the Rx slots. -/
theorem init_rx_loop_rx_slot (s : State) (i : Nat) :
    (wlan_mac_high_init_rx_loop s).rx_slot i =
      if i < NUM_RX_PKT_BUFS then init_rx_slot (s.rx_slot i) else s.rx_slot i := by
  unfold wlan_mac_high_init_rx_loop
  rw [foldl_pointwise (fun s i => s.rx_slot i) wlan_mac_high_init_rx_pkt_buf
    (fun _ => init_rx_slot) init_rx_pkt_buf_slot _ (List.nodup_range _)]
  simp [List.mem_range]

/-- The Rx loop leaves the Tx slots alone. -/
theorem init_rx_loop_tx_slot (s : State) (i : Nat) :
    (wlan_mac_high_init_rx_loop s).tx_slot i = s.tx_slot i := by
  unfold wlan_mac_high_init_rx_loop
  exact congrFun (foldl_frame (fun s => fun i => s.tx_slot i) wlan_mac_high_init_rx_pkt_buf
    init_rx_pkt_buf_tx _ s) i

/-- Both loops, read on the Tx slots. -/
theorem init_tx_slot_eq (s : State) (i : Nat) :
    (wlan_mac_high_init s).tx_slot i =
      if i < NUM_TX_PKT_BUFS then init_tx_slot i (s.tx_slot i) else s.tx_slot i := by
  unfold wlan_mac_high_init
  rw [init_rx_loop_tx_slot, init_tx_loop_tx_slot]

/-- Both loops, read on the Rx slots. -/
theorem init_rx_slot_eq (s : State) (i : Nat) :
    (wlan_mac_high_init s).rx_slot i =
      if i < NUM_RX_PKT_BUFS then init_rx_slot (s.rx_slot i) else s.rx_slot i := by
  unfold wlan_mac_high_init
  rw [init_rx_loop_rx_slot, init_tx_loop_rx_slot]

theorem init_tx_loop_grows (s : State) : s.trace <+: (wlan_mac_high_init_tx_loop s).trace :=
  foldl_trace_grows _ init_tx_pkt_buf_grows _ s

theorem init_rx_loop_grows (s : State) : s.trace <+: (wlan_mac_high_init_rx_loop s).trace :=
  foldl_trace_grows _ init_rx_pkt_buf_grows _ s

theorem general_index_cases (i : Nat) (hi : i < NUM_TX_PKT_BUF_MPDU) :
    i = TX_PKT_BUF_MPDU_1 ∨ i = TX_PKT_BUF_MPDU_2 ∨ i = TX_PKT_BUF_MPDU_3 ∨
      i = TX_PKT_BUF_MPDU_4 ∨ i = TX_PKT_BUF_MPDU_5 ∨ i = TX_PKT_BUF_MPDU_6 := by
  simp only [NUM_TX_PKT_BUF_MPDU] at hi
  simp only [TX_PKT_BUF_MPDU_1, TX_PKT_BUF_MPDU_2, TX_PKT_BUF_MPDU_3, TX_PKT_BUF_MPDU_4,
    TX_PKT_BUF_MPDU_5, TX_PKT_BUF_MPDU_6]
  omega

theorem general_lt_num_tx (i : Nat) (hi : i < NUM_TX_PKT_BUF_MPDU) : i < NUM_TX_PKT_BUFS := by
  simp only [NUM_TX_PKT_BUF_MPDU] at hi
  simp only [NUM_TX_PKT_BUFS]
  omega

/-- A general slot whose tag is not READY or LOW_CTRL: what one iteration does. -/
theorem init_tx_slot_general_reclaim (i : Nat) (hi : i < NUM_TX_PKT_BUF_MPDU)
    (p : tx_frame_info_t × Option cpu_t)
    (h : p.1.tx_pkt_buf_state ≠ TX_PKT_BUF_READY ∧ p.1.tx_pkt_buf_state ≠ TX_PKT_BUF_LOW_CTRL) :
    init_tx_slot i p = ({ p.1 with tx_pkt_buf_state := TX_PKT_BUF_HIGH_CTRL }, some CPU_HIGH) := by
  unfold init_tx_slot
  rw [if_pos (general_index_cases i hi)]
  split <;> simp_all

/-- A general slot whose tag is READY or LOW_CTRL: one iteration leaves it. -/
theorem init_tx_slot_general_keep (i : Nat) (hi : i < NUM_TX_PKT_BUF_MPDU)
    (p : tx_frame_info_t × Option cpu_t)
    (h : p.1.tx_pkt_buf_state = TX_PKT_BUF_READY ∨ p.1.tx_pkt_buf_state = TX_PKT_BUF_LOW_CTRL) :
    init_tx_slot i p = p := by
  unfold init_tx_slot
  rw [if_pos (general_index_cases i hi)]
  split <;> simp_all

/-- The Tx loop emits a force-lock for every general slot whose tag is not READY
or LOW_CTRL. -/
theorem init_tx_loop_force_lock (s : State) (i : Nat) (hi : i < NUM_TX_PKT_BUF_MPDU)
    (h : (s.tx_pkt_buf i).tx_pkt_buf_state ≠ TX_PKT_BUF_READY ∧
         (s.tx_pkt_buf i).tx_pkt_buf_state ≠ TX_PKT_BUF_LOW_CTRL) :
    Event.force_lock_tx_pkt_buf i ∈ (wlan_mac_high_init_tx_loop s).events_since s := by
  unfold wlan_mac_high_init_tx_loop
  refine foldl_emits wlan_mac_high_init_tx_pkt_buf i _
    (fun s => (s.tx_pkt_buf i).tx_pkt_buf_state ≠ TX_PKT_BUF_READY ∧
         (s.tx_pkt_buf i).tx_pkt_buf_state ≠ TX_PKT_BUF_LOW_CTRL)
    init_tx_pkt_buf_grows ?_ ?_ _ (List.mem_range.mpr (general_lt_num_tx i hi)) s h
  · intro s j hji hC
    have := init_tx_pkt_buf_slot s j i
    rw [if_neg (fun h => hji h.symm)] at this
    have h1 : (wlan_mac_high_init_tx_pkt_buf s j).tx_pkt_buf i = s.tx_pkt_buf i :=
      congrArg Prod.fst this
    rw [h1]; exact hC
  · intro s hC
    unfold wlan_mac_high_init_tx_pkt_buf
    rw [if_pos (general_index_cases i hi)]
    split <;>
      simp_all [State.events_since, set_tx_pkt_buf_state, tx_frame_info_write,
        force_lock_tx_pkt_buf, List.append_assoc]

/-- C3: every general-pool Tx slot whose tag at entry is TX_PKT_BUF_HIGH_CTRL,
TX_PKT_BUF_UNINITIALIZED or TX_PKT_BUF_DONE has been force-locked by CPU High
(a `force_lock_tx_pkt_buf` call for it is in the trace and CPU High owns its
mutex) and carries the tag TX_PKT_BUF_HIGH_CTRL after the Tx reconciliation
loop, and still so when `wlan_mac_high_init` has run both loops. -/
theorem init_general_tx_slot_force_acquired (s : State) (i : Nat)
    (hi : i < NUM_TX_PKT_BUF_MPDU)
    (htag : (s.tx_pkt_buf i).tx_pkt_buf_state = TX_PKT_BUF_HIGH_CTRL ∨
            (s.tx_pkt_buf i).tx_pkt_buf_state = TX_PKT_BUF_UNINITIALIZED ∨
            (s.tx_pkt_buf i).tx_pkt_buf_state = TX_PKT_BUF_DONE) :
    Event.force_lock_tx_pkt_buf i ∈ (wlan_mac_high_init_tx_loop s).events_since s ∧
    (wlan_mac_high_init_tx_loop s).tx_pkt_buf_mutex i = some CPU_HIGH ∧
    ((wlan_mac_high_init_tx_loop s).tx_pkt_buf i).tx_pkt_buf_state = TX_PKT_BUF_HIGH_CTRL ∧
    (wlan_mac_high_init s).tx_pkt_buf_mutex i = some CPU_HIGH ∧
    ((wlan_mac_high_init s).tx_pkt_buf i).tx_pkt_buf_state = TX_PKT_BUF_HIGH_CTRL := by
  have hne : (s.tx_pkt_buf i).tx_pkt_buf_state ≠ TX_PKT_BUF_READY ∧
      (s.tx_pkt_buf i).tx_pkt_buf_state ≠ TX_PKT_BUF_LOW_CTRL := by
    rcases htag with h | h | h <;> simp [h]
  have h1 := init_tx_loop_tx_slot s i
  have h2 := init_tx_slot_eq s i
  rw [if_pos (general_lt_num_tx i hi), init_tx_slot_general_reclaim i hi _ hne] at h1 h2
  refine ⟨init_tx_loop_force_lock s i hi hne, ?_, ?_, ?_, ?_⟩
  · exact congrArg Prod.snd h1
  · exact congrArg (fun p => p.1.tx_pkt_buf_state) h1
  · exact congrArg Prod.snd h2
  · exact congrArg (fun p => p.1.tx_pkt_buf_state) h2

/-- C3 at a concrete pool: general slot 0, left in TX_PKT_BUF_DONE. -/
theorem init_general_tx_slot_force_acquired_witness :
    (0 < NUM_TX_PKT_BUF_MPDU ∧
      (reboot_state_example.tx_pkt_buf 0).tx_pkt_buf_state = TX_PKT_BUF_DONE) ∧
    (wlan_mac_high_init reboot_state_example).tx_pkt_buf_mutex 0 = some CPU_HIGH ∧
    ((wlan_mac_high_init reboot_state_example).tx_pkt_buf 0).tx_pkt_buf_state =
      TX_PKT_BUF_HIGH_CTRL :=
  ⟨⟨by decide, by decide⟩,
    (init_general_tx_slot_force_acquired reboot_state_example 0 (by decide)
      (Or.inr (Or.inr (by decide)))).2.2.2⟩

/-- C4: a general-pool Tx slot whose tag at entry is TX_PKT_BUF_READY or
TX_PKT_BUF_LOW_CTRL keeps its whole header (state tag and every other field) and
its mutex owner through the Tx reconciliation loop and through both loops of
`wlan_mac_high_init`. -/
theorem init_radio_owned_tx_slot_untouched (s : State) (i : Nat)
    (hi : i < NUM_TX_PKT_BUF_MPDU)
    (htag : (s.tx_pkt_buf i).tx_pkt_buf_state = TX_PKT_BUF_READY ∨
            (s.tx_pkt_buf i).tx_pkt_buf_state = TX_PKT_BUF_LOW_CTRL) :
    (wlan_mac_high_init_tx_loop s).tx_pkt_buf i = s.tx_pkt_buf i ∧
    (wlan_mac_high_init_tx_loop s).tx_pkt_buf_mutex i = s.tx_pkt_buf_mutex i ∧
    (wlan_mac_high_init s).tx_pkt_buf i = s.tx_pkt_buf i ∧
    (wlan_mac_high_init s).tx_pkt_buf_mutex i = s.tx_pkt_buf_mutex i := by
  have h1 := init_tx_loop_tx_slot s i
  have h2 := init_tx_slot_eq s i
  rw [if_pos (general_lt_num_tx i hi), init_tx_slot_general_keep i hi _ htag] at h1 h2
  exact ⟨congrArg Prod.fst h1, congrArg Prod.snd h1, congrArg Prod.fst h2, congrArg Prod.snd h2⟩

/-- C4 at a concrete pool: general slot 1, READY and locked by CPU Low. -/
theorem init_radio_owned_tx_slot_untouched_witness :
    (1 < NUM_TX_PKT_BUF_MPDU ∧
      (reboot_state_example.tx_pkt_buf 1).tx_pkt_buf_state = TX_PKT_BUF_READY) ∧
    (wlan_mac_high_init reboot_state_example).tx_pkt_buf 1 =
      tx_frame_info_example TX_PKT_BUF_READY PKT_BUF_GROUP_GENERAL ∧
    (wlan_mac_high_init reboot_state_example).tx_pkt_buf_mutex 1 = some CPU_LOW :=
  ⟨⟨by decide, by decide⟩,
    (init_radio_owned_tx_slot_untouched reboot_state_example 1 (by decide)
      (Or.inl (by decide))).2.2⟩

/-- The Rx loop emits the release of every Rx slot it resets. -/
theorem init_rx_loop_unlock (s : State) (i : Nat) (hi : i < NUM_RX_PKT_BUFS)
    (h : (s.rx_pkt_buf i).rx_pkt_buf_state ≠ RX_PKT_BUF_UNINITIALIZED ∧
         (s.rx_pkt_buf i).rx_pkt_buf_state ≠ RX_PKT_BUF_LOW_CTRL) :
    Event.unlock_rx_pkt_buf i (unlock_result (s.rx_pkt_buf_mutex i)).1 ∈
      (wlan_mac_high_init_rx_loop s).events_since s := by
  unfold wlan_mac_high_init_rx_loop
  refine foldl_emits wlan_mac_high_init_rx_pkt_buf i _
    (fun s' => s'.rx_slot i = s.rx_slot i)
    init_rx_pkt_buf_grows ?_ ?_ _ (List.mem_range.mpr hi) s rfl
  · intro s' j hji hC
    have := init_rx_pkt_buf_slot s' j i
    rw [if_neg (fun h => hji h.symm)] at this
    rw [this]; exact hC
  · intro s' hC
    have h1 : s'.rx_pkt_buf i = s.rx_pkt_buf i := congrArg Prod.fst hC
    have h2 : s'.rx_pkt_buf_mutex i = s.rx_pkt_buf_mutex i := congrArg Prod.snd hC
    unfold wlan_mac_high_init_rx_pkt_buf
    rw [h1]
    split <;>
      simp_all [State.events_since, set_rx_pkt_buf_state, rx_frame_info_write,
        unlock_rx_pkt_buf, List.append_assoc]

/-- After a release by CPU High, CPU High does not own the mutex. -/
theorem unlock_result_not_high (o : Option cpu_t) : (unlock_result o).2 ≠ some CPU_HIGH := by
  cases o with
  | none => simp [unlock_result]
  | some c => cases c <;> simp [unlock_result]

/-- Releasing twice is the same as releasing once. -/
theorem unlock_result_idem (o : Option cpu_t) :
    (unlock_result (unlock_result o).2).2 = (unlock_result o).2 := by
  cases o with
  | none => simp [unlock_result]
  | some c => cases c <;> simp [unlock_result]

/-- C5: for every Rx slot `i < NUM_RX_PKT_BUFS`, a tag RX_PKT_BUF_UNINITIALIZED or
RX_PKT_BUF_LOW_CTRL at entry leaves header and mutex owner as they were; a tag
RX_PKT_BUF_HIGH_CTRL or RX_PKT_BUF_READY makes `wlan_mac_high_init` call
`unlock_rx_pkt_buf(i)`, after which CPU High does not own the mutex, and set the
tag to RX_PKT_BUF_LOW_CTRL. -/
theorem init_rx_slot_reconciled (s : State) (i : Nat) (hi : i < NUM_RX_PKT_BUFS) :
    (((s.rx_pkt_buf i).rx_pkt_buf_state = RX_PKT_BUF_UNINITIALIZED ∨
      (s.rx_pkt_buf i).rx_pkt_buf_state = RX_PKT_BUF_LOW_CTRL) →
        (wlan_mac_high_init s).rx_pkt_buf i = s.rx_pkt_buf i ∧
        (wlan_mac_high_init s).rx_pkt_buf_mutex i = s.rx_pkt_buf_mutex i) ∧
    (((s.rx_pkt_buf i).rx_pkt_buf_state = RX_PKT_BUF_HIGH_CTRL ∨
      (s.rx_pkt_buf i).rx_pkt_buf_state = RX_PKT_BUF_READY) →
        Event.unlock_rx_pkt_buf i (unlock_result (s.rx_pkt_buf_mutex i)).1 ∈
          (wlan_mac_high_init s).events_since s ∧
        (wlan_mac_high_init s).rx_pkt_buf_mutex i = (unlock_result (s.rx_pkt_buf_mutex i)).2 ∧
        (wlan_mac_high_init s).rx_pkt_buf_mutex i ≠ some CPU_HIGH ∧
        ((wlan_mac_high_init s).rx_pkt_buf i).rx_pkt_buf_state = RX_PKT_BUF_LOW_CTRL) := by
  have h := init_rx_slot_eq s i
  rw [if_pos hi] at h
  constructor
  · intro htag
    have hk : init_rx_slot (s.rx_slot i) = s.rx_slot i := by
      unfold init_rx_slot State.rx_slot
      split <;> simp_all
    rw [hk] at h
    exact ⟨congrArg Prod.fst h, congrArg Prod.snd h⟩
  · intro htag
    have hne : (s.rx_pkt_buf i).rx_pkt_buf_state ≠ RX_PKT_BUF_UNINITIALIZED ∧
        (s.rx_pkt_buf i).rx_pkt_buf_state ≠ RX_PKT_BUF_LOW_CTRL := by
      rcases htag with h' | h' <;> simp [h']
    have hk : init_rx_slot (s.rx_slot i) =
        ({ s.rx_pkt_buf i with rx_pkt_buf_state := RX_PKT_BUF_LOW_CTRL },
          (unlock_result (s.rx_pkt_buf_mutex i)).2) := by
      unfold init_rx_slot State.rx_slot
      split <;> simp_all
    rw [hk] at h
    have hm : (wlan_mac_high_init s).rx_pkt_buf_mutex i =
        (unlock_result (s.rx_pkt_buf_mutex i)).2 := congrArg Prod.snd h
    refine ⟨?_, hm, ?_, congrArg (fun p => p.1.rx_pkt_buf_state) h⟩
    · unfold wlan_mac_high_init
      have hrx : (wlan_mac_high_init_tx_loop s).rx_slot i = s.rx_slot i :=
        init_tx_loop_rx_slot s i
      have hb : (wlan_mac_high_init_tx_loop s).rx_pkt_buf i = s.rx_pkt_buf i :=
        congrArg Prod.fst hrx
      have hmu : (wlan_mac_high_init_tx_loop s).rx_pkt_buf_mutex i = s.rx_pkt_buf_mutex i :=
        congrArg Prod.snd hrx
      have := init_rx_loop_unlock (wlan_mac_high_init_tx_loop s) i hi (by rw [hb]; exact hne)
      rw [hmu] at this
      exact mem_events_since_left (init_tx_loop_grows s) (init_rx_loop_grows _) this
    · rw [hm]; exact unlock_result_not_high _

/-- C5 at a concrete pool: Rx slot 0 is READY and locked by CPU High, Rx slot 2
is LOW_CTRL and locked by CPU Low. -/
theorem init_rx_slot_reconciled_witness :
    ((0 < NUM_RX_PKT_BUFS ∧
      (reboot_state_example.rx_pkt_buf 0).rx_pkt_buf_state = RX_PKT_BUF_READY) ∧
     (wlan_mac_high_init reboot_state_example).rx_pkt_buf_mutex 0 = none ∧
     ((wlan_mac_high_init reboot_state_example).rx_pkt_buf 0).rx_pkt_buf_state =
       RX_PKT_BUF_LOW_CTRL) ∧
    ((2 < NUM_RX_PKT_BUFS ∧
      (reboot_state_example.rx_pkt_buf 2).rx_pkt_buf_state = RX_PKT_BUF_LOW_CTRL) ∧
     (wlan_mac_high_init reboot_state_example).rx_pkt_buf 2 =
       rx_frame_info_example RX_PKT_BUF_LOW_CTRL ∧
     (wlan_mac_high_init reboot_state_example).rx_pkt_buf_mutex 2 = some CPU_LOW) :=
  ⟨⟨⟨by decide, by decide⟩,
     ((init_rx_slot_reconciled reboot_state_example 0 (by decide)).2
        (Or.inr (by decide))).2.1,
     ((init_rx_slot_reconciled reboot_state_example 0 (by decide)).2
        (Or.inr (by decide))).2.2.2⟩,
   ⟨⟨by decide, by decide⟩,
     (init_rx_slot_reconciled reboot_state_example 2 (by decide)).1 (Or.inr (by decide))⟩⟩

/-- The beacon slot: one iteration forces the tag and releases the mutex twice. -/
theorem init_tx_slot_beacon (p : tx_frame_info_t × Option cpu_t) :
    init_tx_slot TX_PKT_BUF_BEACON p =
      ({ p.1 with tx_pkt_buf_state := TX_PKT_BUF_HIGH_CTRL }, (unlock_result p.2).2) := by
  simp [init_tx_slot, TX_PKT_BUF_BEACON, TX_PKT_BUF_MPDU_1, TX_PKT_BUF_MPDU_2,
    TX_PKT_BUF_MPDU_3, TX_PKT_BUF_MPDU_4, TX_PKT_BUF_MPDU_5, TX_PKT_BUF_MPDU_6,
    unlock_result_idem]

/-- The RTS slot: one iteration only releases the mutex. -/
theorem init_tx_slot_rts (p : tx_frame_info_t × Option cpu_t) :
    init_tx_slot TX_PKT_BUF_RTS p = (p.1, (unlock_result p.2).2) := by
  simp [init_tx_slot, TX_PKT_BUF_BEACON, TX_PKT_BUF_MPDU_1, TX_PKT_BUF_MPDU_2,
    TX_PKT_BUF_MPDU_3, TX_PKT_BUF_MPDU_4, TX_PKT_BUF_MPDU_5, TX_PKT_BUF_MPDU_6,
    TX_PKT_BUF_RTS]

/-- The ACK/CTS slot: one iteration only releases the mutex. -/
theorem init_tx_slot_ack_cts (p : tx_frame_info_t × Option cpu_t) :
    init_tx_slot TX_PKT_BUF_ACK_CTS p = (p.1, (unlock_result p.2).2) := by
  simp [init_tx_slot, TX_PKT_BUF_BEACON, TX_PKT_BUF_MPDU_1, TX_PKT_BUF_MPDU_2,
    TX_PKT_BUF_MPDU_3, TX_PKT_BUF_MPDU_4, TX_PKT_BUF_MPDU_5, TX_PKT_BUF_MPDU_6,
    TX_PKT_BUF_RTS, TX_PKT_BUF_ACK_CTS]

/-- Indices past the named slots: one iteration does nothing. -/
theorem init_tx_slot_unassigned (i : Nat) (hi : TX_PKT_BUF_ACK_CTS < i)
    (p : tx_frame_info_t × Option cpu_t) : init_tx_slot i p = p := by
  simp only [TX_PKT_BUF_ACK_CTS] at hi
  unfold init_tx_slot
  simp only [TX_PKT_BUF_BEACON, TX_PKT_BUF_MPDU_1, TX_PKT_BUF_MPDU_2,
    TX_PKT_BUF_MPDU_3, TX_PKT_BUF_MPDU_4, TX_PKT_BUF_MPDU_5, TX_PKT_BUF_MPDU_6,
    TX_PKT_BUF_RTS, TX_PKT_BUF_ACK_CTS]
  rw [if_neg (by omega), if_neg (by omega), if_neg (by omega)]

/-- C6, as the claim states it, fails: the RTS slot of the example pool enters
the Tx reconciliation loop with tag TX_PKT_BUF_LOW_CTRL and leaves it with the
same tag, not with TX_PKT_BUF_HIGH_CTRL. -/
theorem init_rts_slot_not_forced :
    (reboot_state_example.tx_pkt_buf TX_PKT_BUF_RTS).tx_pkt_buf_state = TX_PKT_BUF_LOW_CTRL ∧
    ((wlan_mac_high_init_tx_loop reboot_state_example).tx_pkt_buf
        TX_PKT_BUF_RTS).tx_pkt_buf_state = TX_PKT_BUF_LOW_CTRL ∧
    ((wlan_mac_high_init_tx_loop reboot_state_example).tx_pkt_buf
        TX_PKT_BUF_RTS).tx_pkt_buf_state ≠ TX_PKT_BUF_HIGH_CTRL := by
  have h := init_tx_loop_tx_slot reboot_state_example TX_PKT_BUF_RTS
  rw [if_pos (by decide), init_tx_slot_rts] at h
  have h1 : (wlan_mac_high_init_tx_loop reboot_state_example).tx_pkt_buf TX_PKT_BUF_RTS =
      reboot_state_example.tx_pkt_buf TX_PKT_BUF_RTS := congrArg Prod.fst h
  rw [h1]
  decide

/-- C6, amended: after the Tx reconciliation loop the beacon slot carries
TX_PKT_BUF_HIGH_CTRL whatever its tag was, while the RTS and ACK/CTS slots keep
their whole header, tag included; for all three the loop only releases the mutex,
so CPU High does not own it afterwards. -/
theorem init_reserved_tx_slots (s : State) :
    (((wlan_mac_high_init_tx_loop s).tx_pkt_buf TX_PKT_BUF_BEACON).tx_pkt_buf_state =
        TX_PKT_BUF_HIGH_CTRL ∧
      (wlan_mac_high_init_tx_loop s).tx_pkt_buf_mutex TX_PKT_BUF_BEACON =
        (unlock_result (s.tx_pkt_buf_mutex TX_PKT_BUF_BEACON)).2) ∧
    ((wlan_mac_high_init_tx_loop s).tx_pkt_buf TX_PKT_BUF_RTS = s.tx_pkt_buf TX_PKT_BUF_RTS ∧
      (wlan_mac_high_init_tx_loop s).tx_pkt_buf_mutex TX_PKT_BUF_RTS =
        (unlock_result (s.tx_pkt_buf_mutex TX_PKT_BUF_RTS)).2) ∧
    ((wlan_mac_high_init_tx_loop s).tx_pkt_buf TX_PKT_BUF_ACK_CTS =
        s.tx_pkt_buf TX_PKT_BUF_ACK_CTS ∧
      (wlan_mac_high_init_tx_loop s).tx_pkt_buf_mutex TX_PKT_BUF_ACK_CTS =
        (unlock_result (s.tx_pkt_buf_mutex TX_PKT_BUF_ACK_CTS)).2) ∧
    (∀ i, i = TX_PKT_BUF_BEACON ∨ i = TX_PKT_BUF_RTS ∨ i = TX_PKT_BUF_ACK_CTS →
      (wlan_mac_high_init_tx_loop s).tx_pkt_buf_mutex i ≠ some CPU_HIGH) := by
  have hb := init_tx_loop_tx_slot s TX_PKT_BUF_BEACON
  rw [if_pos (by decide), init_tx_slot_beacon] at hb
  have hr := init_tx_loop_tx_slot s TX_PKT_BUF_RTS
  rw [if_pos (by decide), init_tx_slot_rts] at hr
  have ha := init_tx_loop_tx_slot s TX_PKT_BUF_ACK_CTS
  rw [if_pos (by decide), init_tx_slot_ack_cts] at ha
  have hbm : (wlan_mac_high_init_tx_loop s).tx_pkt_buf_mutex TX_PKT_BUF_BEACON =
      (unlock_result (s.tx_pkt_buf_mutex TX_PKT_BUF_BEACON)).2 := (Prod.ext_iff.mp hb).2
  have hrm : (wlan_mac_high_init_tx_loop s).tx_pkt_buf_mutex TX_PKT_BUF_RTS =
      (unlock_result (s.tx_pkt_buf_mutex TX_PKT_BUF_RTS)).2 := (Prod.ext_iff.mp hr).2
  have ham : (wlan_mac_high_init_tx_loop s).tx_pkt_buf_mutex TX_PKT_BUF_ACK_CTS =
      (unlock_result (s.tx_pkt_buf_mutex TX_PKT_BUF_ACK_CTS)).2 := (Prod.ext_iff.mp ha).2
  refine ⟨⟨congrArg (fun p => p.1.tx_pkt_buf_state) hb, hbm⟩, ⟨congrArg Prod.fst hr, hrm⟩,
    ⟨congrArg Prod.fst ha, ham⟩, ?_⟩
  intro i hi
  rcases hi with h | h | h <;> subst h
  · rw [hbm]; exact unlock_result_not_high _
  · rw [hrm]; exact unlock_result_not_high _
  · rw [ham]; exact unlock_result_not_high _

/-- C6, amended, at the example pool: the beacon slot ends in HIGH_CTRL and the
RTS slot, which CPU Low holds, keeps its owner. -/
theorem init_reserved_tx_slots_witness :
    ((wlan_mac_high_init_tx_loop reboot_state_example).tx_pkt_buf
        TX_PKT_BUF_BEACON).tx_pkt_buf_state = TX_PKT_BUF_HIGH_CTRL ∧
    (wlan_mac_high_init_tx_loop reboot_state_example).tx_pkt_buf_mutex TX_PKT_BUF_RTS ≠
      some CPU_HIGH :=
  ⟨(init_reserved_tx_slots reboot_state_example).1.1,
   (init_reserved_tx_slots reboot_state_example).2.2.2 TX_PKT_BUF_RTS (Or.inr (Or.inl rfl))⟩

/-- C7, as the claim states it, fails: the ACK/CTS slot of the example pool is a
Tx slot below NUM_TX_PKT_BUFS, enters `wlan_mac_high_init` with a tag outside
the enum and leaves it with the very same tag. -/
theorem init_corrupt_tx_tag_survives :
    TX_PKT_BUF_ACK_CTS < NUM_TX_PKT_BUFS ∧
    (reboot_state_example.tx_pkt_buf TX_PKT_BUF_ACK_CTS).tx_pkt_buf_state.is_enum_member =
      false ∧
    ((wlan_mac_high_init reboot_state_example).tx_pkt_buf TX_PKT_BUF_ACK_CTS).tx_pkt_buf_state =
      (reboot_state_example.tx_pkt_buf TX_PKT_BUF_ACK_CTS).tx_pkt_buf_state ∧
    ((wlan_mac_high_init reboot_state_example).tx_pkt_buf
      TX_PKT_BUF_ACK_CTS).tx_pkt_buf_state.is_enum_member = false := by
  have h := init_tx_slot_eq reboot_state_example TX_PKT_BUF_ACK_CTS
  rw [if_pos (by decide), init_tx_slot_ack_cts] at h
  have h1 : (wlan_mac_high_init reboot_state_example).tx_pkt_buf TX_PKT_BUF_ACK_CTS =
      reboot_state_example.tx_pkt_buf TX_PKT_BUF_ACK_CTS := (Prod.ext_iff.mp h).1
  rw [h1]
  decide

/-- C7, amended: a tag outside the enum at entry to `wlan_mac_high_init` becomes
TX_PKT_BUF_HIGH_CTRL on every general Tx slot and on the beacon slot, and
RX_PKT_BUF_LOW_CTRL on every Rx slot below NUM_RX_PKT_BUFS; the headers of the
Tx slots RTS, ACK/CTS and of every higher index are not changed at all. -/
theorem init_corrupt_tags (s : State) :
    (∀ i, (i < NUM_TX_PKT_BUF_MPDU ∨ i = TX_PKT_BUF_BEACON) →
      (s.tx_pkt_buf i).tx_pkt_buf_state.is_enum_member = false →
      ((wlan_mac_high_init s).tx_pkt_buf i).tx_pkt_buf_state = TX_PKT_BUF_HIGH_CTRL ∧
      ((wlan_mac_high_init s).tx_pkt_buf i).tx_pkt_buf_state.is_enum_member = true) ∧
    (∀ i, i < NUM_RX_PKT_BUFS →
      (s.rx_pkt_buf i).rx_pkt_buf_state.is_enum_member = false →
      ((wlan_mac_high_init s).rx_pkt_buf i).rx_pkt_buf_state = RX_PKT_BUF_LOW_CTRL ∧
      ((wlan_mac_high_init s).rx_pkt_buf i).rx_pkt_buf_state.is_enum_member = true) ∧
    (∀ i, TX_PKT_BUF_BEACON < i →
      (wlan_mac_high_init s).tx_pkt_buf i = s.tx_pkt_buf i) := by
  refine ⟨?_, ?_, ?_⟩
  · intro i hi hc
    have h := init_tx_slot_eq s i
    have htag : ((wlan_mac_high_init s).tx_pkt_buf i).tx_pkt_buf_state =
        TX_PKT_BUF_HIGH_CTRL := by
      rcases hi with hi | hi
      · have hne : (s.tx_pkt_buf i).tx_pkt_buf_state ≠ TX_PKT_BUF_READY ∧
            (s.tx_pkt_buf i).tx_pkt_buf_state ≠ TX_PKT_BUF_LOW_CTRL := by
          constructor <;> intro h' <;> rw [h'] at hc <;> exact absurd hc (by decide)
        rw [if_pos (general_lt_num_tx i hi), init_tx_slot_general_reclaim i hi _ hne] at h
        exact congrArg (fun p => p.1.tx_pkt_buf_state) h
      · subst hi
        rw [if_pos (by decide), init_tx_slot_beacon] at h
        exact congrArg (fun p => p.1.tx_pkt_buf_state) h
    rw [htag]
    exact ⟨rfl, rfl⟩
  · intro i hi hc
    have h := init_rx_slot_eq s i
    have hk : init_rx_slot (s.rx_slot i) =
        ({ s.rx_pkt_buf i with rx_pkt_buf_state := RX_PKT_BUF_LOW_CTRL },
          (unlock_result (s.rx_pkt_buf_mutex i)).2) := by
      unfold init_rx_slot State.rx_slot
      split <;> simp_all [rx_pkt_buf_state_t.is_enum_member]
    rw [if_pos hi, hk] at h
    have htag : ((wlan_mac_high_init s).rx_pkt_buf i).rx_pkt_buf_state =
        RX_PKT_BUF_LOW_CTRL := congrArg (fun p => p.1.rx_pkt_buf_state) h
    rw [htag]
    exact ⟨rfl, rfl⟩
  · intro i hi
    have h := init_tx_slot_eq s i
    have hk : (init_tx_slot i (s.tx_slot i)).1 = s.tx_pkt_buf i := by
      simp only [TX_PKT_BUF_BEACON] at hi
      by_cases h7 : i = TX_PKT_BUF_RTS
      · subst h7
        rw [init_tx_slot_rts]; rfl
      · by_cases h8 : i = TX_PKT_BUF_ACK_CTS
        · subst h8
          rw [init_tx_slot_ack_cts]; rfl
        · rw [init_tx_slot_unassigned]
          · rfl
          · simp only [TX_PKT_BUF_RTS, TX_PKT_BUF_ACK_CTS] at h7 h8 ⊢
            omega
    have h1 : (wlan_mac_high_init s).tx_pkt_buf i =
        (if i < NUM_TX_PKT_BUFS then init_tx_slot i (s.tx_slot i) else s.tx_slot i).1 :=
      (Prod.ext_iff.mp h).1
    rw [h1]
    split_ifs
    · exact hk
    · rfl

/-- C7, amended, at the example pool: the corrupt tags of general Tx slot 3 and
of Rx slot 1 are replaced by the safe defaults. -/
theorem init_corrupt_tags_witness :
    ((3 < NUM_TX_PKT_BUF_MPDU ∧
      (reboot_state_example.tx_pkt_buf 3).tx_pkt_buf_state.is_enum_member = false) ∧
     ((wlan_mac_high_init reboot_state_example).tx_pkt_buf 3).tx_pkt_buf_state =
       TX_PKT_BUF_HIGH_CTRL) ∧
    ((1 < NUM_RX_PKT_BUFS ∧
      (reboot_state_example.rx_pkt_buf 1).rx_pkt_buf_state.is_enum_member = false) ∧
     ((wlan_mac_high_init reboot_state_example).rx_pkt_buf 1).rx_pkt_buf_state =
       RX_PKT_BUF_LOW_CTRL) :=
  ⟨⟨⟨by decide, by decide⟩,
     ((init_corrupt_tags reboot_state_example).1 3 (Or.inl (by decide)) (by decide)).1⟩,
   ⟨⟨by decide, by decide⟩,
     ((init_corrupt_tags reboot_state_example).2.1 1 (by decide) (by decide)).1⟩⟩

/-- Reconciling a Tx slot a second time changes nothing. -/
theorem init_tx_slot_idem (i : Nat) (p : tx_frame_info_t × Option cpu_t) :
    init_tx_slot i (init_tx_slot i p) = init_tx_slot i p := by
  by_cases hg : i < NUM_TX_PKT_BUF_MPDU
  · by_cases hk : p.1.tx_pkt_buf_state = TX_PKT_BUF_READY ∨
        p.1.tx_pkt_buf_state = TX_PKT_BUF_LOW_CTRL
    · rw [init_tx_slot_general_keep i hg p hk, init_tx_slot_general_keep i hg p hk]
    · have hne : p.1.tx_pkt_buf_state ≠ TX_PKT_BUF_READY ∧
          p.1.tx_pkt_buf_state ≠ TX_PKT_BUF_LOW_CTRL := not_or.mp hk
      rw [init_tx_slot_general_reclaim i hg p hne]
      rw [init_tx_slot_general_reclaim i hg _ (by simp)]
  · by_cases hb : i = TX_PKT_BUF_BEACON
    · subst hb
      rw [init_tx_slot_beacon, init_tx_slot_beacon]
      simp [unlock_result_idem]
    · by_cases hr : i = TX_PKT_BUF_RTS
      · subst hr
        rw [init_tx_slot_rts, init_tx_slot_rts]
        simp [unlock_result_idem]
      · by_cases ha : i = TX_PKT_BUF_ACK_CTS
        · subst ha
          rw [init_tx_slot_ack_cts, init_tx_slot_ack_cts]
          simp [unlock_result_idem]
        · have hi : TX_PKT_BUF_ACK_CTS < i := by
            simp only [NUM_TX_PKT_BUF_MPDU, TX_PKT_BUF_BEACON, TX_PKT_BUF_RTS,
              TX_PKT_BUF_ACK_CTS] at hg hb hr ha ⊢
            omega
          rw [init_tx_slot_unassigned i hi, init_tx_slot_unassigned i hi]

/-- Reconciling an Rx slot a second time changes nothing. -/
theorem init_rx_slot_idem (p : rx_frame_info_t × Option cpu_t) :
    init_rx_slot (init_rx_slot p) = init_rx_slot p := by
  by_cases hk : p.1.rx_pkt_buf_state = RX_PKT_BUF_UNINITIALIZED ∨
      p.1.rx_pkt_buf_state = RX_PKT_BUF_LOW_CTRL
  · have h1 : init_rx_slot p = p := by
      unfold init_rx_slot
      split <;> simp_all
    rw [h1, h1]
  · have h1 : init_rx_slot p =
        ({ p.1 with rx_pkt_buf_state := RX_PKT_BUF_LOW_CTRL }, (unlock_result p.2).2) := by
      unfold init_rx_slot
      split <;> simp_all
    rw [h1]
    unfold init_rx_slot
    simp

/-- C8: for every initial assignment of headers and mutex owners, running the
reconciliation loops of `wlan_mac_high_init` twice in succession leaves every Tx
and Rx header (state tag included) and every mutex owner exactly as running them
once does. -/
theorem init_idempotent (s : State) :
    (wlan_mac_high_init (wlan_mac_high_init s)).tx_pkt_buf = (wlan_mac_high_init s).tx_pkt_buf ∧
    (wlan_mac_high_init (wlan_mac_high_init s)).tx_pkt_buf_mutex =
      (wlan_mac_high_init s).tx_pkt_buf_mutex ∧
    (wlan_mac_high_init (wlan_mac_high_init s)).rx_pkt_buf = (wlan_mac_high_init s).rx_pkt_buf ∧
    (wlan_mac_high_init (wlan_mac_high_init s)).rx_pkt_buf_mutex =
      (wlan_mac_high_init s).rx_pkt_buf_mutex := by
  have htx : ∀ i, (wlan_mac_high_init (wlan_mac_high_init s)).tx_slot i =
      (wlan_mac_high_init s).tx_slot i := by
    intro i
    rw [init_tx_slot_eq (wlan_mac_high_init s) i, init_tx_slot_eq s i]
    split_ifs
    · exact init_tx_slot_idem i _
    · rfl
  have hrx : ∀ i, (wlan_mac_high_init (wlan_mac_high_init s)).rx_slot i =
      (wlan_mac_high_init s).rx_slot i := by
    intro i
    rw [init_rx_slot_eq (wlan_mac_high_init s) i, init_rx_slot_eq s i]
    split_ifs
    · exact init_rx_slot_idem _
    · rfl
  refine ⟨funext fun i => ?_, funext fun i => ?_, funext fun i => ?_, funext fun i => ?_⟩
  · exact (Prod.ext_iff.mp (htx i)).1
  · exact (Prod.ext_iff.mp (htx i)).2
  · exact (Prod.ext_iff.mp (hrx i)).1
  · exact (Prod.ext_iff.mp (hrx i)).2

/-! ### Events of the handoff -/

theorem Ext.refl (P : Event → Bool) (s : State) : Ext P s s :=
  ⟨[], by simp, by simp⟩

theorem Ext.log {P : Event → Bool} {s0 s1 : State} (h : Ext P s0 s1) (e : Event)
    (he : P e = true) : Ext P s0 (s1.log e) := by
  obtain ⟨evs, h1, h2⟩ := h
  refine ⟨evs ++ [e], by simp [h1], ?_⟩
  intro e' he'
  rcases List.mem_append.mp he' with h' | h'
  · exact h2 e' h'
  · rw [List.mem_singleton.mp h']; exact he

theorem Ext.tx_write {P : Event → Bool} {s0 s1 : State} (h : Ext P s0 s1) (i : Nat)
    (f : tx_frame_info_t → tx_frame_info_t)
    (he : P (Event.tx_write i (s1.tx_pkt_buf_mutex i)) = true) :
    Ext P s0 (tx_frame_info_write i f s1) := by
  obtain ⟨evs, h1, h2⟩ := h
  refine ⟨evs ++ [Event.tx_write i (s1.tx_pkt_buf_mutex i)], by simp [h1], ?_⟩
  intro e' he'
  rcases List.mem_append.mp he' with h' | h'
  · exact h2 e' h'
  · rw [List.mem_singleton.mp h']; exact he

theorem Ext.flags_or {P : Event → Bool} {s0 s1 : State} (h : Ext P s0 s1) (c : Bool)
    (i bit : Nat) (he : P (Event.tx_write i (s1.tx_pkt_buf_mutex i)) = true) :
    Ext P s0 (tx_frame_info_flags_or c i bit s1) := by
  unfold tx_frame_info_flags_or
  split
  · exact h.tx_write i _ he
  · exact h

theorem Ext.cdma_finish {P : Event → Bool} {s0 s1 : State} (h : Ext P s0 s1)
    (he : P Event.cdma_finish_transfer = true) :
    Ext P s0 (wlan_mac_high_cdma_finish_transfer s1) :=
  h.log _ he

theorem Ext.cdma_start {P : Event → Bool} {s0 s1 : State} (h : Ext P s0 s1) (x : Extern)
    (d a n : Nat) (hprint : ∀ k, P (Event.print k) = true)
    (hxfer : ∀ a b c r, P (Event.XAxiCdma_SimpleTransfer a b c r) = true)
    (hcpy : ∀ a b c, P (Event.memcpy a b c) = true)
    (hfin : P Event.cdma_finish_transfer = true) :
    Ext P s0 (wlan_mac_high_cdma_start_transfer x d a n s1).2 := by
  unfold wlan_mac_high_cdma_start_transfer
  dsimp only
  split_ifs <;> first
    | exact h.log _ (hprint _)
    | exact ((h.cdma_finish hfin).log _ (hxfer _ _ _ _)).log _ (hprint _)
    | exact (h.cdma_finish hfin).log _ (hxfer _ _ _ _)
    | exact (h.log _ (hprint _)).log _ (hcpy _ _ _)

/-- Everything the fill part appends to the trace is a `fill_event` of its slot,
with the owner its mutex had at the call. -/
theorem mpdu_transmit_fill_events (x : Extern) (p : tx_queue_buffer_t) (i : Nat) (s : State) :
    Ext (fill_event i (s.tx_pkt_buf_mutex i)) s (wlan_mac_high_mpdu_transmit_fill x p i s) := by
  unfold wlan_mac_high_mpdu_transmit_fill
  dsimp only
  refine Ext.cdma_finish ?_ rfl
  refine Ext.tx_write ?_ _ _ (by simp [fill_event])
  refine Ext.tx_write ?_ _ _ (by simp [fill_event])
  refine Ext.flags_or ?_ _ _ _ (by simp [fill_event])
  refine Ext.flags_or ?_ _ _ _ (by simp [fill_event])
  refine Ext.flags_or ?_ _ _ _ (by simp [fill_event])
  refine Ext.flags_or ?_ _ _ _ (by simp [fill_event])
  refine Ext.tx_write ?_ _ _ (by simp [fill_event])
  refine Ext.tx_write ?_ _ _ (by simp [fill_event])
  refine Ext.tx_write ?_ _ _ (by simp [fill_event])
  refine Ext.cdma_start ?_ _ _ _ _ (fun _ => rfl) (fun _ _ _ _ => rfl) (fun _ _ _ => rfl) rfl
  exact (Ext.refl _ s).log _ rfl

theorem filter_eq_nil_of_fill_event (i : Nat) (o : Option cpu_t) (q : Event → Bool)
    (hq : ∀ e, fill_event i o e = true → q e = false) (evs : List Event)
    (h : ∀ e ∈ evs, fill_event i o e = true) : evs.filter q = [] := by
  rw [List.filter_eq_nil_iff]
  intro e he
  simp [hq e (h e he)]

theorem fill_event_not_ready_msg (i : Nat) (o : Option cpu_t) (e : Event)
    (h : fill_event i o e = true) : e.is_tx_pkt_buf_ready_msg = false := by
  cases e <;> simp_all [fill_event, Event.is_tx_pkt_buf_ready_msg]

/-- The release fails with NOT_LOCK_OWNER exactly when CPU Low holds the mutex. -/
theorem unlock_result_fail_iff (o : Option cpu_t) :
    (unlock_result o).1 = PKT_BUF_MUTEX_FAIL_NOT_LOCK_OWNER ↔ o = some CPU_LOW := by
  cases o with
  | none => simp [unlock_result]
  | some c => cases c <;> simp [unlock_result]

/-- The handoff when the release fails: trace, tag and mutex. -/
theorem mpdu_transmit_fail (x : Extern) (p : tx_queue_buffer_t) (i : Nat) (s : State)
    (h : s.tx_pkt_buf_mutex i = some CPU_LOW) :
    (wlan_mac_high_mpdu_transmit x p i s).trace =
        (wlan_mac_high_mpdu_transmit_fill x p i s).trace ++
          [Event.tx_write i (some CPU_LOW),
           Event.unlock_tx_pkt_buf i PKT_BUF_MUTEX_FAIL_NOT_LOCK_OWNER,
           Event.print 1182, Event.tx_write i (some CPU_LOW)] ∧
    ((wlan_mac_high_mpdu_transmit x p i s).tx_pkt_buf i).tx_pkt_buf_state =
        TX_PKT_BUF_HIGH_CTRL ∧
    (wlan_mac_high_mpdu_transmit x p i s).tx_pkt_buf_mutex i = some CPU_LOW := by
  have hm := mpdu_transmit_fill_mutex x p i s
  unfold wlan_mac_high_mpdu_transmit
  simp [unlock_tx_pkt_buf, set_tx_pkt_buf_state, hm, h, unlock_result]

/-- The handoff when the release does not fail: trace, tag and mutex. -/
theorem mpdu_transmit_ok (x : Extern) (p : tx_queue_buffer_t) (i : Nat) (s : State)
    (h : s.tx_pkt_buf_mutex i ≠ some CPU_LOW) :
    (wlan_mac_high_mpdu_transmit x p i s).trace =
        (wlan_mac_high_mpdu_transmit_fill x p i s).trace ++
          [Event.tx_write i (s.tx_pkt_buf_mutex i),
           Event.unlock_tx_pkt_buf i (unlock_result (s.tx_pkt_buf_mutex i)).1,
           Event.write_mailbox_msg (tx_pkt_buf_ready_msg i)] ∧
    ((wlan_mac_high_mpdu_transmit x p i s).tx_pkt_buf i).tx_pkt_buf_state =
        TX_PKT_BUF_READY ∧
    (wlan_mac_high_mpdu_transmit x p i s).tx_pkt_buf_mutex i = none := by
  have hm := mpdu_transmit_fill_mutex x p i s
  have hf : (unlock_result (s.tx_pkt_buf_mutex i)).1 ≠ PKT_BUF_MUTEX_FAIL_NOT_LOCK_OWNER :=
    fun h' => h ((unlock_result_fail_iff _).mp h')
  have hn : (unlock_result (s.tx_pkt_buf_mutex i)).2 = none := by
    cases ho : s.tx_pkt_buf_mutex i with
    | none => simp [unlock_result]
    | some c =>
      cases c
      · simp [unlock_result]
      · exact absurd ho h
  unfold wlan_mac_high_mpdu_transmit
  simp [unlock_tx_pkt_buf, set_tx_pkt_buf_state, hm, hf, hn]

/-- The handoff writes no header other than that of the slot it is given. -/
theorem mpdu_transmit_tx_pkt_buf_ne (x : Extern) (p : tx_queue_buffer_t) (i : Nat)
    (s : State) (j : Nat) (h : j ≠ i) :
    (wlan_mac_high_mpdu_transmit x p i s).tx_pkt_buf j = s.tx_pkt_buf j := by
  have hf := mpdu_transmit_fill_tx_pkt_buf_ne x p i s j h
  unfold wlan_mac_high_mpdu_transmit
  dsimp only
  split_ifs <;> simp [unlock_tx_pkt_buf, set_tx_pkt_buf_state, hf, h]

/-- The events of a handoff: those of the fill part, then the given tail. -/
theorem mpdu_transmit_events_since (x : Extern) (p : tx_queue_buffer_t) (i : Nat) (s : State)
    (tail : List Event)
    (h : (wlan_mac_high_mpdu_transmit x p i s).trace =
      (wlan_mac_high_mpdu_transmit_fill x p i s).trace ++ tail) :
    ∃ evs, (∀ e ∈ evs, fill_event i (s.tx_pkt_buf_mutex i) e = true) ∧
      (wlan_mac_high_mpdu_transmit x p i s).events_since s = evs ++ tail := by
  obtain ⟨evs, h1, h2⟩ := mpdu_transmit_fill_events x p i s
  refine ⟨evs, h2, ?_⟩
  apply events_since_append
  rw [h, h1, List.append_assoc]

/-- Two predicates that agree away from `i` select, on a list, numbers of
elements that differ by at most the occurrences of `i`. -/
theorem filter_length_le_of_agree (q r : Nat → Bool) (i : Nat)
    (h : ∀ j, j ≠ i → q j = r j) (l : List Nat) :
    (l.filter q).length ≤ (l.filter r).length + l.count i := by
  induction l with
  | nil => simp
  | cons a l ih =>
    by_cases hai : a = i
    · subst hai
      simp only [List.filter_cons, List.count_cons_self]
      cases q a <;> cases r a <;> simp <;> omega
    · have hq := h a hai
      have hc : List.count i (a :: l) = List.count i l := by
        simp [List.count_cons, hai]
      simp only [List.filter_cons, hq, hc]
      cases r a <;> simp <;> omega

/-- A handoff raises the number of outstanding slots of any group by at most one. -/
theorem mpdu_transmit_outstanding_le (x : Extern) (p : tx_queue_buffer_t) (i : Nat)
    (s : State) (g : pkt_buf_group_t) :
    outstanding (wlan_mac_high_mpdu_transmit x p i s) g ≤ outstanding s g + 1 := by
  unfold outstanding
  have h := filter_length_le_of_agree
    (is_outstanding (wlan_mac_high_mpdu_transmit x p i s) g) (is_outstanding s g) i
    (fun j hj => by
      unfold is_outstanding
      rw [mpdu_transmit_tx_pkt_buf_ne x p i s j hj])
    (List.range NUM_TX_PKT_BUF_MPDU)
  have hc : (List.range NUM_TX_PKT_BUF_MPDU).count i ≤ 1 :=
    List.nodup_iff_count_le_one.mp (List.nodup_range _) i
  omega

/-- A positive admission result leaves room under the ceiling. -/
theorem num_tx_pkt_buf_available_pos (s : State) (g : pkt_buf_group_t)
    (h : 0 < wlan_mac_num_tx_pkt_buf_available s g) :
    (outstanding s g : Int) + 1 ≤ ceiling g := by
  unfold wlan_mac_num_tx_pkt_buf_available at h
  rw [count_foldl] at h
  simp only [Nat.zero_add] at h
  have ho : ((List.range NUM_TX_PKT_BUF_MPDU).filter (is_outstanding s g)).length
      = outstanding s g := rfl
  rw [ho] at h
  generalize outstanding s g = n at h
  generalize ((List.range NUM_TX_PKT_BUF_MPDU).filter (is_empty_slot s)).length = m at h
  cases g <;> simp [ceiling] at h ⊢ <;> split_ifs at h <;> omega

/-- The handoff copies the queue metadata of the dequeued packet into the slot. -/
theorem mpdu_transmit_queue_info (x : Extern) (p : tx_queue_buffer_t) (i : Nat) (s : State) :
    ((wlan_mac_high_mpdu_transmit x p i s).tx_pkt_buf i).queue_info =
      (x.mpdu_tx_dequeue_callback p).queue_info := by
  have hf : ((wlan_mac_high_mpdu_transmit_fill x p i s).tx_pkt_buf i).queue_info =
      (x.mpdu_tx_dequeue_callback p).queue_info := by
    simp [wlan_mac_high_mpdu_transmit_fill, flags_or_tx_pkt_buf_queue_info]
  unfold wlan_mac_high_mpdu_transmit
  dsimp only
  split_ifs <;> simp [unlock_tx_pkt_buf, set_tx_pkt_buf_state, hf]

/-- Two predicates that agree away from `i`, the first true and the second false
at `i`: on a duplicate-free list containing `i` the first selects one more. -/
theorem filter_length_succ_of_agree (q r : Nat → Bool) (i : Nat)
    (h : ∀ j, j ≠ i → q j = r j) (hq : q i = true) (hr : r i = false) (l : List Nat)
    (hl : l.Nodup) (hi : i ∈ l) :
    (l.filter q).length = (l.filter r).length + 1 := by
  induction l with
  | nil => simp at hi
  | cons a l ih =>
    have hnd := List.nodup_cons.mp hl
    by_cases hai : a = i
    · subst hai
      have hsame : l.filter q = l.filter r := by
        apply List.filter_congr
        intro j hj
        exact h j (fun hja => hnd.1 (hja ▸ hj))
      simp [List.filter_cons, hq, hr, hsame]
    · have hil : i ∈ l := by
        rcases List.mem_cons.mp hi with h' | h'
        · exact absurd h'.symm hai
        · exact h'
      have := ih hnd.2 hil
      simp only [List.filter_cons, h a hai]
      cases r a <;> simp <;> omega

/-- C2: for every pool state and group GENERAL or DTIM_MCAST, if
`wlan_mac_num_tx_pkt_buf_available(g)` is positive and a slot in state
TX_PKT_BUF_HIGH_CTRL is then handed off with group `g` by
`wlan_mac_high_mpdu_transmit` (its tag becomes TX_PKT_BUF_READY), the number of
general slots of group `g` in READY or LOW_CTRL afterwards is at most the
ceiling of `g`, 2 for GENERAL and 3 for DTIM_MCAST; for a general slot it is
exactly one more than before. -/
theorem mpdu_transmit_ceiling_respected (x : Extern) (packet : tx_queue_buffer_t) (i : Nat)
    (s : State) (g : pkt_buf_group_t)
    (hg : g = PKT_BUF_GROUP_GENERAL ∨ g = PKT_BUF_GROUP_DTIM_MCAST)
    (havail : 0 < wlan_mac_num_tx_pkt_buf_available s g)
    (hfree : (s.tx_pkt_buf i).tx_pkt_buf_state = TX_PKT_BUF_HIGH_CTRL)
    (hgroup : (x.mpdu_tx_dequeue_callback packet).queue_info.pkt_buf_group = g)
    (hready : ((wlan_mac_high_mpdu_transmit x packet i s).tx_pkt_buf i).tx_pkt_buf_state =
      TX_PKT_BUF_READY) :
    (outstanding (wlan_mac_high_mpdu_transmit x packet i s) g : Int) ≤ ceiling g ∧
    ceiling g = (if g = PKT_BUF_GROUP_GENERAL then 2 else 3) ∧
    (i < NUM_TX_PKT_BUF_MPDU →
      outstanding (wlan_mac_high_mpdu_transmit x packet i s) g = outstanding s g + 1) := by
  have h1 := mpdu_transmit_outstanding_le x packet i s g
  have h2 := num_tx_pkt_buf_available_pos s g havail
  refine ⟨by omega, ?_, ?_⟩
  · rcases hg with h | h <;> subst h <;> rfl
  · intro hi
    unfold outstanding
    apply filter_length_succ_of_agree _ _ i
    · intro j hj
      unfold is_outstanding
      rw [mpdu_transmit_tx_pkt_buf_ne x packet i s j hj]
    · unfold is_outstanding
      rw [mpdu_transmit_queue_info, hready]
      simp [hgroup]
    · unfold is_outstanding
      rw [hfree]
      simp
    · exact List.nodup_range _
    · exact List.mem_range.mpr hi

/-- C2 at a concrete pool: slot 0 is free and held by CPU High, the admission
check for GENERAL is positive, and after the handoff one general slot of group
GENERAL is outstanding. -/
theorem mpdu_transmit_ceiling_respected_witness :
    (0 < wlan_mac_num_tx_pkt_buf_available (handoff_state_example (some CPU_HIGH))
        PKT_BUF_GROUP_GENERAL ∧
      ((handoff_state_example (some CPU_HIGH)).tx_pkt_buf 0).tx_pkt_buf_state =
        TX_PKT_BUF_HIGH_CTRL ∧
      ((wlan_mac_high_mpdu_transmit extern_example (packet_example PKT_BUF_GROUP_GENERAL) 0
        (handoff_state_example (some CPU_HIGH))).tx_pkt_buf 0).tx_pkt_buf_state =
        TX_PKT_BUF_READY) ∧
    (outstanding (wlan_mac_high_mpdu_transmit extern_example
        (packet_example PKT_BUF_GROUP_GENERAL) 0 (handoff_state_example (some CPU_HIGH)))
        PKT_BUF_GROUP_GENERAL : Int) ≤ 2 :=
  ⟨⟨by decide, by decide, by decide⟩,
    (mpdu_transmit_ceiling_respected extern_example (packet_example PKT_BUF_GROUP_GENERAL) 0
      (handoff_state_example (some CPU_HIGH)) PKT_BUF_GROUP_GENERAL (Or.inl rfl) (by decide)
      (by decide) rfl (by decide)).1⟩

/-! ### A slot whose release failed -/

/-- The search returns the first general slot in state TX_PKT_BUF_HIGH_CTRL. -/
theorem get_empty_loop_first (s : State) (n k i : Nat) (hk : k ≤ i) (hi : i < k + n)
    (hfree : (s.tx_pkt_buf i).tx_pkt_buf_state = TX_PKT_BUF_HIGH_CTRL)
    (hlow : ∀ j, k ≤ j → j < i → (s.tx_pkt_buf j).tx_pkt_buf_state ≠ TX_PKT_BUF_HIGH_CTRL) :
    get_empty_tx_packet_buffer_loop s n k = (i : Int) := by
  induction n generalizing k with
  | zero => omega
  | succ n ih =>
    unfold get_empty_tx_packet_buffer_loop
    by_cases hki : k = i
    · subst hki
      rw [if_pos hfree]
    · have hlt : k < i := by omega
      rw [if_neg (hlow k (Nat.le_refl k) hlt)]
      exact ih (k + 1) (by omega) (by omega) (fun j hj1 hj2 => hlow j (by omega) hj2)

/-- C14: for every `dest` and `src`, `wlan_mac_high_cdma_start_transfer(dest, src, 0)`
returns XST_FAILURE; all it does is print the error, so it starts no CDMA
transfer, performs no `memcpy`, and leaves pools, mutexes and memory as they
were. -/
theorem cdma_start_transfer_zero_length (x : Extern) (dest src : Nat) (s : State) :
    (wlan_mac_high_cdma_start_transfer x dest src 0 s).1 = XST_FAILURE ∧
    (wlan_mac_high_cdma_start_transfer x dest src 0 s).2 = s.log (Event.print 1032) ∧
    (wlan_mac_high_cdma_start_transfer x dest src 0 s).2.events_since s = [Event.print 1032] ∧
    ((wlan_mac_high_cdma_start_transfer x dest src 0 s).2.events_since s).filter
      Event.is_cdma_transfer = [] ∧
    ((wlan_mac_high_cdma_start_transfer x dest src 0 s).2.events_since s).filter
      Event.is_memcpy = [] ∧
    (wlan_mac_high_cdma_start_transfer x dest src 0 s).2.mem = s.mem := by
  have h : wlan_mac_high_cdma_start_transfer x dest src 0 s =
      (XST_FAILURE, s.log (Event.print 1032)) := by
    simp [wlan_mac_high_cdma_start_transfer]
  rw [h]
  refine ⟨rfl, rfl, ?_, ?_, ?_, rfl⟩
  · exact events_since_append _ _ _ rfl
  · rw [events_since_append s (s.log (Event.print 1032)) [Event.print 1032] rfl]
    rfl
  · rw [events_since_append s (s.log (Event.print 1032)) [Event.print 1032] rfl]
    rfl

/-- The handoff is its fill part followed by its last part. -/
theorem mpdu_transmit_eq_handoff_fill (x : Extern) (p : tx_queue_buffer_t) (i : Nat)
    (s : State) :
    wlan_mac_high_mpdu_transmit x p i s =
      wlan_mac_high_mpdu_transmit_handoff i (wlan_mac_high_mpdu_transmit_fill x p i s) := rfl

/-- The start part leaves every Tx mutex as it was. -/
theorem mpdu_transmit_start_mutex (x : Extern) (p : tx_queue_buffer_t) (i : Nat) (s : State) :
    (wlan_mac_high_mpdu_transmit_start x p i s).tx_pkt_buf_mutex = s.tx_pkt_buf_mutex := by
  simp [wlan_mac_high_mpdu_transmit_start]

/-- The trace of the start part extends the trace at the call. -/
theorem mpdu_transmit_start_grows (x : Extern) (p : tx_queue_buffer_t) (i : Nat) (s : State) :
    s.trace <+: (wlan_mac_high_mpdu_transmit_start x p i s).trace := by
  have h : Ext (fun _ => true) s (wlan_mac_high_mpdu_transmit_start x p i s) := by
    unfold wlan_mac_high_mpdu_transmit_start
    dsimp only
    refine Ext.cdma_start ?_ _ _ _ _ (fun _ => rfl) (fun _ _ _ _ => rfl) (fun _ _ _ => rfl) rfl
    exact (Ext.refl _ s).log _ rfl
  obtain ⟨evs, h1, _⟩ := h
  exact ⟨evs, h1.symm⟩

/-- Between the start of the copy and the wait for it the fill part only writes
the header of its slot, with the owner the mutex had at the call. -/
theorem mpdu_transmit_fill_after_start (x : Extern) (p : tx_queue_buffer_t) (i : Nat)
    (s : State) :
    ∃ writes, (∀ e ∈ writes, e = Event.tx_write i (s.tx_pkt_buf_mutex i)) ∧
      (wlan_mac_high_mpdu_transmit_fill x p i s).trace =
        (wlan_mac_high_mpdu_transmit_start x p i s).trace ++ writes ++
          [Event.cdma_finish_transfer] := by
  have hm := mpdu_transmit_start_mutex x p i s
  have h : ∃ s1, wlan_mac_high_mpdu_transmit_fill x p i s =
      wlan_mac_high_cdma_finish_transfer s1 ∧
      Ext (is_tx_write i (s.tx_pkt_buf_mutex i)) (wlan_mac_high_mpdu_transmit_start x p i s)
        s1 := by
    refine ⟨_, rfl, ?_⟩
    refine Ext.tx_write ?_ _ _ (by simp [is_tx_write, hm])
    refine Ext.tx_write ?_ _ _ (by simp [is_tx_write, hm])
    refine Ext.flags_or ?_ _ _ _ (by simp [is_tx_write, hm])
    refine Ext.flags_or ?_ _ _ _ (by simp [is_tx_write, hm])
    refine Ext.flags_or ?_ _ _ _ (by simp [is_tx_write, hm])
    refine Ext.flags_or ?_ _ _ _ (by simp [is_tx_write, hm])
    refine Ext.tx_write ?_ _ _ (by simp [is_tx_write, hm])
    refine Ext.tx_write ?_ _ _ (by simp [is_tx_write, hm])
    refine Ext.tx_write ?_ _ _ (by simp [is_tx_write, hm])
    exact Ext.refl _ _
  obtain ⟨s1, h1, writes, h2, h3⟩ := h
  refine ⟨writes, fun e he => ?_, ?_⟩
  · have := h3 e he
    simpa [is_tx_write] using this
  · rw [h1, cdma_finish_trace, h2]

/-- The fill part does not write the state tag. -/
theorem mpdu_transmit_fill_tag (x : Extern) (p : tx_queue_buffer_t) (i : Nat) (s : State)
    (j : Nat) :
    ((wlan_mac_high_mpdu_transmit_fill x p i s).tx_pkt_buf j).tx_pkt_buf_state =
      (s.tx_pkt_buf j).tx_pkt_buf_state := by
  by_cases h : j = i
  · subst h
    simp [wlan_mac_high_mpdu_transmit_fill, flags_or_tx_pkt_buf_state]
  · rw [mpdu_transmit_fill_tx_pkt_buf_ne x p i s j h]

/-- The events of the last part of the handoff. -/
theorem mpdu_transmit_handoff_trace (i : Nat) (s : State) :
    (wlan_mac_high_mpdu_transmit_handoff i s).trace =
      s.trace ++
        ([Event.tx_write i (s.tx_pkt_buf_mutex i),
          Event.unlock_tx_pkt_buf i (unlock_result (s.tx_pkt_buf_mutex i)).1] ++
         (if (unlock_result (s.tx_pkt_buf_mutex i)).1 = PKT_BUF_MUTEX_FAIL_NOT_LOCK_OWNER then
            [Event.print 1182, Event.tx_write i (some CPU_LOW)]
          else [Event.write_mailbox_msg (tx_pkt_buf_ready_msg i)])) := by
  unfold wlan_mac_high_mpdu_transmit_handoff
  by_cases h : s.tx_pkt_buf_mutex i = some CPU_LOW
  · simp [unlock_tx_pkt_buf, set_tx_pkt_buf_state, h, unlock_result]
  · have hf : (unlock_result (s.tx_pkt_buf_mutex i)).1 ≠ PKT_BUF_MUTEX_FAIL_NOT_LOCK_OWNER :=
      fun h' => h ((unlock_result_fail_iff _).mp h')
    simp [unlock_tx_pkt_buf, set_tx_pkt_buf_state, hf]

/-- C13: in every execution of `wlan_mac_high_mpdu_transmit` the wait for CDMA
completion comes after the call that starts the payload copy and the metadata
writes, and before everything the last part of the function does: the events
after the barrier are, in order, the write of the tag TX_PKT_BUF_READY, the call
of `unlock_tx_pkt_buf`, and then either the tag revert or the
IPC_MBOX_TX_PKT_BUF_READY message. Up to the barrier the tag of the slot and
its mutex are as they were at the call. -/
theorem mpdu_transmit_barrier_before_handoff (x : Extern) (packet : tx_queue_buffer_t)
    (i : Nat) (s : State) :
    wlan_mac_high_mpdu_transmit x packet i s =
      wlan_mac_high_mpdu_transmit_handoff i (wlan_mac_high_mpdu_transmit_fill x packet i s) ∧
    ((wlan_mac_high_mpdu_transmit_fill x packet i s).tx_pkt_buf i).tx_pkt_buf_state =
      (s.tx_pkt_buf i).tx_pkt_buf_state ∧
    (wlan_mac_high_mpdu_transmit_fill x packet i s).tx_pkt_buf_mutex = s.tx_pkt_buf_mutex ∧
    ((set_tx_pkt_buf_state i TX_PKT_BUF_READY
      (wlan_mac_high_mpdu_transmit_fill x packet i s)).tx_pkt_buf i).tx_pkt_buf_state =
        TX_PKT_BUF_READY ∧
    ∃ writes, (∀ e ∈ writes, e = Event.tx_write i (s.tx_pkt_buf_mutex i)) ∧
      (wlan_mac_high_mpdu_transmit_fill x packet i s).events_since s =
        (wlan_mac_high_mpdu_transmit_start x packet i s).events_since s ++ writes ++
          [Event.cdma_finish_transfer] ∧
      (wlan_mac_high_mpdu_transmit x packet i s).events_since s =
        (wlan_mac_high_mpdu_transmit_start x packet i s).events_since s ++ writes ++
          [Event.cdma_finish_transfer] ++
          ([Event.tx_write i (s.tx_pkt_buf_mutex i),
            Event.unlock_tx_pkt_buf i (unlock_result (s.tx_pkt_buf_mutex i)).1] ++
           (if (unlock_result (s.tx_pkt_buf_mutex i)).1 = PKT_BUF_MUTEX_FAIL_NOT_LOCK_OWNER then
              [Event.print 1182, Event.tx_write i (some CPU_LOW)]
            else [Event.write_mailbox_msg (tx_pkt_buf_ready_msg i)])) := by
  have hm := mpdu_transmit_fill_mutex x packet i s
  refine ⟨rfl, mpdu_transmit_fill_tag x packet i s i, hm, by simp [set_tx_pkt_buf_state], ?_⟩
  obtain ⟨writes, hw, hfill⟩ := mpdu_transmit_fill_after_start x packet i s
  obtain ⟨pre, hpre⟩ := mpdu_transmit_start_grows x packet i s
  have hstart : (wlan_mac_high_mpdu_transmit_start x packet i s).events_since s = pre :=
    events_since_append _ _ _ hpre.symm
  refine ⟨writes, hw, ?_, ?_⟩
  · rw [hstart]
    apply events_since_append
    rw [hfill, ← hpre]
    simp [List.append_assoc]
  · rw [hstart]
    apply events_since_append
    rw [mpdu_transmit_eq_handoff_fill, mpdu_transmit_handoff_trace, hfill, ← hpre, hm]
    simp [List.append_assoc]

/-! ### Handoff of a slot that is not free -/

/-- The READY messages a handoff writes: none when CPU Low holds the mutex of the
slot, exactly one otherwise. -/
theorem mpdu_transmit_ready_msgs (x : Extern) (p : tx_queue_buffer_t) (i : Nat) (s : State) :
    ((wlan_mac_high_mpdu_transmit x p i s).events_since s).filter
        Event.is_tx_pkt_buf_ready_msg =
      if s.tx_pkt_buf_mutex i = some CPU_LOW then []
      else [Event.write_mailbox_msg (tx_pkt_buf_ready_msg i)] := by
  by_cases hlow : s.tx_pkt_buf_mutex i = some CPU_LOW
  · obtain ⟨htr, _, _⟩ := mpdu_transmit_fail x p i s hlow
    obtain ⟨evs, hev, hsince⟩ := mpdu_transmit_events_since x p i s _ htr
    have hr := filter_eq_nil_of_fill_event i _ Event.is_tx_pkt_buf_ready_msg
      (fill_event_not_ready_msg i _) evs hev
    rw [hsince, if_pos hlow, List.filter_append, hr]
    simp [Event.is_tx_pkt_buf_ready_msg]
  · obtain ⟨htr, _, _⟩ := mpdu_transmit_ok x p i s hlow
    obtain ⟨evs, hev, hsince⟩ := mpdu_transmit_events_since x p i s _ htr
    have hr := filter_eq_nil_of_fill_event i _ Event.is_tx_pkt_buf_ready_msg
      (fill_event_not_ready_msg i _) evs hev
    rw [hsince, if_neg hlow, List.filter_append, hr]
    simp [Event.is_tx_pkt_buf_ready_msg, tx_pkt_buf_ready_msg]

/-! ### Projections of the tag writes and of the mutex calls -/
@[simp] theorem set_tx_state_trace (i : Nat) (v : tx_pkt_buf_state_t) (s : State) :
    (set_tx_pkt_buf_state i v s).trace = s.trace ++ [Event.tx_write i (s.tx_pkt_buf_mutex i)] :=
  rfl
@[simp] theorem set_tx_state_tx_pkt_buf (i : Nat) (v : tx_pkt_buf_state_t) (s : State) :
    (set_tx_pkt_buf_state i v s).tx_pkt_buf =
      Function.update s.tx_pkt_buf i { s.tx_pkt_buf i with tx_pkt_buf_state := v } := rfl
@[simp] theorem set_tx_state_rx_pkt_buf (i : Nat) (v : tx_pkt_buf_state_t) (s : State) :
    (set_tx_pkt_buf_state i v s).rx_pkt_buf = s.rx_pkt_buf := rfl
@[simp] theorem set_tx_state_tx_mutex (i : Nat) (v : tx_pkt_buf_state_t) (s : State) :
    (set_tx_pkt_buf_state i v s).tx_pkt_buf_mutex = s.tx_pkt_buf_mutex := rfl
@[simp] theorem set_tx_state_rx_mutex (i : Nat) (v : tx_pkt_buf_state_t) (s : State) :
    (set_tx_pkt_buf_state i v s).rx_pkt_buf_mutex = s.rx_pkt_buf_mutex := rfl

@[simp] theorem set_rx_state_trace (i : Nat) (v : rx_pkt_buf_state_t) (s : State) :
    (set_rx_pkt_buf_state i v s).trace = s.trace ++ [Event.rx_write i (s.rx_pkt_buf_mutex i)] :=
  rfl
@[simp] theorem set_rx_state_rx_pkt_buf (i : Nat) (v : rx_pkt_buf_state_t) (s : State) :
    (set_rx_pkt_buf_state i v s).rx_pkt_buf =
      Function.update s.rx_pkt_buf i { s.rx_pkt_buf i with rx_pkt_buf_state := v } := rfl
@[simp] theorem set_rx_state_tx_pkt_buf (i : Nat) (v : rx_pkt_buf_state_t) (s : State) :
    (set_rx_pkt_buf_state i v s).tx_pkt_buf = s.tx_pkt_buf := rfl
@[simp] theorem set_rx_state_tx_mutex (i : Nat) (v : rx_pkt_buf_state_t) (s : State) :
    (set_rx_pkt_buf_state i v s).tx_pkt_buf_mutex = s.tx_pkt_buf_mutex := rfl
@[simp] theorem set_rx_state_rx_mutex (i : Nat) (v : rx_pkt_buf_state_t) (s : State) :
    (set_rx_pkt_buf_state i v s).rx_pkt_buf_mutex = s.rx_pkt_buf_mutex := rfl

@[simp] theorem lock_tx_status (i : Nat) (s : State) :
    (lock_tx_pkt_buf i s).1 = (lock_result (s.tx_pkt_buf_mutex i)).1 := rfl
@[simp] theorem lock_tx_trace (i : Nat) (s : State) :
    (lock_tx_pkt_buf i s).2.trace = s.trace ++ [Event.lock_tx_pkt_buf i (lock_result (s.tx_pkt_buf_mutex i)).1] := rfl
@[simp] theorem lock_tx_tx_mutex (i : Nat) (s : State) :
    (lock_tx_pkt_buf i s).2.tx_pkt_buf_mutex =
      Function.update s.tx_pkt_buf_mutex i (lock_result (s.tx_pkt_buf_mutex i)).2 := rfl
@[simp] theorem lock_tx_rx_mutex (i : Nat) (s : State) :
    (lock_tx_pkt_buf i s).2.rx_pkt_buf_mutex = s.rx_pkt_buf_mutex := rfl
@[simp] theorem lock_tx_tx_pkt_buf (i : Nat) (s : State) :
    (lock_tx_pkt_buf i s).2.tx_pkt_buf = s.tx_pkt_buf := rfl
@[simp] theorem lock_tx_rx_pkt_buf (i : Nat) (s : State) :
    (lock_tx_pkt_buf i s).2.rx_pkt_buf = s.rx_pkt_buf := rfl

@[simp] theorem unlock_tx_status (i : Nat) (s : State) :
    (unlock_tx_pkt_buf i s).1 = (unlock_result (s.tx_pkt_buf_mutex i)).1 := rfl
@[simp] theorem unlock_tx_trace (i : Nat) (s : State) :
    (unlock_tx_pkt_buf i s).2.trace = s.trace ++ [Event.unlock_tx_pkt_buf i (unlock_result (s.tx_pkt_buf_mutex i)).1] := rfl
@[simp] theorem unlock_tx_tx_mutex (i : Nat) (s : State) :
    (unlock_tx_pkt_buf i s).2.tx_pkt_buf_mutex =
      Function.update s.tx_pkt_buf_mutex i (unlock_result (s.tx_pkt_buf_mutex i)).2 := rfl
@[simp] theorem unlock_tx_rx_mutex (i : Nat) (s : State) :
    (unlock_tx_pkt_buf i s).2.rx_pkt_buf_mutex = s.rx_pkt_buf_mutex := rfl
@[simp] theorem unlock_tx_tx_pkt_buf (i : Nat) (s : State) :
    (unlock_tx_pkt_buf i s).2.tx_pkt_buf = s.tx_pkt_buf := rfl
@[simp] theorem unlock_tx_rx_pkt_buf (i : Nat) (s : State) :
    (unlock_tx_pkt_buf i s).2.rx_pkt_buf = s.rx_pkt_buf := rfl

@[simp] theorem lock_rx_status (i : Nat) (s : State) :
    (lock_rx_pkt_buf i s).1 = (lock_result (s.rx_pkt_buf_mutex i)).1 := rfl
@[simp] theorem lock_rx_trace (i : Nat) (s : State) :
    (lock_rx_pkt_buf i s).2.trace = s.trace ++ [Event.lock_rx_pkt_buf i (lock_result (s.rx_pkt_buf_mutex i)).1] := rfl
@[simp] theorem lock_rx_rx_mutex (i : Nat) (s : State) :
    (lock_rx_pkt_buf i s).2.rx_pkt_buf_mutex =
      Function.update s.rx_pkt_buf_mutex i (lock_result (s.rx_pkt_buf_mutex i)).2 := rfl
@[simp] theorem lock_rx_tx_mutex (i : Nat) (s : State) :
    (lock_rx_pkt_buf i s).2.tx_pkt_buf_mutex = s.tx_pkt_buf_mutex := rfl
@[simp] theorem lock_rx_tx_pkt_buf (i : Nat) (s : State) :
    (lock_rx_pkt_buf i s).2.tx_pkt_buf = s.tx_pkt_buf := rfl
@[simp] theorem lock_rx_rx_pkt_buf (i : Nat) (s : State) :
    (lock_rx_pkt_buf i s).2.rx_pkt_buf = s.rx_pkt_buf := rfl

@[simp] theorem unlock_rx_status (i : Nat) (s : State) :
    (unlock_rx_pkt_buf i s).1 = (unlock_result (s.rx_pkt_buf_mutex i)).1 := rfl
@[simp] theorem unlock_rx_trace (i : Nat) (s : State) :
    (unlock_rx_pkt_buf i s).2.trace = s.trace ++ [Event.unlock_rx_pkt_buf i (unlock_result (s.rx_pkt_buf_mutex i)).1] := rfl
@[simp] theorem unlock_rx_rx_mutex (i : Nat) (s : State) :
    (unlock_rx_pkt_buf i s).2.rx_pkt_buf_mutex =
      Function.update s.rx_pkt_buf_mutex i (unlock_result (s.rx_pkt_buf_mutex i)).2 := rfl
@[simp] theorem unlock_rx_tx_mutex (i : Nat) (s : State) :
    (unlock_rx_pkt_buf i s).2.tx_pkt_buf_mutex = s.tx_pkt_buf_mutex := rfl
@[simp] theorem unlock_rx_tx_pkt_buf (i : Nat) (s : State) :
    (unlock_rx_pkt_buf i s).2.tx_pkt_buf = s.tx_pkt_buf := rfl
@[simp] theorem unlock_rx_rx_pkt_buf (i : Nat) (s : State) :
    (unlock_rx_pkt_buf i s).2.rx_pkt_buf = s.rx_pkt_buf := rfl

@[simp] theorem force_lock_tx_trace (i : Nat) (s : State) :
    (force_lock_tx_pkt_buf i s).trace = s.trace ++ [Event.force_lock_tx_pkt_buf i] := rfl
@[simp] theorem force_lock_tx_tx_mutex (i : Nat) (s : State) :
    (force_lock_tx_pkt_buf i s).tx_pkt_buf_mutex =
      Function.update s.tx_pkt_buf_mutex i (some CPU_HIGH) := rfl
@[simp] theorem force_lock_tx_rx_mutex (i : Nat) (s : State) :
    (force_lock_tx_pkt_buf i s).rx_pkt_buf_mutex = s.rx_pkt_buf_mutex := rfl
@[simp] theorem force_lock_tx_tx_pkt_buf (i : Nat) (s : State) :
    (force_lock_tx_pkt_buf i s).tx_pkt_buf = s.tx_pkt_buf := rfl
@[simp] theorem force_lock_tx_rx_pkt_buf (i : Nat) (s : State) :
    (force_lock_tx_pkt_buf i s).rx_pkt_buf = s.rx_pkt_buf := rfl

@[simp] theorem log_if_trace (b : Bool) (e : Event) (s : State) :
    (log_if b e s).trace = s.trace ++ (if b then [e] else []) := by
  unfold log_if; split <;> simp
@[simp] theorem log_if_tx_pkt_buf (b : Bool) (e : Event) (s : State) :
    (log_if b e s).tx_pkt_buf = s.tx_pkt_buf := by
  unfold log_if; split <;> rfl
@[simp] theorem log_if_rx_pkt_buf (b : Bool) (e : Event) (s : State) :
    (log_if b e s).rx_pkt_buf = s.rx_pkt_buf := by
  unfold log_if; split <;> rfl
@[simp] theorem log_if_tx_mutex (b : Bool) (e : Event) (s : State) :
    (log_if b e s).tx_pkt_buf_mutex = s.tx_pkt_buf_mutex := by
  unfold log_if; split <;> rfl
@[simp] theorem log_if_rx_mutex (b : Bool) (e : Event) (s : State) :
    (log_if b e s).rx_pkt_buf_mutex = s.rx_pkt_buf_mutex := by
  unfold log_if; split <;> rfl

/-- A lock attempt by CPU High succeeds exactly when CPU Low does not hold the
mutex, and then CPU High owns it. -/
theorem lock_result_success_iff (o : Option cpu_t) :
    (lock_result o).1 = PKT_BUF_MUTEX_SUCCESS ↔ o ≠ some CPU_LOW := by
  cases o with
  | none => simp [lock_result]
  | some c => cases c <;> simp [lock_result]

theorem lock_result_of_success (o : Option cpu_t) (h : o ≠ some CPU_LOW) :
    lock_result o = (PKT_BUF_MUTEX_SUCCESS, some CPU_HIGH) := by
  cases o with
  | none => simp [lock_result]
  | some c =>
    cases c
    · simp [lock_result]
    · exact absurd rfl h

theorem lock_result_of_fail (o : Option cpu_t) (h : o = some CPU_LOW) :
    lock_result o = (PKT_BUF_MUTEX_FAIL_ALREADY_LOCKED, some CPU_LOW) := by
  subst h; rfl


/-! ### The Rx handoff -/

theorem rx_callbacks_trace (c : Collab) (i : Nat) (s : State) :
    (rx_pkt_buf_ready_callbacks c i s).trace =
      s.trace ++ rx_pkt_buf_ready_callback_events c i := by
  simp [rx_pkt_buf_ready_callbacks, rx_pkt_buf_ready_callback_events, List.append_assoc]

@[simp] theorem rx_callbacks_rx_pkt_buf (c : Collab) (i : Nat) (s : State) :
    (rx_pkt_buf_ready_callbacks c i s).rx_pkt_buf = s.rx_pkt_buf := by
  simp [rx_pkt_buf_ready_callbacks]

@[simp] theorem rx_callbacks_rx_mutex (c : Collab) (i : Nat) (s : State) :
    (rx_pkt_buf_ready_callbacks c i s).rx_pkt_buf_mutex = s.rx_pkt_buf_mutex := by
  simp [rx_pkt_buf_ready_callbacks]

@[simp] theorem rx_callbacks_tx_pkt_buf (c : Collab) (i : Nat) (s : State) :
    (rx_pkt_buf_ready_callbacks c i s).tx_pkt_buf = s.tx_pkt_buf := by
  simp [rx_pkt_buf_ready_callbacks]

@[simp] theorem rx_callbacks_tx_mutex (c : Collab) (i : Nat) (s : State) :
    (rx_pkt_buf_ready_callbacks c i s).tx_pkt_buf_mutex = s.tx_pkt_buf_mutex := by
  simp [rx_pkt_buf_ready_callbacks]

/-- The user Rx callback occurs exactly once among the calls of the normal Rx
path. -/
theorem rx_callback_events_count (c : Collab) (i : Nat) :
    (rx_pkt_buf_ready_callback_events c i).count
      (Event.callback callback_t.mpdu_rx_callback i) = 1 := by
  unfold rx_pkt_buf_ready_callback_events
  split_ifs <;> simp [List.count_cons]

/-- The normal Rx path as a composition: lock, tag HIGH_CTRL, the calls, tag
LOW_CTRL, release. -/
theorem process_rx_pkt_buf_ready_normal (c : Collab) (msg : wlan_ipc_msg_t)
    (payload : List Nat) (s : State) (i : Nat)
    (hid : msg.msg_id = IPC_MBOX_RX_PKT_BUF_READY) (harg : msg.arg0 = i)
    (hi : i < NUM_RX_PKT_BUFS)
    (htag : (s.rx_pkt_buf i).rx_pkt_buf_state = RX_PKT_BUF_READY)
    (hlock : s.rx_pkt_buf_mutex i ≠ some CPU_LOW) :
    wlan_mac_high_process_ipc_msg c msg payload s =
      (unlock_rx_pkt_buf i (set_rx_pkt_buf_state i RX_PKT_BUF_LOW_CTRL
        (rx_pkt_buf_ready_callbacks c i
          (set_rx_pkt_buf_state i RX_PKT_BUF_HIGH_CTRL (lock_rx_pkt_buf i s).2)))).2 := by
  unfold wlan_mac_high_process_ipc_msg
  simp only [hid]
  unfold process_rx_pkt_buf_ready
  simp only [harg, hi, if_true, htag]
  simp [lock_result_of_success _ hlock, unlock_result]

/-- C18: for an IPC_MBOX_RX_PKT_BUF_READY message naming a slot `i` below
NUM_RX_PKT_BUFS that is tagged RX_PKT_BUF_READY and whose lock succeeds,
`wlan_mac_high_process_ipc_msg` locks the slot, sets its tag to
RX_PKT_BUF_HIGH_CTRL, makes its calls, among them `mpdu_rx_callback` exactly
once, with the tag HIGH_CTRL and the lock held throughout, then sets the tag to
RX_PKT_BUF_LOW_CTRL and releases the lock; on return the tag is
RX_PKT_BUF_LOW_CTRL and CPU High does not hold the lock. -/
theorem rx_pkt_buf_ready_handoff (c : Collab) (msg : wlan_ipc_msg_t) (payload : List Nat)
    (s : State) (i : Nat)
    (hid : msg.msg_id = IPC_MBOX_RX_PKT_BUF_READY) (harg : msg.arg0 = i)
    (hi : i < NUM_RX_PKT_BUFS)
    (htag : (s.rx_pkt_buf i).rx_pkt_buf_state = RX_PKT_BUF_READY)
    (hlock : (lock_rx_pkt_buf i s).1 = PKT_BUF_MUTEX_SUCCESS) :
    wlan_mac_high_process_ipc_msg c msg payload s =
      (unlock_rx_pkt_buf i (set_rx_pkt_buf_state i RX_PKT_BUF_LOW_CTRL
        (rx_pkt_buf_ready_callbacks c i
          (set_rx_pkt_buf_state i RX_PKT_BUF_HIGH_CTRL (lock_rx_pkt_buf i s).2)))).2 ∧
    ((set_rx_pkt_buf_state i RX_PKT_BUF_HIGH_CTRL
        (lock_rx_pkt_buf i s).2).rx_pkt_buf i).rx_pkt_buf_state = RX_PKT_BUF_HIGH_CTRL ∧
    (set_rx_pkt_buf_state i RX_PKT_BUF_HIGH_CTRL
        (lock_rx_pkt_buf i s).2).rx_pkt_buf_mutex i = some CPU_HIGH ∧
    (∀ s1, (rx_pkt_buf_ready_callbacks c i s1).rx_pkt_buf = s1.rx_pkt_buf ∧
      (rx_pkt_buf_ready_callbacks c i s1).rx_pkt_buf_mutex = s1.rx_pkt_buf_mutex ∧
      (rx_pkt_buf_ready_callbacks c i s1).events_since s1 =
        rx_pkt_buf_ready_callback_events c i) ∧
    (wlan_mac_high_process_ipc_msg c msg payload s).events_since s =
      [Event.lock_rx_pkt_buf i PKT_BUF_MUTEX_SUCCESS, Event.rx_write i (some CPU_HIGH)] ++
        rx_pkt_buf_ready_callback_events c i ++
        [Event.rx_write i (some CPU_HIGH), Event.unlock_rx_pkt_buf i PKT_BUF_MUTEX_SUCCESS] ∧
    ((wlan_mac_high_process_ipc_msg c msg payload s).events_since s).count
      (Event.callback callback_t.mpdu_rx_callback i) = 1 ∧
    ((wlan_mac_high_process_ipc_msg c msg payload s).rx_pkt_buf i).rx_pkt_buf_state =
      RX_PKT_BUF_LOW_CTRL ∧
    (wlan_mac_high_process_ipc_msg c msg payload s).rx_pkt_buf_mutex i = none := by
  have hl : s.rx_pkt_buf_mutex i ≠ some CPU_LOW :=
    (lock_result_success_iff _).mp (by simpa using hlock)
  have heq := process_rx_pkt_buf_ready_normal c msg payload s i hid harg hi htag hl
  have hlr := lock_result_of_success _ hl
  have hev : (wlan_mac_high_process_ipc_msg c msg payload s).events_since s =
      [Event.lock_rx_pkt_buf i PKT_BUF_MUTEX_SUCCESS, Event.rx_write i (some CPU_HIGH)] ++
        rx_pkt_buf_ready_callback_events c i ++
        [Event.rx_write i (some CPU_HIGH),
          Event.unlock_rx_pkt_buf i PKT_BUF_MUTEX_SUCCESS] := by
    apply events_since_append
    rw [heq]
    simp [rx_callbacks_trace, hlr, unlock_result, List.append_assoc]
  refine ⟨heq, by simp, by simp [hlr], ?_, hev, ?_, ?_, ?_⟩
  · intro s1
    exact ⟨by simp, by simp, events_since_append _ _ _ (rx_callbacks_trace c i s1)⟩
  · rw [hev]
    simp [List.count_append, rx_callback_events_count, List.count_cons]
  · rw [heq]; simp
  · rw [heq]; simp [hlr, unlock_result]

/-- C18 at a concrete pool: Rx slot 2 is READY and unlocked; after the message
its tag is LOW_CTRL, its mutex is free, and the Rx callback ran once. -/
theorem rx_pkt_buf_ready_handoff_witness :
    (2 < NUM_RX_PKT_BUFS ∧
      (ipc_state_example.rx_pkt_buf 2).rx_pkt_buf_state = RX_PKT_BUF_READY ∧
      (lock_rx_pkt_buf 2 ipc_state_example).1 = PKT_BUF_MUTEX_SUCCESS) ∧
    ((wlan_mac_high_process_ipc_msg collab_example
        (ipc_msg_example IPC_MBOX_RX_PKT_BUF_READY 2) [] ipc_state_example).events_since
      ipc_state_example).count (Event.callback callback_t.mpdu_rx_callback 2) = 1 ∧
    ((wlan_mac_high_process_ipc_msg collab_example
        (ipc_msg_example IPC_MBOX_RX_PKT_BUF_READY 2) [] ipc_state_example).rx_pkt_buf
      2).rx_pkt_buf_state = RX_PKT_BUF_LOW_CTRL ∧
    (wlan_mac_high_process_ipc_msg collab_example
        (ipc_msg_example IPC_MBOX_RX_PKT_BUF_READY 2) [] ipc_state_example).rx_pkt_buf_mutex 2 =
      none :=
  ⟨⟨by decide, by decide, by decide⟩,
    (rx_pkt_buf_ready_handoff collab_example (ipc_msg_example IPC_MBOX_RX_PKT_BUF_READY 2) []
      ipc_state_example 2 rfl rfl (by decide) (by decide) (by decide)).2.2.2.2.2⟩

/-- C19: for an IPC_MBOX_RX_PKT_BUF_READY message naming a slot `i` below
NUM_RX_PKT_BUFS that is tagged RX_PKT_BUF_READY and whose lock fails,
`wlan_mac_high_process_ipc_msg` makes the lock attempt and prints the error and
nothing else: it invokes no callback or collaborator, and every Rx and Tx
header and mutex owner is as before. -/
theorem rx_pkt_buf_ready_lock_failure (c : Collab) (msg : wlan_ipc_msg_t) (payload : List Nat)
    (s : State) (i : Nat)
    (hid : msg.msg_id = IPC_MBOX_RX_PKT_BUF_READY) (harg : msg.arg0 = i)
    (hi : i < NUM_RX_PKT_BUFS)
    (htag : (s.rx_pkt_buf i).rx_pkt_buf_state = RX_PKT_BUF_READY)
    (hlock : (lock_rx_pkt_buf i s).1 ≠ PKT_BUF_MUTEX_SUCCESS) :
    (wlan_mac_high_process_ipc_msg c msg payload s).events_since s =
      [Event.lock_rx_pkt_buf i PKT_BUF_MUTEX_FAIL_ALREADY_LOCKED, Event.print 1288] ∧
    (∀ which arg, Event.callback which arg ∉
      (wlan_mac_high_process_ipc_msg c msg payload s).events_since s) ∧
    (wlan_mac_high_process_ipc_msg c msg payload s).rx_pkt_buf = s.rx_pkt_buf ∧
    (wlan_mac_high_process_ipc_msg c msg payload s).rx_pkt_buf_mutex = s.rx_pkt_buf_mutex ∧
    (wlan_mac_high_process_ipc_msg c msg payload s).tx_pkt_buf = s.tx_pkt_buf ∧
    (wlan_mac_high_process_ipc_msg c msg payload s).tx_pkt_buf_mutex = s.tx_pkt_buf_mutex := by
  have hl : s.rx_pkt_buf_mutex i = some CPU_LOW := by
    by_contra h
    exact hlock (by simpa using (lock_result_success_iff _).mpr h)
  have hlr := lock_result_of_fail _ hl
  have heq : wlan_mac_high_process_ipc_msg c msg payload s =
      (lock_rx_pkt_buf i s).2.log (Event.print 1288) := by
    unfold wlan_mac_high_process_ipc_msg
    simp only [hid]
    unfold process_rx_pkt_buf_ready
    simp only [harg, hi, if_true, htag]
    simp [hlr]
  have hev : (wlan_mac_high_process_ipc_msg c msg payload s).events_since s =
      [Event.lock_rx_pkt_buf i PKT_BUF_MUTEX_FAIL_ALREADY_LOCKED, Event.print 1288] := by
    apply events_since_append
    rw [heq]
    simp [hlr, List.append_assoc]
  refine ⟨hev, ?_, ?_, ?_, ?_, ?_⟩
  · intro which arg
    rw [hev]
    simp
  · rw [heq]; simp
  · rw [heq]
    simp only [log_rx_mutex, lock_rx_rx_mutex, hlr]
    rw [← hl]
    exact Function.update_eq_self i s.rx_pkt_buf_mutex
  · rw [heq]; simp
  · rw [heq]; simp

/-- C19 at a concrete pool: Rx slot 3 is READY but CPU Low still holds its
mutex; the message leaves tag and owner as they were. -/
theorem rx_pkt_buf_ready_lock_failure_witness :
    (3 < NUM_RX_PKT_BUFS ∧
      (ipc_state_example.rx_pkt_buf 3).rx_pkt_buf_state = RX_PKT_BUF_READY ∧
      (lock_rx_pkt_buf 3 ipc_state_example).1 ≠ PKT_BUF_MUTEX_SUCCESS) ∧
    (wlan_mac_high_process_ipc_msg collab_example
        (ipc_msg_example IPC_MBOX_RX_PKT_BUF_READY 3) [] ipc_state_example).events_since
      ipc_state_example =
      [Event.lock_rx_pkt_buf 3 PKT_BUF_MUTEX_FAIL_ALREADY_LOCKED, Event.print 1288] :=
  ⟨⟨by decide, by decide, by decide⟩,
    (rx_pkt_buf_ready_lock_failure collab_example (ipc_msg_example IPC_MBOX_RX_PKT_BUF_READY 3)
      [] ipc_state_example 3 rfl rfl (by decide) (by decide) (by decide)).1⟩

/-! ### The Tx completion -/

theorem tx_done_callbacks_trace (c : Collab) (i : Nat) (s : State) :
    (tx_pkt_buf_done_callbacks c i s).trace =
      s.trace ++ tx_pkt_buf_done_callback_events c i := by
  simp [tx_pkt_buf_done_callbacks, tx_pkt_buf_done_callback_events, List.append_assoc]

@[simp] theorem tx_done_callbacks_tx_pkt_buf (c : Collab) (i : Nat) (s : State) :
    (tx_pkt_buf_done_callbacks c i s).tx_pkt_buf = s.tx_pkt_buf := by
  simp [tx_pkt_buf_done_callbacks]

@[simp] theorem tx_done_callbacks_tx_mutex (c : Collab) (i : Nat) (s : State) :
    (tx_pkt_buf_done_callbacks c i s).tx_pkt_buf_mutex = s.tx_pkt_buf_mutex := by
  simp [tx_pkt_buf_done_callbacks]

@[simp] theorem tx_done_callbacks_rx_pkt_buf (c : Collab) (i : Nat) (s : State) :
    (tx_pkt_buf_done_callbacks c i s).rx_pkt_buf = s.rx_pkt_buf := by
  simp [tx_pkt_buf_done_callbacks]

@[simp] theorem tx_done_callbacks_rx_mutex (c : Collab) (i : Nat) (s : State) :
    (tx_pkt_buf_done_callbacks c i s).rx_pkt_buf_mutex = s.rx_pkt_buf_mutex := by
  simp [tx_pkt_buf_done_callbacks]

/-- The user Tx-done callback occurs exactly once among the calls of the normal
DONE path. -/
theorem tx_done_callback_events_count (c : Collab) (i : Nat) :
    (tx_pkt_buf_done_callback_events c i).count
      (Event.callback callback_t.mpdu_tx_high_done_callback i) = 1 := by
  unfold tx_pkt_buf_done_callback_events
  split_ifs <;> simp [List.count_cons]

/-- The normal DONE path as a composition: lock, the calls, tag HIGH_CTRL. -/
theorem process_tx_pkt_buf_done_normal (c : Collab) (msg : wlan_ipc_msg_t)
    (payload : List Nat) (s : State) (i : Nat)
    (hid : msg.msg_id = IPC_MBOX_TX_PKT_BUF_DONE) (harg : msg.arg0 = i)
    (hi : i < NUM_TX_PKT_BUFS)
    (htag : (s.tx_pkt_buf i).tx_pkt_buf_state = TX_PKT_BUF_DONE)
    (hlock : s.tx_pkt_buf_mutex i ≠ some CPU_LOW) :
    wlan_mac_high_process_ipc_msg c msg payload s =
      set_tx_pkt_buf_state i TX_PKT_BUF_HIGH_CTRL
        (tx_pkt_buf_done_callbacks c i (lock_tx_pkt_buf i s).2) := by
  unfold wlan_mac_high_process_ipc_msg
  simp only [hid]
  unfold process_tx_pkt_buf_done
  simp only [harg, hi, if_true, htag]
  simp [lock_result_of_success _ hlock]

/-- C20: for an IPC_MBOX_TX_PKT_BUF_DONE message naming a slot `i` below
NUM_TX_PKT_BUFS that is tagged TX_PKT_BUF_DONE and whose lock succeeds,
`wlan_mac_high_process_ipc_msg` acquires the lock, makes its calls, among them
`mpdu_tx_high_done_callback` exactly once, with the lock held and the tag still
TX_PKT_BUF_DONE, and only then sets the tag to TX_PKT_BUF_HIGH_CTRL; on return
the tag is TX_PKT_BUF_HIGH_CTRL and CPU High holds the lock. -/
theorem tx_pkt_buf_done_callback_order (c : Collab) (msg : wlan_ipc_msg_t)
    (payload : List Nat) (s : State) (i : Nat)
    (hid : msg.msg_id = IPC_MBOX_TX_PKT_BUF_DONE) (harg : msg.arg0 = i)
    (hi : i < NUM_TX_PKT_BUFS)
    (htag : (s.tx_pkt_buf i).tx_pkt_buf_state = TX_PKT_BUF_DONE)
    (hlock : (lock_tx_pkt_buf i s).1 = PKT_BUF_MUTEX_SUCCESS) :
    wlan_mac_high_process_ipc_msg c msg payload s =
      set_tx_pkt_buf_state i TX_PKT_BUF_HIGH_CTRL
        (tx_pkt_buf_done_callbacks c i (lock_tx_pkt_buf i s).2) ∧
    (lock_tx_pkt_buf i s).2.tx_pkt_buf_mutex i = some CPU_HIGH ∧
    ((lock_tx_pkt_buf i s).2.tx_pkt_buf i).tx_pkt_buf_state = TX_PKT_BUF_DONE ∧
    (∀ s1, (tx_pkt_buf_done_callbacks c i s1).tx_pkt_buf = s1.tx_pkt_buf ∧
      (tx_pkt_buf_done_callbacks c i s1).tx_pkt_buf_mutex = s1.tx_pkt_buf_mutex ∧
      (tx_pkt_buf_done_callbacks c i s1).events_since s1 =
        tx_pkt_buf_done_callback_events c i) ∧
    (wlan_mac_high_process_ipc_msg c msg payload s).events_since s =
      [Event.lock_tx_pkt_buf i PKT_BUF_MUTEX_SUCCESS] ++
        tx_pkt_buf_done_callback_events c i ++ [Event.tx_write i (some CPU_HIGH)] ∧
    ((wlan_mac_high_process_ipc_msg c msg payload s).events_since s).count
      (Event.callback callback_t.mpdu_tx_high_done_callback i) = 1 ∧
    ((wlan_mac_high_process_ipc_msg c msg payload s).tx_pkt_buf i).tx_pkt_buf_state =
      TX_PKT_BUF_HIGH_CTRL ∧
    (wlan_mac_high_process_ipc_msg c msg payload s).tx_pkt_buf_mutex i = some CPU_HIGH := by
  have hl : s.tx_pkt_buf_mutex i ≠ some CPU_LOW :=
    (lock_result_success_iff _).mp (by simpa using hlock)
  have heq := process_tx_pkt_buf_done_normal c msg payload s i hid harg hi htag hl
  have hlr := lock_result_of_success _ hl
  have hev : (wlan_mac_high_process_ipc_msg c msg payload s).events_since s =
      [Event.lock_tx_pkt_buf i PKT_BUF_MUTEX_SUCCESS] ++
        tx_pkt_buf_done_callback_events c i ++ [Event.tx_write i (some CPU_HIGH)] := by
    apply events_since_append
    rw [heq]
    simp [tx_done_callbacks_trace, hlr, List.append_assoc]
  refine ⟨heq, by simp [hlr], by simp [htag], ?_, hev, ?_, ?_, ?_⟩
  · intro s1
    exact ⟨by simp, by simp, events_since_append _ _ _ (tx_done_callbacks_trace c i s1)⟩
  · rw [hev]
    simp [List.count_append, tx_done_callback_events_count, List.count_cons]
  · rw [heq]; simp
  · rw [heq]; simp [hlr]

/-- C20 at a concrete pool: Tx slot 4 is DONE and unlocked; after the message
its tag is HIGH_CTRL, CPU High holds its mutex, and the Tx-done callback ran
once. -/
theorem tx_pkt_buf_done_callback_order_witness :
    (4 < NUM_TX_PKT_BUFS ∧
      (ipc_state_example.tx_pkt_buf 4).tx_pkt_buf_state = TX_PKT_BUF_DONE ∧
      (lock_tx_pkt_buf 4 ipc_state_example).1 = PKT_BUF_MUTEX_SUCCESS) ∧
    ((wlan_mac_high_process_ipc_msg collab_example
        (ipc_msg_example IPC_MBOX_TX_PKT_BUF_DONE 4) [] ipc_state_example).events_since
      ipc_state_example).count (Event.callback callback_t.mpdu_tx_high_done_callback 4) = 1 ∧
    ((wlan_mac_high_process_ipc_msg collab_example
        (ipc_msg_example IPC_MBOX_TX_PKT_BUF_DONE 4) [] ipc_state_example).tx_pkt_buf
      4).tx_pkt_buf_state = TX_PKT_BUF_HIGH_CTRL ∧
    (wlan_mac_high_process_ipc_msg collab_example
        (ipc_msg_example IPC_MBOX_TX_PKT_BUF_DONE 4) [] ipc_state_example).tx_pkt_buf_mutex 4 =
      some CPU_HIGH :=
  ⟨⟨by decide, by decide, by decide⟩,
    (tx_pkt_buf_done_callback_order collab_example (ipc_msg_example IPC_MBOX_TX_PKT_BUF_DONE 4)
      [] ipc_state_example 4 rfl rfl (by decide) (by decide) (by decide)).2.2.2.2.2⟩

/-! ### Re-pushing the tracked parameters -/

theorem State.append_nil (s : State) : s.append [] = s := by
  cases s
  simp [State.append]

theorem to_u32_of_lt (v : Nat) (h : v < 2 ^ 32) : to_u32 v = v :=
  Nat.mod_eq_of_lt h

theorem to_u8_of_lt (v : Nat) (h : v < 2 ^ 8) : to_u8 v = v :=
  Nat.mod_eq_of_lt h

theorem to_s8_of_range (v : Int) (h1 : -128 ≤ v) (h2 : v ≤ 127) : to_s8 v = v := by
  unfold to_s8
  omega

/-- The value of an `s8` parameter lies in -128..127 and differs from the
argument by a multiple of 2^8. -/
theorem to_s8_spec (v : Int) : -128 ≤ to_s8 v ∧ to_s8 v ≤ 127 ∧ (to_s8 v - v) % 256 = 0 := by
  unfold to_s8
  omega

/-- A power outside -128..127 reaches the setter modulo 2^8: the call with 200
stores -56 and sends the payload word 4294967240. -/
theorem set_tx_ctrl_power_out_of_range :
    (wlan_mac_high_set_tx_ctrl_power collab_example 200
      ipc_state_example).low_param_tx_ctrl_pow = -56 ∧
    (wlan_mac_high_set_tx_ctrl_power collab_example 200 ipc_state_example).events_since
        ipc_state_example =
      [Event.write_mailbox_msg
        { msg_id := IPC_MBOX_CONFIG_TX_CTRL_POW, arg0 := collab_example.unassigned_arg0,
          num_payload_words := 1, payload := [4294967240] }] := by
  decide

theorem repush_channel_eq (c : Collab) (s : State) :
    repush (s.low_param_channel != 0xFFFFFFFF)
        (wlan_mac_high_set_radio_channel c s.low_param_channel) s =
      ({ s with low_param_channel :=
          if (s.low_param_channel != 0xFFFFFFFF) = true ∧
              c.wlan_verify_channel (to_u32 s.low_param_channel) = true
          then to_u32 s.low_param_channel else s.low_param_channel } : State).append
        (repush_channel_events c s.low_param_channel) := by
  unfold repush repush_channel_events wlan_mac_high_set_radio_channel
  by_cases h1 : (s.low_param_channel != 0xFFFFFFFF) = true <;>
    by_cases h2 : c.wlan_verify_channel (to_u32 s.low_param_channel) = true <;>
    (cases s; simp_all [write_mailbox_msg, State.log, State.append])

theorem repush_dsss_eq (c : Collab) (s : State) :
    repush (s.low_param_dsss_en != 0xFFFFFFFF)
        (wlan_mac_high_set_dsss c s.low_param_dsss_en) s =
      ({ s with low_param_dsss_en :=
          if (s.low_param_dsss_en != 0xFFFFFFFF) = true then to_u32 s.low_param_dsss_en
          else s.low_param_dsss_en } : State).append
        (repush_dsss_events c s.low_param_dsss_en) := by
  unfold repush repush_dsss_events wlan_mac_high_set_dsss
  by_cases h1 : (s.low_param_dsss_en != 0xFFFFFFFF) = true <;>
    (cases s; simp_all [write_mailbox_msg, State.log, State.append])

theorem repush_rx_ant_mode_eq (c : Collab) (s : State) :
    repush (s.low_param_rx_ant_mode != 0xFF)
        (wlan_mac_high_set_rx_ant_mode c s.low_param_rx_ant_mode) s =
      ({ s with low_param_rx_ant_mode :=
          if (s.low_param_rx_ant_mode != 0xFF) = true ∧
              (to_u8 s.low_param_rx_ant_mode = c.RX_ANTMODE_SISO_ANTA ∨
                to_u8 s.low_param_rx_ant_mode = c.RX_ANTMODE_SISO_ANTB ∨
                to_u8 s.low_param_rx_ant_mode = c.RX_ANTMODE_SISO_ANTC ∨
                to_u8 s.low_param_rx_ant_mode = c.RX_ANTMODE_SISO_ANTD ∨
                to_u8 s.low_param_rx_ant_mode = c.RX_ANTMODE_SISO_SELDIV_2ANT)
          then to_u8 s.low_param_rx_ant_mode else s.low_param_rx_ant_mode } : State).append
        (repush_rx_ant_mode_events c s.low_param_rx_ant_mode) := by
  unfold repush repush_rx_ant_mode_events wlan_mac_high_set_rx_ant_mode
  by_cases h1 : (s.low_param_rx_ant_mode != 0xFF) = true <;>
    by_cases h2 : (to_u8 s.low_param_rx_ant_mode = c.RX_ANTMODE_SISO_ANTA ∨
      to_u8 s.low_param_rx_ant_mode = c.RX_ANTMODE_SISO_ANTB ∨
      to_u8 s.low_param_rx_ant_mode = c.RX_ANTMODE_SISO_ANTC ∨
      to_u8 s.low_param_rx_ant_mode = c.RX_ANTMODE_SISO_ANTD ∨
      to_u8 s.low_param_rx_ant_mode = c.RX_ANTMODE_SISO_SELDIV_2ANT) <;>
    (cases s; simp only [] at h1 h2;
      simp [h1, h2, write_mailbox_msg, State.log, State.append])

theorem repush_tx_ctrl_pow_eq (c : Collab) (s : State) :
    repush (s.low_param_tx_ctrl_pow != -127)
        (wlan_mac_high_set_tx_ctrl_power c s.low_param_tx_ctrl_pow) s =
      ({ s with low_param_tx_ctrl_pow :=
          if (s.low_param_tx_ctrl_pow != -127) = true then to_s8 s.low_param_tx_ctrl_pow
          else s.low_param_tx_ctrl_pow } : State).append
        (repush_tx_ctrl_pow_events c s.low_param_tx_ctrl_pow) := by
  unfold repush repush_tx_ctrl_pow_events wlan_mac_high_set_tx_ctrl_power
  by_cases h1 : (s.low_param_tx_ctrl_pow != -127) = true <;>
    (cases s; simp_all [write_mailbox_msg, State.log, State.append])

theorem repush_radio_tx_pow_eq (c : Collab) (s : State) :
    repush (s.low_param_radio_tx_pow != -127)
        (wlan_mac_high_set_radio_tx_power c s.low_param_radio_tx_pow) s =
      ({ s with low_param_radio_tx_pow :=
          if (s.low_param_radio_tx_pow != -127) = true then to_s8 s.low_param_radio_tx_pow
          else s.low_param_radio_tx_pow } : State).append
        (repush_radio_tx_pow_events c s.low_param_radio_tx_pow) := by
  unfold repush repush_radio_tx_pow_events wlan_mac_high_set_radio_tx_power
  by_cases h1 : (s.low_param_radio_tx_pow != -127) = true <;>
    (cases s; simp_all [write_mailbox_msg, State.log, State.append])

theorem repush_rx_filter_eq (c : Collab) (s : State) :
    repush (s.low_param_rx_filter != 0xFFFFFFFF)
        (wlan_mac_high_set_rx_filter_mode c s.low_param_rx_filter) s =
      ({ s with low_param_rx_filter :=
          if (s.low_param_rx_filter != 0xFFFFFFFF) = true then to_u32 s.low_param_rx_filter
          else s.low_param_rx_filter } : State).append
        (repush_rx_filter_events c s.low_param_rx_filter) := by
  unfold repush repush_rx_filter_events wlan_mac_high_set_rx_filter_mode
  by_cases h1 : (s.low_param_rx_filter != 0xFFFFFFFF) = true <;>
    (cases s; simp_all [write_mailbox_msg, State.log, State.append])

theorem repush_random_seed_eq (c : Collab) (s : State) :
    repush (s.low_param_random_seed != 0xFFFFFFFF)
        (wlan_mac_high_set_srand c s.low_param_random_seed) s =
      ({ s with low_param_random_seed :=
          if (s.low_param_random_seed != 0xFFFFFFFF) = true then
            to_u32 s.low_param_random_seed
          else s.low_param_random_seed } : State).append
        (repush_random_seed_events c s.low_param_random_seed) := by
  unfold repush repush_random_seed_events wlan_mac_high_set_srand
  by_cases h1 : (s.low_param_random_seed != 0xFFFFFFFF) = true <;>
    (cases s; simp_all [write_mailbox_msg, State.log, State.append])

/-- The BOOTED branch appends its events to the trace and stores again the
tracking variables it pushes; it changes nothing else. -/
theorem process_cpu_status_booted_eq (c : Collab) (payload : List Nat) (s : State) :
    process_cpu_status_booted c payload s =
      (booted_low_params c s).append (booted_events c payload s) := by
  unfold process_cpu_status_booted
  dsimp only
  rw [repush_channel_eq, repush_dsss_eq, repush_rx_ant_mode_eq, repush_tx_ctrl_pow_eq,
    repush_radio_tx_pow_eq, repush_rx_filter_eq, repush_random_seed_eq]
  simp only [State.log, State.append, booted_low_params, booted_events, List.append_assoc]

/-- The events of a CPU_STATUS message with reason BOOTED. -/
theorem process_ipc_msg_booted_events (c : Collab) (msg : wlan_ipc_msg_t) (payload : List Nat)
    (s : State) (hid : msg.msg_id = IPC_MBOX_CPU_STATUS)
    (hreason : c.cpu_status_reason msg.arg0 = cpu_status_reason_t.CPU_STATUS_REASON_BOOTED) :
    (wlan_mac_high_process_ipc_msg c msg payload s).events_since s =
      booted_events c payload s := by
  apply events_since_append
  unfold wlan_mac_high_process_ipc_msg
  simp only [hid]
  unfold process_cpu_status
  simp only [hreason]
  rw [process_cpu_status_booted_eq]
  rfl

/-- C16, as the claim states it, fails: `wlan_mac_high_set_srand` accepts the
seed 0xFFFFFFFF (it tracks it and sends it, one IPC_MBOX_LOW_RANDOM_SEED message
with payload word 0xFFFFFFFF), but a following CPU_STATUS message with reason
BOOTED sends no message at all. -/
theorem booted_does_not_repush_marker_seed :
    (wlan_mac_high_set_srand collab_example 0xFFFFFFFF ipc_state_example).low_param_random_seed =
      0xFFFFFFFF ∧
    (wlan_mac_high_set_srand collab_example 0xFFFFFFFF ipc_state_example).events_since
        ipc_state_example =
      [Event.write_mailbox_msg
        { msg_id := IPC_MBOX_LOW_RANDOM_SEED, arg0 := collab_example.unassigned_arg0,
          num_payload_words := 1, payload := [0xFFFFFFFF] }] ∧
    collab_example.cpu_status_reason 2 = cpu_status_reason_t.CPU_STATUS_REASON_BOOTED ∧
    (wlan_mac_high_process_ipc_msg collab_example (ipc_msg_example IPC_MBOX_CPU_STATUS 2) [0, 0]
        (wlan_mac_high_set_srand collab_example 0xFFFFFFFF ipc_state_example)).events_since
      (wlan_mac_high_set_srand collab_example 0xFFFFFFFF ipc_state_example) =
      [Event.callback callback_t.cpu_low_reboot_callback 0,
       Event.callback callback_t.tx_poll_callback 0] := by
  decide

/-- C16, amended: each setter stores a value `v` of its parameter type that it
accepts in its tracking variable (`u32` for channel, DSSS enable, Rx filter and
random seed, `u8` for the Rx antenna mode, `s8` for the two powers); and when a
tracking variable holds such a `v` that is not the unset marker (0xFFFFFFFF for
channel, DSSS enable, Rx filter and random seed, 0xFF for the Rx antenna mode,
-127 for the two powers), processing an IPC_MBOX_CPU_STATUS message with reason
BOOTED writes to the mailbox a message whose id is the configuration message of
that parameter and whose payload is the one word `v`, for a power the word
`(u32)v`, that is `v` modulo 2^32. The code does not assign `arg0` of these
messages. -/
theorem booted_repushes_tracked_params (c : Collab) (msg : wlan_ipc_msg_t)
    (payload : List Nat) (s : State) (hid : msg.msg_id = IPC_MBOX_CPU_STATUS)
    (hreason : c.cpu_status_reason msg.arg0 = cpu_status_reason_t.CPU_STATUS_REASON_BOOTED) :
    ((∀ v s0, v < 2 ^ 32 → c.wlan_verify_channel v = true →
        (wlan_mac_high_set_radio_channel c v s0).low_param_channel = v) ∧
      (∀ v s0, v < 2 ^ 32 → (wlan_mac_high_set_dsss c v s0).low_param_dsss_en = v) ∧
      (∀ v s0, v < 2 ^ 8 →
        (v = c.RX_ANTMODE_SISO_ANTA ∨ v = c.RX_ANTMODE_SISO_ANTB ∨
          v = c.RX_ANTMODE_SISO_ANTC ∨ v = c.RX_ANTMODE_SISO_ANTD ∨
          v = c.RX_ANTMODE_SISO_SELDIV_2ANT) →
        (wlan_mac_high_set_rx_ant_mode c v s0).low_param_rx_ant_mode = v) ∧
      (∀ v s0, -128 ≤ v → v ≤ 127 →
        (wlan_mac_high_set_tx_ctrl_power c v s0).low_param_tx_ctrl_pow = v) ∧
      (∀ v s0, -128 ≤ v → v ≤ 127 →
        (wlan_mac_high_set_radio_tx_power c v s0).low_param_radio_tx_pow = v) ∧
      (∀ v s0, v < 2 ^ 32 →
        (wlan_mac_high_set_rx_filter_mode c v s0).low_param_rx_filter = v) ∧
      (∀ v s0, v < 2 ^ 32 → (wlan_mac_high_set_srand c v s0).low_param_random_seed = v)) ∧
    (∀ v, s.low_param_channel = v → v < 2 ^ 32 → c.wlan_verify_channel v = true →
      v ≠ 0xFFFFFFFF →
      ∃ a, Event.write_mailbox_msg
          { msg_id := IPC_MBOX_CONFIG_CHANNEL, arg0 := a, num_payload_words := 1,
            payload := [v] } ∈
        (wlan_mac_high_process_ipc_msg c msg payload s).events_since s) ∧
    (∀ v, s.low_param_dsss_en = v → v < 2 ^ 32 → v ≠ 0xFFFFFFFF →
      ∃ a, Event.write_mailbox_msg
          { msg_id := IPC_MBOX_CONFIG_DSSS_EN, arg0 := a, num_payload_words := 1,
            payload := [v] } ∈
        (wlan_mac_high_process_ipc_msg c msg payload s).events_since s) ∧
    (∀ v, s.low_param_rx_ant_mode = v → v < 2 ^ 8 →
      (v = c.RX_ANTMODE_SISO_ANTA ∨ v = c.RX_ANTMODE_SISO_ANTB ∨
        v = c.RX_ANTMODE_SISO_ANTC ∨ v = c.RX_ANTMODE_SISO_ANTD ∨
        v = c.RX_ANTMODE_SISO_SELDIV_2ANT) → v ≠ 0xFF →
      ∃ a, Event.write_mailbox_msg
          { msg_id := IPC_MBOX_CONFIG_RX_ANT_MODE, arg0 := a, num_payload_words := 1,
            payload := [v] } ∈
        (wlan_mac_high_process_ipc_msg c msg payload s).events_since s) ∧
    (∀ v, s.low_param_tx_ctrl_pow = v → -128 ≤ v → v ≤ 127 → v ≠ -127 →
      ∃ a, Event.write_mailbox_msg
          { msg_id := IPC_MBOX_CONFIG_TX_CTRL_POW, arg0 := a, num_payload_words := 1,
            payload := [(v % 2 ^ 32).toNat] } ∈
        (wlan_mac_high_process_ipc_msg c msg payload s).events_since s) ∧
    (∀ v, s.low_param_radio_tx_pow = v → -128 ≤ v → v ≤ 127 → v ≠ -127 →
      ∃ a, Event.write_mailbox_msg
          { msg_id := IPC_MBOX_SET_RADIO_TX_POWER, arg0 := a, num_payload_words := 1,
            payload := [(v % 2 ^ 32).toNat] } ∈
        (wlan_mac_high_process_ipc_msg c msg payload s).events_since s) ∧
    (∀ v, s.low_param_rx_filter = v → v < 2 ^ 32 → v ≠ 0xFFFFFFFF →
      ∃ a, Event.write_mailbox_msg
          { msg_id := IPC_MBOX_CONFIG_RX_FILTER, arg0 := a, num_payload_words := 1,
            payload := [v] } ∈
        (wlan_mac_high_process_ipc_msg c msg payload s).events_since s) ∧
    (∀ v, s.low_param_random_seed = v → v < 2 ^ 32 → v ≠ 0xFFFFFFFF →
      ∃ a, Event.write_mailbox_msg
          { msg_id := IPC_MBOX_LOW_RANDOM_SEED, arg0 := a, num_payload_words := 1,
            payload := [v] } ∈
        (wlan_mac_high_process_ipc_msg c msg payload s).events_since s) := by
  rw [process_ipc_msg_booted_events c msg payload s hid hreason]
  refine ⟨⟨?_, ?_, ?_, ?_, ?_, ?_, ?_⟩, ?_, ?_, ?_, ?_, ?_, ?_, ?_⟩
  · intro v s0 hlt hv
    simp [wlan_mac_high_set_radio_channel, to_u32_of_lt v hlt, hv, write_mailbox_msg,
      State.log]
  · intro v s0 hlt
    simp [wlan_mac_high_set_dsss, to_u32_of_lt v hlt, write_mailbox_msg, State.log]
  · intro v s0 hlt hv
    simp [wlan_mac_high_set_rx_ant_mode, to_u8_of_lt v hlt, hv, write_mailbox_msg, State.log]
  · intro v s0 h1 h2
    simp [wlan_mac_high_set_tx_ctrl_power, to_s8_of_range v h1 h2, write_mailbox_msg,
      State.log]
  · intro v s0 h1 h2
    simp [wlan_mac_high_set_radio_tx_power, to_s8_of_range v h1 h2, write_mailbox_msg,
      State.log]
  · intro v s0 hlt
    simp [wlan_mac_high_set_rx_filter_mode, to_u32_of_lt v hlt, write_mailbox_msg, State.log]
  · intro v s0 hlt
    simp [wlan_mac_high_set_srand, to_u32_of_lt v hlt, write_mailbox_msg, State.log]
  · intro v hv hlt hok hne
    refine ⟨c.unassigned_arg0, ?_⟩
    simp [booted_events, repush_channel_events, hv, to_u32_of_lt v hlt, hok, hne,
      low_param_msg]
  · intro v hv hlt hne
    refine ⟨c.unassigned_arg0, ?_⟩
    simp [booted_events, repush_dsss_events, hv, to_u32_of_lt v hlt, hne, low_param_msg]
  · intro v hv hlt hok hne
    refine ⟨c.unassigned_arg0, ?_⟩
    simp [booted_events, repush_rx_ant_mode_events, hv, to_u8_of_lt v hlt, hok, hne,
      low_param_msg]
  · intro v hv h1 h2 hne
    refine ⟨c.unassigned_arg0, ?_⟩
    simp [booted_events, repush_tx_ctrl_pow_events, hv, to_s8_of_range v h1 h2, hne,
      low_param_msg, s8_to_u32]
  · intro v hv h1 h2 hne
    refine ⟨c.unassigned_arg0, ?_⟩
    simp [booted_events, repush_radio_tx_pow_events, hv, to_s8_of_range v h1 h2, hne,
      low_param_msg, s8_to_u32]
  · intro v hv hlt hne
    refine ⟨c.unassigned_arg0, ?_⟩
    simp [booted_events, repush_rx_filter_events, hv, to_u32_of_lt v hlt, hne, low_param_msg]
  · intro v hv hlt hne
    refine ⟨c.unassigned_arg0, ?_⟩
    simp [booted_events, repush_random_seed_events, hv, to_u32_of_lt v hlt, hne,
      low_param_msg]

/-- C16, amended, at concrete values: after the channel is set to 6 and the Tx
control power to -5, a CPU_STATUS message with reason BOOTED writes an
IPC_MBOX_CONFIG_CHANNEL message with payload word 6 and an
IPC_MBOX_CONFIG_TX_CTRL_POW message with payload word 4294967291. -/
theorem booted_repushes_tracked_params_witness :
    (collab_example.cpu_status_reason 2 = cpu_status_reason_t.CPU_STATUS_REASON_BOOTED ∧
      collab_example.wlan_verify_channel 6 = true ∧
      (wlan_mac_high_set_tx_ctrl_power collab_example (-5)
        (wlan_mac_high_set_radio_channel collab_example 6
          ipc_state_example)).low_param_channel = 6 ∧
      (wlan_mac_high_set_tx_ctrl_power collab_example (-5)
        (wlan_mac_high_set_radio_channel collab_example 6
          ipc_state_example)).low_param_tx_ctrl_pow = -5) ∧
    (∃ a, Event.write_mailbox_msg
        { msg_id := IPC_MBOX_CONFIG_CHANNEL, arg0 := a, num_payload_words := 1,
          payload := [6] } ∈
      (wlan_mac_high_process_ipc_msg collab_example (ipc_msg_example IPC_MBOX_CPU_STATUS 2)
          [0, 0]
          (wlan_mac_high_set_tx_ctrl_power collab_example (-5)
            (wlan_mac_high_set_radio_channel collab_example 6 ipc_state_example))).events_since
        (wlan_mac_high_set_tx_ctrl_power collab_example (-5)
          (wlan_mac_high_set_radio_channel collab_example 6 ipc_state_example))) ∧
    (∃ a, Event.write_mailbox_msg
        { msg_id := IPC_MBOX_CONFIG_TX_CTRL_POW, arg0 := a, num_payload_words := 1,
          payload := [((-5 : Int) % 2 ^ 32).toNat] } ∈
      (wlan_mac_high_process_ipc_msg collab_example (ipc_msg_example IPC_MBOX_CPU_STATUS 2)
          [0, 0]
          (wlan_mac_high_set_tx_ctrl_power collab_example (-5)
            (wlan_mac_high_set_radio_channel collab_example 6 ipc_state_example))).events_since
        (wlan_mac_high_set_tx_ctrl_power collab_example (-5)
          (wlan_mac_high_set_radio_channel collab_example 6 ipc_state_example))) ∧
    ((-5 : Int) % 2 ^ 32).toNat = 4294967291 :=
  ⟨⟨by decide, by decide, by decide, by decide⟩,
   (booted_repushes_tracked_params collab_example (ipc_msg_example IPC_MBOX_CPU_STATUS 2)
      [0, 0]
      (wlan_mac_high_set_tx_ctrl_power collab_example (-5)
        (wlan_mac_high_set_radio_channel collab_example 6 ipc_state_example))
      rfl (by decide)).2.1 6 (by decide) (by decide) (by decide) (by decide),
   (booted_repushes_tracked_params collab_example (ipc_msg_example IPC_MBOX_CPU_STATUS 2)
      [0, 0]
      (wlan_mac_high_set_tx_ctrl_power collab_example (-5)
        (wlan_mac_high_set_radio_channel collab_example 6 ipc_state_example))
      rfl (by decide)).2.2.2.2.1 (-5) (by decide) (by decide) (by decide) (by decide),
   by decide⟩

/-! ### What the message handler leaves alone -/

@[simp] theorem log_reg_read (s : State) (e : Event) : (s.log e).reg_read = s.reg_read := rfl
@[simp] theorem append_reg_read (s : State) (evs : List Event) :
    (s.append evs).reg_read = s.reg_read := rfl
@[simp] theorem log_if_reg_read (b : Bool) (e : Event) (s : State) :
    (log_if b e s).reg_read = s.reg_read := by
  unfold log_if; split <;> rfl
@[simp] theorem tx_write_reg_read (i : Nat) (f : tx_frame_info_t → tx_frame_info_t)
    (s : State) : (tx_frame_info_write i f s).reg_read = s.reg_read := rfl
@[simp] theorem set_tx_state_reg_read (i : Nat) (v : tx_pkt_buf_state_t) (s : State) :
    (set_tx_pkt_buf_state i v s).reg_read = s.reg_read := rfl
@[simp] theorem set_rx_state_reg_read (i : Nat) (v : rx_pkt_buf_state_t) (s : State) :
    (set_rx_pkt_buf_state i v s).reg_read = s.reg_read := rfl
@[simp] theorem lock_tx_reg_read (i : Nat) (s : State) :
    (lock_tx_pkt_buf i s).2.reg_read = s.reg_read := rfl
@[simp] theorem unlock_tx_reg_read (i : Nat) (s : State) :
    (unlock_tx_pkt_buf i s).2.reg_read = s.reg_read := rfl
@[simp] theorem force_lock_tx_reg_read (i : Nat) (s : State) :
    (force_lock_tx_pkt_buf i s).reg_read = s.reg_read := rfl
@[simp] theorem lock_rx_reg_read (i : Nat) (s : State) :
    (lock_rx_pkt_buf i s).2.reg_read = s.reg_read := rfl
@[simp] theorem unlock_rx_reg_read (i : Nat) (s : State) :
    (unlock_rx_pkt_buf i s).2.reg_read = s.reg_read := rfl
@[simp] theorem rx_callbacks_reg_read (c : Collab) (i : Nat) (s : State) :
    (rx_pkt_buf_ready_callbacks c i s).reg_read = s.reg_read := by
  simp [rx_pkt_buf_ready_callbacks]
@[simp] theorem tx_done_callbacks_reg_read (c : Collab) (i : Nat) (s : State) :
    (tx_pkt_buf_done_callbacks c i s).reg_read = s.reg_read := by
  simp [tx_pkt_buf_done_callbacks]
@[simp] theorem rx_unlock_report_reg_read (i : Nat) (s : State) :
    (rx_pkt_buf_unlock_report i s).reg_read = s.reg_read := by
  unfold rx_pkt_buf_unlock_report
  dsimp only
  split <;> simp

theorem process_tx_beacon_done_reg_read (c : Collab) (msg : wlan_ipc_msg_t) (s : State) :
    (process_tx_beacon_done c msg s).reg_read = s.reg_read := by
  unfold process_tx_beacon_done
  dsimp only
  split_ifs <;> simp

theorem process_rx_pkt_buf_ready_reg_read (c : Collab) (msg : wlan_ipc_msg_t) (s : State) :
    (process_rx_pkt_buf_ready c msg s).reg_read = s.reg_read := by
  unfold process_rx_pkt_buf_ready
  dsimp only
  split
  · split
    · split_ifs <;> simp
    · simp
    · simp
    · simp
    · simp
  · simp

theorem process_phy_tx_report_reg_read (c : Collab) (msg : wlan_ipc_msg_t) (s : State) :
    (process_phy_tx_report c msg s).reg_read = s.reg_read := by
  unfold process_phy_tx_report
  dsimp only
  split <;> simp

theorem process_tx_pkt_buf_done_reg_read (c : Collab) (msg : wlan_ipc_msg_t) (s : State) :
    (process_tx_pkt_buf_done c msg s).reg_read = s.reg_read := by
  unfold process_tx_pkt_buf_done
  dsimp only
  split
  · split
    · split_ifs <;> simp
    · simp
    · simp
    · simp
    · simp
    · rfl
  · simp

theorem process_cpu_status_reg_read (c : Collab) (msg : wlan_ipc_msg_t) (payload : List Nat)
    (s : State) : (process_cpu_status c msg payload s).reg_read = s.reg_read := by
  unfold process_cpu_status
  dsimp only
  split
  · rfl
  · rw [process_cpu_status_booted_eq]; rfl
  · simp; rfl
  · rfl

/-- A message that is not an IPC_MBOX_MEM_READ_WRITE leaves the read-buffer
pointer, the read-buffer status and the memory as they were. -/
theorem process_ipc_msg_reg_read (c : Collab) (msg : wlan_ipc_msg_t) (payload : List Nat)
    (s : State) (h : msg.msg_id ≠ IPC_MBOX_MEM_READ_WRITE) :
    (wlan_mac_high_process_ipc_msg c msg payload s).reg_read = s.reg_read := by
  unfold wlan_mac_high_process_ipc_msg
  split
  · exact process_tx_beacon_done_reg_read c msg s
  · exact process_rx_pkt_buf_ready_reg_read c msg s
  · exact process_phy_tx_report_reg_read c msg s
  · exact process_tx_pkt_buf_done_reg_read c msg s
  · exact process_cpu_status_reg_read c msg payload s
  · rename_i heq
    exact absurd heq h
  · rfl
  · rfl

/-- A burst of messages none of which is an IPC_MBOX_MEM_READ_WRITE leaves the
read-buffer pointer, the read-buffer status and the memory as they were. -/
theorem deliver_reg_read (c : Collab) (msgs : List (wlan_ipc_msg_t × List Nat)) (s : State)
    (h : ∀ m ∈ msgs, m.1.msg_id ≠ IPC_MBOX_MEM_READ_WRITE) :
    (deliver c msgs s).reg_read = s.reg_read := by
  unfold deliver
  induction msgs generalizing s with
  | nil => rfl
  | cons m ms ih =>
    rw [List.foldl_cons, ih _ (fun m' hm' => h m' (List.mem_cons_of_mem _ hm'))]
    exact process_ipc_msg_reg_read c m.1 m.2 s (h m (List.mem_cons_self _ _))

/-! ### Register read: the timeout path -/

/-- While no IPC_MBOX_MEM_READ_WRITE message is handled, the clock readings up
to the `k`-th stay within the timeout and the `k`-th exceeds it, the loop ends
with -1; the pointer is then NULL and the memory as before. -/
theorem read_low_mem_wait_timeout (c : Collab) (env : PollEnv) :
    ∀ (fuel k0 : Nat) (s : State) (k : Nat), k0 ≤ k → k - k0 < fuel →
      (∀ j, k0 ≤ j → j ≤ k →
        (∀ m ∈ env.before_status j, m.1.msg_id ≠ IPC_MBOX_MEM_READ_WRITE) ∧
        (∀ m ∈ env.before_time j, m.1.msg_id ≠ IPC_MBOX_MEM_READ_WRITE)) →
      (∀ m ∈ env.before_reset, m.1.msg_id ≠ IPC_MBOX_MEM_READ_WRITE) →
      (∀ j, k0 ≤ j → j < k →
        elapsed_usec (env.system_time j) env.start_timestamp ≤
          c.WLAN_EXP_CPU_LOW_DATA_REQ_TIMEOUT) →
      elapsed_usec (env.system_time k) env.start_timestamp >
        c.WLAN_EXP_CPU_LOW_DATA_REQ_TIMEOUT →
      s.cpu_low_reg_read_buffer_status ≠ CPU_LOW_REG_READ_BUFFER_STATUS_READY →
      ∃ s1, read_low_mem_wait c env fuel k0 s = some (-1, s1) ∧
        s1.cpu_low_reg_read_buffer = NULL ∧ s1.mem = s.mem := by
  intro fuel
  induction fuel with
  | zero => intro k0 s k _ hf; omega
  | succ fuel ih =>
    intro k0 s k hk hf hquiet hreset hbefore hafter hstatus
    have q0 := hquiet k0 (le_refl _) hk
    have e1 := deliver_reg_read c (env.before_status k0) s q0.1
    have e2 := deliver_reg_read c (env.before_time k0)
      (deliver c (env.before_status k0) s) q0.2
    have hs1 : (deliver c (env.before_status k0) s).cpu_low_reg_read_buffer_status ≠
        CPU_LOW_REG_READ_BUFFER_STATUS_READY := by
      have := congrArg (fun r => r.2.1) e1
      simp only [State.reg_read] at this
      rw [this]; exact hstatus
    have hm1 : (deliver c (env.before_status k0) s).mem = s.mem := by
      have := congrArg (fun r => r.2.2) e1
      simpa only [State.reg_read] using this
    have hs2 : (deliver c (env.before_time k0)
        (deliver c (env.before_status k0) s)).cpu_low_reg_read_buffer_status ≠
        CPU_LOW_REG_READ_BUFFER_STATUS_READY := by
      have := congrArg (fun r => r.2.1) e2
      simp only [State.reg_read] at this
      rw [this]; exact hs1
    have hm2 : (deliver c (env.before_time k0)
        (deliver c (env.before_status k0) s)).mem = s.mem := by
      have := congrArg (fun r => r.2.2) e2
      simp only [State.reg_read] at this
      rw [this]; exact hm1
    rw [read_low_mem_wait]
    dsimp only
    rw [if_neg hs1]
    by_cases hkk : k0 = k
    · subst hkk
      rw [if_pos hafter]
      refine ⟨_, rfl, rfl, ?_⟩
      have e3 := deliver_reg_read c env.before_reset
        ((deliver c (env.before_time k0) (deliver c (env.before_status k0) s)).log
          (Event.print 1800)) hreset
      have := congrArg (fun r => r.2.2) e3
      simp only [State.reg_read] at this
      show (deliver c env.before_reset _).mem = s.mem
      rw [this]; exact hm2
    · have hlt : k0 < k := lt_of_le_of_ne hk hkk
      have hnot := hbefore k0 (le_refl _) hlt
      rw [if_neg (not_lt.mpr hnot)]
      obtain ⟨s1, h1, h2, h3⟩ := ih (k0 + 1) _ k hlt (by omega)
        (fun j hj hjk => hquiet j (by omega) hjk) hreset
        (fun j hj hjk => hbefore j (by omega) hjk) hafter hs2
      exact ⟨s1, h1, h2, h3.trans hm2⟩

/-- C17, the claimed sentence fails: the clock reading is past the timeout while
the status is still NOT_READY, so no response has set it to READY before the
timeout is exceeded; the response is handled after that reading and before the
pointer is reset, and the function returns -1 with the pointer NULL although
the word 171 has been copied into the caller's buffer at 8192. -/
theorem read_low_mem_late_response_written :
    late_response_env.before_status 0 = [] ∧ late_response_env.before_time 0 = [] ∧
    elapsed_usec (late_response_env.system_time 0) late_response_env.start_timestamp >
      collab_example.WLAN_EXP_CPU_LOW_DATA_REQ_TIMEOUT ∧
    ipc_state_example.intc_is_started = true ∧
    ipc_state_example.mem 8192 = 0 ∧
    (wlan_mac_high_read_low_mem collab_example late_response_env 1 1 4096 8192
      ipc_state_example).map
        (fun r => (r.1, r.2.cpu_low_reg_read_buffer, r.2.mem 8192)) =
      some (-1, NULL, 171) := by
  decide

/-- C17, amended: called with the interrupt controller started, if no
IPC_MBOX_MEM_READ_WRITE message is handled before the function returns, the
clock readings before the `k`-th stay within WLAN_EXP_CPU_LOW_DATA_REQ_TIMEOUT
and the `k`-th exceeds it, then `wlan_mac_high_read_low_mem` returns -1, the
pointer `cpu_low_reg_read_buffer` is NULL on return and the memory, hence the
caller's buffer, is as it was at the call. -/
theorem read_low_mem_timeout (c : Collab) (env : PollEnv) (fuel num_words baseaddr payload : Nat)
    (s : State) (k : Nat)
    (hstarted : s.intc_is_started = true)
    (hquiet : ∀ j, j ≤ k →
      (∀ m ∈ env.before_status j, m.1.msg_id ≠ IPC_MBOX_MEM_READ_WRITE) ∧
      (∀ m ∈ env.before_time j, m.1.msg_id ≠ IPC_MBOX_MEM_READ_WRITE))
    (hreset : ∀ m ∈ env.before_reset, m.1.msg_id ≠ IPC_MBOX_MEM_READ_WRITE)
    (hbefore : ∀ j, j < k →
      elapsed_usec (env.system_time j) env.start_timestamp ≤
        c.WLAN_EXP_CPU_LOW_DATA_REQ_TIMEOUT)
    (hafter : elapsed_usec (env.system_time k) env.start_timestamp >
      c.WLAN_EXP_CPU_LOW_DATA_REQ_TIMEOUT)
    (hfuel : k < fuel) :
    ∃ s1, wlan_mac_high_read_low_mem c env fuel num_words baseaddr payload s = some (-1, s1) ∧
      s1.cpu_low_reg_read_buffer = NULL ∧ s1.mem = s.mem := by
  unfold wlan_mac_high_read_low_mem
  rw [if_pos hstarted]
  dsimp only
  have hst : CPU_LOW_REG_READ_BUFFER_STATUS_NOT_READY ≠
      CPU_LOW_REG_READ_BUFFER_STATUS_READY := by decide
  obtain ⟨s1, h1, h2, h3⟩ := read_low_mem_wait_timeout c env fuel 0
    (write_mailbox_msg
      { msg_id := IPC_MBOX_MEM_READ_WRITE, num_payload_words := 2,
        arg0 := c.IPC_REG_READ_MODE, payload := [baseaddr, num_words] }
      { s with cpu_low_reg_read_buffer := payload,
               cpu_low_reg_read_buffer_status := CPU_LOW_REG_READ_BUFFER_STATUS_NOT_READY })
    k (Nat.zero_le _)
    (by omega) (fun j _ hjk => hquiet j hjk) hreset (fun j _ hjk => hbefore j hjk) hafter hst
  exact ⟨s1, h1, h2, h3⟩

/-- C17, amended, at a concrete input: the mailbox stays silent, the sixth clock
reading is the first past the timeout of 500000 microseconds. -/
theorem read_low_mem_timeout_witness :
    ∃ s1, wlan_mac_high_read_low_mem collab_example poll_env_example 10 1 4096 8192
        ipc_state_example = some (-1, s1) ∧
      s1.cpu_low_reg_read_buffer = NULL ∧ s1.mem = ipc_state_example.mem :=
  read_low_mem_timeout collab_example poll_env_example 10 1 4096 8192 ipc_state_example 5
    (by decide)
    (fun j _ => ⟨fun m hm => by simp [poll_env_example] at hm,
                 fun m hm => by simp [poll_env_example] at hm⟩)
    (fun m hm => by simp [poll_env_example] at hm)
    (by decide) (by decide) (by decide)

/-! ### Writes and lock ownership -/

theorem Ext.steps {P : Event → Bool} {s0 s1 : State} (h : Ext P s0 s1) {s2 : State}
    {evs : List Event} (ht : s2.trace = s1.trace ++ evs) (he : ∀ e ∈ evs, P e = true) :
    Ext P s0 s2 := by
  obtain ⟨evs0, h1, h2⟩ := h
  refine ⟨evs0 ++ evs, by rw [ht, h1, List.append_assoc], ?_⟩
  intro e' he'
  rcases List.mem_append.mp he' with h' | h'
  · exact h2 e' h'
  · exact he e' h'

theorem Ext.step {P : Event → Bool} {s0 s1 : State} (h : Ext P s0 s1) {s2 : State}
    {e : Event} (ht : s2.trace = s1.trace ++ [e]) (he : P e = true) : Ext P s0 s2 :=
  h.steps ht (fun e' he' => by rw [List.mem_singleton.mp he']; exact he)

theorem Ext.log_cond {P : Event → Bool} {s0 s1 : State} (h : Ext P s0 s1) (b : Bool)
    (e : Event) (he : P e = true) : Ext P s0 (WlanMacHigh.log_if b e s1) := by
  unfold WlanMacHigh.log_if
  split
  · exact h.log e he
  · exact h

theorem Ext.set_tx_state {P : Event → Bool} {s0 s1 : State} (h : Ext P s0 s1) (i : Nat)
    (v : tx_pkt_buf_state_t) (he : P (Event.tx_write i (s1.tx_pkt_buf_mutex i)) = true) :
    Ext P s0 (set_tx_pkt_buf_state i v s1) :=
  h.tx_write i _ he

theorem Ext.set_rx_state {P : Event → Bool} {s0 s1 : State} (h : Ext P s0 s1) (i : Nat)
    (v : rx_pkt_buf_state_t) (he : P (Event.rx_write i (s1.rx_pkt_buf_mutex i)) = true) :
    Ext P s0 (set_rx_pkt_buf_state i v s1) :=
  h.step (set_rx_state_trace i v s1) he

theorem Ext.events_since {P : Event → Bool} {s0 s1 : State} (h : Ext P s0 s1) :
    ∀ e ∈ s1.events_since s0, P e = true := by
  obtain ⟨evs, h1, h2⟩ := h
  rw [events_since_append s0 s1 evs h1]
  exact h2

/-- After a lock attempt that succeeded CPU High owns the mutex. -/
theorem lock_result_owner (o : Option cpu_t)
    (h : (lock_result o).1 = PKT_BUF_MUTEX_SUCCESS) : (lock_result o).2 = some CPU_HIGH := by
  rw [lock_result_of_success o ((lock_result_success_iff o).mp h)]

theorem rx_callback_events_no_write (c : Collab) (i : Nat) :
    ∀ e ∈ rx_pkt_buf_ready_callback_events c i, e.write_under_cpu_high = true := by
  rw [← List.all_eq_true]
  unfold rx_pkt_buf_ready_callback_events
  split_ifs <;> rfl

theorem tx_done_callback_events_no_write (c : Collab) (i : Nat) :
    ∀ e ∈ tx_pkt_buf_done_callback_events c i, e.write_under_cpu_high = true := by
  rw [← List.all_eq_true]
  unfold tx_pkt_buf_done_callback_events
  split_ifs <;> rfl

theorem booted_events_no_write (c : Collab) (payload : List Nat) (s : State) :
    ∀ e ∈ booted_events c payload s, e.write_under_cpu_high = true := by
  have h1 : ∀ v, (repush_channel_events c v).all Event.write_under_cpu_high = true := by
    intro v; unfold repush_channel_events; split_ifs <;> rfl
  have h2 : ∀ v, (repush_dsss_events c v).all Event.write_under_cpu_high = true := by
    intro v; unfold repush_dsss_events; split_ifs <;> rfl
  have h3 : ∀ v, (repush_rx_ant_mode_events c v).all Event.write_under_cpu_high = true := by
    intro v; unfold repush_rx_ant_mode_events; split_ifs <;> rfl
  have h4 : ∀ v, (repush_tx_ctrl_pow_events c v).all Event.write_under_cpu_high = true := by
    intro v; unfold repush_tx_ctrl_pow_events; split_ifs <;> rfl
  have h5 : ∀ v, (repush_radio_tx_pow_events c v).all Event.write_under_cpu_high = true := by
    intro v; unfold repush_radio_tx_pow_events; split_ifs <;> rfl
  have h6 : ∀ v, (repush_rx_filter_events c v).all Event.write_under_cpu_high = true := by
    intro v; unfold repush_rx_filter_events; split_ifs <;> rfl
  have h7 : ∀ v, (repush_random_seed_events c v).all Event.write_under_cpu_high = true := by
    intro v; unfold repush_random_seed_events; split_ifs <;> rfl
  rw [← List.all_eq_true]
  unfold booted_events
  simp only [List.all_append, Bool.and_eq_true, h1, h2, h3, h4, h5, h6, h7, and_true,
    true_and]
  exact ⟨rfl, rfl⟩

theorem Ext.rx_unlock_report {s0 s1 : State} (h : Ext Event.write_under_cpu_high s0 s1)
    (i : Nat) : Ext Event.write_under_cpu_high s0 (rx_pkt_buf_unlock_report i s1) := by
  unfold rx_pkt_buf_unlock_report
  dsimp only
  split
  · exact (h.step (unlock_rx_trace i s1) rfl).log _ rfl
  · exact h.step (unlock_rx_trace i s1) rfl

/-- The beacon-done handler writes the header of the beacon slot only after its
lock attempt succeeded. -/
theorem process_tx_beacon_done_writes (c : Collab) (msg : wlan_ipc_msg_t) (s : State) :
    Ext Event.write_under_cpu_high s (process_tx_beacon_done c msg s) := by
  unfold process_tx_beacon_done
  dsimp only
  split
  · split
    · exact ((Ext.refl _ s).step (lock_tx_trace _ _) rfl).log _ rfl
    · rename_i hl
      have hown : (lock_result (s.tx_pkt_buf_mutex msg.arg0)).2 = some CPU_HIGH :=
        lock_result_owner _ (not_not.mp hl)
      have e1 : Ext Event.write_under_cpu_high s (lock_tx_pkt_buf msg.arg0 s).2 :=
        (Ext.refl _ s).step (lock_tx_trace _ _) rfl
      have e2 := e1.set_tx_state msg.arg0 TX_PKT_BUF_HIGH_CTRL
        (by simp [Event.write_under_cpu_high, hown])
      have e3 := e2.log (Event.callback callback_t.station_info_posttx_process msg.arg0) rfl
      have e4 := e3.log_cond c.WLAN_SW_CONFIG_ENABLE_LOGGING
        (Event.callback callback_t.wlan_exp_log_create_tx_low_entry msg.arg0) rfl
      have e5 := e4.log (Event.callback callback_t.beacon_tx_done_callback msg.arg0) rfl
      have e6 := e5.log (Event.callback callback_t.station_info_create 0) rfl
      have e7 := e6.tx_write msg.arg0 (fun f => { f with params := c.bcast_tx_params_mgmt })
        (by simp [Event.write_under_cpu_high, hown])
      have e8 := e7.set_tx_state msg.arg0 TX_PKT_BUF_READY
        (by simp [Event.write_under_cpu_high, hown])
      split
      · exact (e8.step (unlock_tx_trace _ _) rfl).log _ rfl
      · exact e8.step (unlock_tx_trace _ _) rfl
  · exact (Ext.refl _ s).log _ rfl

/-- The Rx handler writes the header of its slot under the lock of CPU High,
given that CPU High owns the lock whenever the tag is HIGH_CTRL or unknown. -/
theorem process_rx_pkt_buf_ready_writes (c : Collab) (msg : wlan_ipc_msg_t) (s : State)
    (h : msg.arg0 < NUM_RX_PKT_BUFS →
      (s.rx_pkt_buf msg.arg0).rx_pkt_buf_state = RX_PKT_BUF_HIGH_CTRL ∨
        (s.rx_pkt_buf msg.arg0).rx_pkt_buf_state.is_enum_member = false →
      s.rx_pkt_buf_mutex msg.arg0 = some CPU_HIGH) :
    Ext Event.write_under_cpu_high s (process_rx_pkt_buf_ready c msg s) := by
  unfold process_rx_pkt_buf_ready
  dsimp only
  split
  · rename_i hi
    split
    · split
      · exact ((Ext.refl _ s).step (lock_rx_trace _ _) rfl).log _ rfl
      · rename_i hl
        have hown : (lock_result (s.rx_pkt_buf_mutex msg.arg0)).2 = some CPU_HIGH :=
          lock_result_owner _ (not_not.mp hl)
        have e1 : Ext Event.write_under_cpu_high s (lock_rx_pkt_buf msg.arg0 s).2 :=
          (Ext.refl _ s).step (lock_rx_trace _ _) rfl
        have e2 := e1.set_rx_state msg.arg0 RX_PKT_BUF_HIGH_CTRL
          (by simp [Event.write_under_cpu_high, hown])
        have e3 : Ext Event.write_under_cpu_high s
            (rx_pkt_buf_ready_callbacks c msg.arg0
              (set_rx_pkt_buf_state msg.arg0 RX_PKT_BUF_HIGH_CTRL
                (lock_rx_pkt_buf msg.arg0 s).2)) :=
          e2.steps (rx_callbacks_trace c msg.arg0 _) (rx_callback_events_no_write c msg.arg0)
        have e4 := e3.set_rx_state msg.arg0 RX_PKT_BUF_LOW_CTRL
          (by simp [Event.write_under_cpu_high, hown])
        split
        · exact (e4.step (unlock_rx_trace _ _) rfl).log _ rfl
        · exact e4.step (unlock_rx_trace _ _) rfl
    · rename_i htag
      exact ((Ext.refl _ s).set_rx_state msg.arg0 RX_PKT_BUF_LOW_CTRL
        (by simp [Event.write_under_cpu_high, h hi (Or.inl htag)])).rx_unlock_report _
    · rename_i raw htag
      exact ((Ext.refl _ s).set_rx_state msg.arg0 RX_PKT_BUF_LOW_CTRL
        (by simp [Event.write_under_cpu_high,
          h hi (Or.inr (by rw [htag]; rfl))])).rx_unlock_report _
    · exact (Ext.refl _ s).rx_unlock_report _
    · exact (Ext.refl _ s).rx_unlock_report _
  · exact (Ext.refl _ s).log _ rfl

theorem process_phy_tx_report_writes (c : Collab) (msg : wlan_ipc_msg_t) (s : State) :
    Ext Event.write_under_cpu_high s (process_phy_tx_report c msg s) := by
  unfold process_phy_tx_report
  dsimp only
  split
  · exact ((((Ext.refl _ s).log_cond _ _ rfl).log _ rfl).log _ rfl)
  · exact Ext.refl _ s

/-- The Tx-done handler writes the header of its slot under the lock of CPU
High, given that CPU Low does not hold the lock of a slot tagged DONE. -/
theorem process_tx_pkt_buf_done_writes (c : Collab) (msg : wlan_ipc_msg_t) (s : State)
    (h : msg.arg0 < NUM_TX_PKT_BUFS →
      (s.tx_pkt_buf msg.arg0).tx_pkt_buf_state = TX_PKT_BUF_DONE →
      s.tx_pkt_buf_mutex msg.arg0 ≠ some CPU_LOW) :
    Ext Event.write_under_cpu_high s (process_tx_pkt_buf_done c msg s) := by
  unfold process_tx_pkt_buf_done
  dsimp only
  split
  · rename_i hi
    split
    · rename_i htag
      have hok : (lock_result (s.tx_pkt_buf_mutex msg.arg0)).1 = PKT_BUF_MUTEX_SUCCESS :=
        (lock_result_success_iff _).mpr (h hi htag)
      have hown := lock_result_owner _ hok
      split
      · rename_i hl
        exact absurd hok hl
      · have e1 : Ext Event.write_under_cpu_high s (lock_tx_pkt_buf msg.arg0 s).2 :=
          (Ext.refl _ s).step (lock_tx_trace _ _) rfl
        have e2 : Ext Event.write_under_cpu_high s
            (tx_pkt_buf_done_callbacks c msg.arg0 (lock_tx_pkt_buf msg.arg0 s).2) :=
          e1.steps (tx_done_callbacks_trace c msg.arg0 _)
            (tx_done_callback_events_no_write c msg.arg0)
        exact e2.set_tx_state msg.arg0 TX_PKT_BUF_HIGH_CTRL
          (by simp [Event.write_under_cpu_high, hown])
    · have e1 : Ext Event.write_under_cpu_high s (force_lock_tx_pkt_buf msg.arg0 s) :=
        (Ext.refl _ s).step (force_lock_tx_trace _ _) rfl
      have e2 := e1.set_tx_state msg.arg0 TX_PKT_BUF_HIGH_CTRL
        (by simp [Event.write_under_cpu_high])
      exact e2.step (unlock_tx_trace _ _) rfl
    · have e1 : Ext Event.write_under_cpu_high s (force_lock_tx_pkt_buf msg.arg0 s) :=
        (Ext.refl _ s).step (force_lock_tx_trace _ _) rfl
      have e2 := e1.set_tx_state msg.arg0 TX_PKT_BUF_HIGH_CTRL
        (by simp [Event.write_under_cpu_high])
      exact e2.step (unlock_tx_trace _ _) rfl
    · exact (Ext.refl _ s).step (unlock_tx_trace _ _) rfl
    · exact (Ext.refl _ s).step (unlock_tx_trace _ _) rfl
    · exact Ext.refl _ s
  · exact (Ext.refl _ s).log _ rfl

theorem process_cpu_status_writes (c : Collab) (msg : wlan_ipc_msg_t) (payload : List Nat)
    (s : State) : Ext Event.write_under_cpu_high s (process_cpu_status c msg payload s) := by
  have e0 : Ext Event.write_under_cpu_high s
      { s with cpu_low_status := payload.getD 0 0 } :=
    ⟨[], by simp, by simp⟩
  unfold process_cpu_status
  dsimp only
  split
  · exact ((e0.log (Event.print 1433) rfl).log (Event.print 1434) rfl).log
      (Event.callback callback_t.wlan_platform_high_userio_disp_status 0) rfl
  · rw [process_cpu_status_booted_eq]
    exact e0.steps rfl (booted_events_no_write c payload _)
  · exact e0.log_cond _ _ rfl
  · exact e0

theorem process_mem_read_write_writes (c : Collab) (msg : wlan_ipc_msg_t) (payload : List Nat)
    (s : State) : Ext Event.write_under_cpu_high s (process_mem_read_write c msg payload s) := by
  unfold process_mem_read_write
  dsimp only
  split
  · exact (Ext.refl _ s).step (e := Event.memcpy s.cpu_low_reg_read_buffer
      c.ipc_msg_from_low_payload_addr (msg.num_payload_words * 4)) rfl rfl
  · exact (Ext.refl _ s).log _ rfl

/-- Every event of the message handler is a write under the lock of CPU High
or no write at all, given the two side conditions on the named slot. -/
theorem process_ipc_msg_writes (c : Collab) (msg : wlan_ipc_msg_t) (payload : List Nat)
    (s : State)
    (hrx : msg.msg_id = IPC_MBOX_RX_PKT_BUF_READY → msg.arg0 < NUM_RX_PKT_BUFS →
      (s.rx_pkt_buf msg.arg0).rx_pkt_buf_state = RX_PKT_BUF_HIGH_CTRL ∨
        (s.rx_pkt_buf msg.arg0).rx_pkt_buf_state.is_enum_member = false →
      s.rx_pkt_buf_mutex msg.arg0 = some CPU_HIGH)
    (htx : msg.msg_id = IPC_MBOX_TX_PKT_BUF_DONE → msg.arg0 < NUM_TX_PKT_BUFS →
      (s.tx_pkt_buf msg.arg0).tx_pkt_buf_state = TX_PKT_BUF_DONE →
      s.tx_pkt_buf_mutex msg.arg0 ≠ some CPU_LOW) :
    Ext Event.write_under_cpu_high s (wlan_mac_high_process_ipc_msg c msg payload s) := by
  unfold wlan_mac_high_process_ipc_msg
  split
  · exact process_tx_beacon_done_writes c msg s
  · rename_i hid
    exact process_rx_pkt_buf_ready_writes c msg s (hrx hid)
  · exact process_phy_tx_report_writes c msg s
  · rename_i hid
    exact process_tx_pkt_buf_done_writes c msg s (htx hid)
  · exact process_cpu_status_writes c msg payload s
  · exact process_mem_read_write_writes c msg payload s
  · exact (Ext.refl _ s).log _ rfl
  · exact (Ext.refl _ s).log _ rfl

theorem rx_unlock_report_trace (i : Nat) (s : State) :
    ∃ evs, (rx_pkt_buf_unlock_report i s).trace = s.trace ++ evs := by
  unfold rx_pkt_buf_unlock_report
  dsimp only
  split
  · exact ⟨[Event.unlock_rx_pkt_buf i (unlock_result (s.rx_pkt_buf_mutex i)).1,
      Event.print 1331], by simp⟩
  · exact ⟨[Event.unlock_rx_pkt_buf i (unlock_result (s.rx_pkt_buf_mutex i)).1], by simp⟩

/-- An Rx message for a slot tagged HIGH_CTRL or with an unknown tag makes the
handler write the tag with whatever owner the mutex has. -/
theorem rx_stale_write_event (c : Collab) (msg : wlan_ipc_msg_t) (payload : List Nat)
    (s : State) (hid : msg.msg_id = IPC_MBOX_RX_PKT_BUF_READY)
    (hi : msg.arg0 < NUM_RX_PKT_BUFS)
    (htag : (s.rx_pkt_buf msg.arg0).rx_pkt_buf_state = RX_PKT_BUF_HIGH_CTRL ∨
      (s.rx_pkt_buf msg.arg0).rx_pkt_buf_state.is_enum_member = false) :
    Event.rx_write msg.arg0 (s.rx_pkt_buf_mutex msg.arg0) ∈
      (wlan_mac_high_process_ipc_msg c msg payload s).events_since s := by
  have hres : wlan_mac_high_process_ipc_msg c msg payload s =
      rx_pkt_buf_unlock_report msg.arg0
        (set_rx_pkt_buf_state msg.arg0 RX_PKT_BUF_LOW_CTRL s) := by
    unfold wlan_mac_high_process_ipc_msg
    simp only [hid]
    unfold process_rx_pkt_buf_ready
    dsimp only
    rw [if_pos hi]
    split
    · rename_i ht
      rw [ht] at htag
      rcases htag with h | h
      · cases h
      · simp [rx_pkt_buf_state_t.is_enum_member] at h
    · rfl
    · rfl
    · rename_i ht
      rw [ht] at htag
      rcases htag with h | h
      · cases h
      · simp [rx_pkt_buf_state_t.is_enum_member] at h
    · rename_i ht
      rw [ht] at htag
      rcases htag with h | h
      · cases h
      · simp [rx_pkt_buf_state_t.is_enum_member] at h
  rw [hres]
  obtain ⟨evs, hevs⟩ := rx_unlock_report_trace msg.arg0
    (set_rx_pkt_buf_state msg.arg0 RX_PKT_BUF_LOW_CTRL s)
  rw [events_since_append s _
    ([Event.rx_write msg.arg0 (s.rx_pkt_buf_mutex msg.arg0)] ++ evs)
    (by rw [hevs, set_rx_state_trace, List.append_assoc])]
  simp

/-- A DONE message for a slot tagged DONE that CPU Low still holds: the lock
fails, the handler prints and writes the tag all the same. -/
theorem tx_done_lock_fail_events (c : Collab) (msg : wlan_ipc_msg_t) (payload : List Nat)
    (s : State) (hid : msg.msg_id = IPC_MBOX_TX_PKT_BUF_DONE)
    (hi : msg.arg0 < NUM_TX_PKT_BUFS)
    (htag : (s.tx_pkt_buf msg.arg0).tx_pkt_buf_state = TX_PKT_BUF_DONE)
    (hl : s.tx_pkt_buf_mutex msg.arg0 = some CPU_LOW) :
    (wlan_mac_high_process_ipc_msg c msg payload s).events_since s =
      [Event.lock_tx_pkt_buf msg.arg0 PKT_BUF_MUTEX_FAIL_ALREADY_LOCKED, Event.print 1377,
       Event.tx_write msg.arg0 (some CPU_LOW)] := by
  apply events_since_append
  unfold wlan_mac_high_process_ipc_msg
  simp only [hid]
  unfold process_tx_pkt_buf_done
  simp only [hi, if_true, htag]
  simp [lock_result_of_fail _ hl]

/-- The handoff writes the READY tag with whatever owner the mutex has at the
call. -/
theorem mpdu_transmit_ready_write_event (x : Extern) (p : tx_queue_buffer_t) (i : Nat)
    (s : State) :
    Event.tx_write i (s.tx_pkt_buf_mutex i) ∈
      (wlan_mac_high_mpdu_transmit x p i s).events_since s := by
  by_cases h : s.tx_pkt_buf_mutex i = some CPU_LOW
  · obtain ⟨evs, _, h2⟩ := mpdu_transmit_events_since x p i s _ (mpdu_transmit_fail x p i s h).1
    rw [h2, h]
    simp
  · obtain ⟨evs, _, h2⟩ := mpdu_transmit_events_since x p i s _ (mpdu_transmit_ok x p i s h).1
    rw [h2]
    simp

theorem fill_event_write_under_cpu_high (i : Nat) (e : Event)
    (h : fill_event i (some CPU_HIGH) e = true) : e.write_under_cpu_high = true := by
  cases e <;> simp_all [fill_event, Event.write_under_cpu_high]

/-! ### The slot the handler writes -/

theorem rx_callback_events_no_named (msg : wlan_ipc_msg_t) (c : Collab) (i : Nat) :
    ∀ e ∈ rx_pkt_buf_ready_callback_events c i, e.no_write_but_named_slot msg = true := by
  rw [← List.all_eq_true]
  unfold rx_pkt_buf_ready_callback_events
  split_ifs <;> rfl

theorem tx_done_callback_events_no_named (msg : wlan_ipc_msg_t) (c : Collab) (i : Nat) :
    ∀ e ∈ tx_pkt_buf_done_callback_events c i, e.no_write_but_named_slot msg = true := by
  rw [← List.all_eq_true]
  unfold tx_pkt_buf_done_callback_events
  split_ifs <;> rfl

theorem booted_events_no_named (msg : wlan_ipc_msg_t) (c : Collab) (payload : List Nat)
    (s : State) : ∀ e ∈ booted_events c payload s, e.no_write_but_named_slot msg = true := by
  have h1 : ∀ v, (repush_channel_events c v).all (Event.no_write_but_named_slot msg) =
      true := by
    intro v; unfold repush_channel_events; split_ifs <;> rfl
  have h2 : ∀ v, (repush_dsss_events c v).all (Event.no_write_but_named_slot msg) = true := by
    intro v; unfold repush_dsss_events; split_ifs <;> rfl
  have h3 : ∀ v, (repush_rx_ant_mode_events c v).all (Event.no_write_but_named_slot msg) =
      true := by
    intro v; unfold repush_rx_ant_mode_events; split_ifs <;> rfl
  have h4 : ∀ v, (repush_tx_ctrl_pow_events c v).all (Event.no_write_but_named_slot msg) =
      true := by
    intro v; unfold repush_tx_ctrl_pow_events; split_ifs <;> rfl
  have h5 : ∀ v, (repush_radio_tx_pow_events c v).all (Event.no_write_but_named_slot msg) =
      true := by
    intro v; unfold repush_radio_tx_pow_events; split_ifs <;> rfl
  have h6 : ∀ v, (repush_rx_filter_events c v).all (Event.no_write_but_named_slot msg) =
      true := by
    intro v; unfold repush_rx_filter_events; split_ifs <;> rfl
  have h7 : ∀ v, (repush_random_seed_events c v).all (Event.no_write_but_named_slot msg) =
      true := by
    intro v; unfold repush_random_seed_events; split_ifs <;> rfl
  rw [← List.all_eq_true]
  unfold booted_events
  simp only [List.all_append, Bool.and_eq_true, h1, h2, h3, h4, h5, h6, h7, and_true,
    true_and]
  exact ⟨rfl, rfl⟩

theorem Ext.rx_unlock_report_named {msg : wlan_ipc_msg_t} {s0 s1 : State}
    (h : Ext (Event.no_write_but_named_slot msg) s0 s1) (i : Nat) :
    Ext (Event.no_write_but_named_slot msg) s0 (rx_pkt_buf_unlock_report i s1) := by
  unfold rx_pkt_buf_unlock_report
  dsimp only
  split
  · exact (h.step (unlock_rx_trace i s1) rfl).log _ rfl
  · exact h.step (unlock_rx_trace i s1) rfl

theorem process_tx_beacon_done_named (c : Collab) (msg : wlan_ipc_msg_t) (s : State)
    (hid : msg.msg_id = IPC_MBOX_TX_BEACON_DONE) :
    Ext (Event.no_write_but_named_slot msg) s (process_tx_beacon_done c msg s) := by
  have hw : ∀ o, Event.no_write_but_named_slot msg (Event.tx_write msg.arg0 o) = true := by
    intro o
    simp [Event.no_write_but_named_slot, Event.is_write_to_named_slot, hid]
  unfold process_tx_beacon_done
  dsimp only
  split
  · split
    · exact ((Ext.refl _ s).step (lock_tx_trace _ _) rfl).log _ rfl
    · have e1 : Ext (Event.no_write_but_named_slot msg) s (lock_tx_pkt_buf msg.arg0 s).2 :=
        (Ext.refl _ s).step (lock_tx_trace _ _) rfl
      have e2 := e1.set_tx_state msg.arg0 TX_PKT_BUF_HIGH_CTRL (hw _)
      have e3 := e2.log (Event.callback callback_t.station_info_posttx_process msg.arg0) rfl
      have e4 := e3.log_cond c.WLAN_SW_CONFIG_ENABLE_LOGGING
        (Event.callback callback_t.wlan_exp_log_create_tx_low_entry msg.arg0) rfl
      have e5 := e4.log (Event.callback callback_t.beacon_tx_done_callback msg.arg0) rfl
      have e6 := e5.log (Event.callback callback_t.station_info_create 0) rfl
      have e7 := e6.tx_write msg.arg0 (fun f => { f with params := c.bcast_tx_params_mgmt })
        (hw _)
      have e8 := e7.set_tx_state msg.arg0 TX_PKT_BUF_READY (hw _)
      split
      · exact (e8.step (unlock_tx_trace _ _) rfl).log _ rfl
      · exact e8.step (unlock_tx_trace _ _) rfl
  · exact (Ext.refl _ s).log _ rfl

theorem process_rx_pkt_buf_ready_named (c : Collab) (msg : wlan_ipc_msg_t) (s : State)
    (hid : msg.msg_id = IPC_MBOX_RX_PKT_BUF_READY) :
    Ext (Event.no_write_but_named_slot msg) s (process_rx_pkt_buf_ready c msg s) := by
  have hw : ∀ o, Event.no_write_but_named_slot msg (Event.rx_write msg.arg0 o) = true := by
    intro o
    simp [Event.no_write_but_named_slot, Event.is_write_to_named_slot, hid]
  unfold process_rx_pkt_buf_ready
  dsimp only
  split
  · split
    · split
      · exact ((Ext.refl _ s).step (lock_rx_trace _ _) rfl).log _ rfl
      · have e1 : Ext (Event.no_write_but_named_slot msg) s (lock_rx_pkt_buf msg.arg0 s).2 :=
          (Ext.refl _ s).step (lock_rx_trace _ _) rfl
        have e2 := e1.set_rx_state msg.arg0 RX_PKT_BUF_HIGH_CTRL (hw _)
        have e3 : Ext (Event.no_write_but_named_slot msg) s
            (rx_pkt_buf_ready_callbacks c msg.arg0
              (set_rx_pkt_buf_state msg.arg0 RX_PKT_BUF_HIGH_CTRL
                (lock_rx_pkt_buf msg.arg0 s).2)) :=
          e2.steps (rx_callbacks_trace c msg.arg0 _)
            (rx_callback_events_no_named msg c msg.arg0)
        have e4 := e3.set_rx_state msg.arg0 RX_PKT_BUF_LOW_CTRL (hw _)
        split
        · exact (e4.step (unlock_rx_trace _ _) rfl).log _ rfl
        · exact e4.step (unlock_rx_trace _ _) rfl
    · exact ((Ext.refl _ s).set_rx_state msg.arg0 RX_PKT_BUF_LOW_CTRL
        (hw _)).rx_unlock_report_named _
    · exact ((Ext.refl _ s).set_rx_state msg.arg0 RX_PKT_BUF_LOW_CTRL
        (hw _)).rx_unlock_report_named _
    · exact (Ext.refl _ s).rx_unlock_report_named _
    · exact (Ext.refl _ s).rx_unlock_report_named _
  · exact (Ext.refl _ s).log _ rfl

theorem process_phy_tx_report_named (c : Collab) (msg : wlan_ipc_msg_t) (s : State) :
    Ext (Event.no_write_but_named_slot msg) s (process_phy_tx_report c msg s) := by
  unfold process_phy_tx_report
  dsimp only
  split
  · exact ((((Ext.refl _ s).log_cond _ _ rfl).log _ rfl).log _ rfl)
  · exact Ext.refl _ s

theorem process_tx_pkt_buf_done_named (c : Collab) (msg : wlan_ipc_msg_t) (s : State)
    (hid : msg.msg_id = IPC_MBOX_TX_PKT_BUF_DONE) :
    Ext (Event.no_write_but_named_slot msg) s (process_tx_pkt_buf_done c msg s) := by
  have hw : ∀ o, Event.no_write_but_named_slot msg (Event.tx_write msg.arg0 o) = true := by
    intro o
    simp [Event.no_write_but_named_slot, Event.is_write_to_named_slot, hid]
  unfold process_tx_pkt_buf_done
  dsimp only
  split
  · split
    · split
      · exact (((Ext.refl _ s).step (lock_tx_trace _ _) rfl).log _ rfl).set_tx_state
          msg.arg0 TX_PKT_BUF_HIGH_CTRL (hw _)
      · have e1 : Ext (Event.no_write_but_named_slot msg) s (lock_tx_pkt_buf msg.arg0 s).2 :=
          (Ext.refl _ s).step (lock_tx_trace _ _) rfl
        have e2 : Ext (Event.no_write_but_named_slot msg) s
            (tx_pkt_buf_done_callbacks c msg.arg0 (lock_tx_pkt_buf msg.arg0 s).2) :=
          e1.steps (tx_done_callbacks_trace c msg.arg0 _)
            (tx_done_callback_events_no_named msg c msg.arg0)
        exact e2.set_tx_state msg.arg0 TX_PKT_BUF_HIGH_CTRL (hw _)
    · have e1 : Ext (Event.no_write_but_named_slot msg) s
          (force_lock_tx_pkt_buf msg.arg0 s) :=
        (Ext.refl _ s).step (force_lock_tx_trace _ _) rfl
      have e2 := e1.set_tx_state msg.arg0 TX_PKT_BUF_HIGH_CTRL (hw _)
      exact e2.step (unlock_tx_trace _ _) rfl
    · have e1 : Ext (Event.no_write_but_named_slot msg) s
          (force_lock_tx_pkt_buf msg.arg0 s) :=
        (Ext.refl _ s).step (force_lock_tx_trace _ _) rfl
      have e2 := e1.set_tx_state msg.arg0 TX_PKT_BUF_HIGH_CTRL (hw _)
      exact e2.step (unlock_tx_trace _ _) rfl
    · exact (Ext.refl _ s).step (unlock_tx_trace _ _) rfl
    · exact (Ext.refl _ s).step (unlock_tx_trace _ _) rfl
    · exact Ext.refl _ s
  · exact (Ext.refl _ s).log _ rfl

theorem process_cpu_status_named (c : Collab) (msg : wlan_ipc_msg_t) (payload : List Nat)
    (s : State) :
    Ext (Event.no_write_but_named_slot msg) s (process_cpu_status c msg payload s) := by
  have e0 : Ext (Event.no_write_but_named_slot msg) s
      { s with cpu_low_status := payload.getD 0 0 } :=
    ⟨[], by simp, by simp⟩
  unfold process_cpu_status
  dsimp only
  split
  · exact ((e0.log (Event.print 1433) rfl).log (Event.print 1434) rfl).log
      (Event.callback callback_t.wlan_platform_high_userio_disp_status 0) rfl
  · rw [process_cpu_status_booted_eq]
    exact e0.steps rfl (booted_events_no_named msg c payload _)
  · exact e0.log_cond _ _ rfl
  · exact e0

theorem process_mem_read_write_named (c : Collab) (msg : wlan_ipc_msg_t) (payload : List Nat)
    (s : State) :
    Ext (Event.no_write_but_named_slot msg) s (process_mem_read_write c msg payload s) := by
  unfold process_mem_read_write
  dsimp only
  split
  · exact (Ext.refl _ s).step (e := Event.memcpy s.cpu_low_reg_read_buffer
      c.ipc_msg_from_low_payload_addr (msg.num_payload_words * 4)) rfl rfl
  · exact (Ext.refl _ s).log _ rfl

/-- The statements of `wlan_mac_high_process_ipc_msg` write no slot but the one
the message names: every write the handler records, for every message and every
state, is a write to that slot. -/
theorem process_ipc_msg_writes_named_slot (c : Collab) (msg : wlan_ipc_msg_t)
    (payload : List Nat) (s : State) :
    ∀ e ∈ (wlan_mac_high_process_ipc_msg c msg payload s).events_since s,
      e.no_write_but_named_slot msg = true := by
  apply Ext.events_since
  unfold wlan_mac_high_process_ipc_msg
  split
  · rename_i hid
    exact process_tx_beacon_done_named c msg s hid
  · rename_i hid
    exact process_rx_pkt_buf_ready_named c msg s hid
  · exact process_phy_tx_report_named c msg s
  · rename_i hid
    exact process_tx_pkt_buf_done_named c msg s hid
  · exact process_cpu_status_named c msg payload s
  · exact process_mem_read_write_named c msg payload s
  · exact (Ext.refl _ s).log _ rfl
  · exact (Ext.refl _ s).log _ rfl

/-- Writes made while `tx_poll_callback` runs, at a concrete station: a stale
DONE message for slot 0 leaves the slot tagged HIGH_CTRL with its mutex free;
`poll_tx_queues`, with a `transmit_checkin` that searches a slot and hands the
frame off, then fills slot 0 while nobody owns its mutex and slot 1 while CPU
High owns it. Each handoff is an execution of `wlan_mac_high_mpdu_transmit`. -/
theorem poll_handoff_on_released_slot :
    (wlan_mac_high_process_ipc_msg collab_example
      (ipc_msg_example IPC_MBOX_TX_PKT_BUF_DONE 0) [] ipc_state_example).tx_pkt_buf_mutex 0 =
      none ∧
    Event.tx_write 0 none ∈
      (poll_tx_queues sta_extern_example
        { sta_state_example 0 with
          high := wlan_mac_high_process_ipc_msg collab_example
            (ipc_msg_example IPC_MBOX_TX_PKT_BUF_DONE 0) [] ipc_state_example }).high.events_since
        (wlan_mac_high_process_ipc_msg collab_example
          (ipc_msg_example IPC_MBOX_TX_PKT_BUF_DONE 0) [] ipc_state_example) ∧
    Event.tx_write 1 (some CPU_HIGH) ∈
      (poll_tx_queues sta_extern_example
        { sta_state_example 0 with
          high := wlan_mac_high_process_ipc_msg collab_example
            (ipc_msg_example IPC_MBOX_TX_PKT_BUF_DONE 0) [] ipc_state_example }).high.events_since
        (wlan_mac_high_process_ipc_msg collab_example
          (ipc_msg_example IPC_MBOX_TX_PKT_BUF_DONE 0) [] ipc_state_example) := by
  decide

/-- C12, as the claim states it, fails: a DONE message for slot 5, tagged DONE
while CPU Low still holds its mutex, makes `wlan_mac_high_process_ipc_msg` fail
to lock the slot, print, and write the tag of the slot all the same; CPU Low
owns the mutex at that write and after it. A handoff on slot 0 while CPU Low
holds its mutex writes the header of slot 0 as well. -/
theorem tx_done_writes_tag_under_cpu_low :
    (ipc_state_example.tx_pkt_buf 5).tx_pkt_buf_state = TX_PKT_BUF_DONE ∧
    ipc_state_example.tx_pkt_buf_mutex 5 = some CPU_LOW ∧
    (wlan_mac_high_process_ipc_msg collab_example
        (ipc_msg_example IPC_MBOX_TX_PKT_BUF_DONE 5) [] ipc_state_example).events_since
        ipc_state_example =
      [Event.lock_tx_pkt_buf 5 PKT_BUF_MUTEX_FAIL_ALREADY_LOCKED, Event.print 1377,
       Event.tx_write 5 (some CPU_LOW)] ∧
    (Event.tx_write 5 (some CPU_LOW)).write_under_cpu_high = false ∧
    ((wlan_mac_high_process_ipc_msg collab_example
        (ipc_msg_example IPC_MBOX_TX_PKT_BUF_DONE 5) [] ipc_state_example).tx_pkt_buf
          5).tx_pkt_buf_state = TX_PKT_BUF_HIGH_CTRL ∧
    (wlan_mac_high_process_ipc_msg collab_example
        (ipc_msg_example IPC_MBOX_TX_PKT_BUF_DONE 5) [] ipc_state_example).tx_pkt_buf_mutex
          5 = some CPU_LOW ∧
    Event.tx_write 0 (some CPU_LOW) ∈
      (wlan_mac_high_mpdu_transmit extern_example (packet_example PKT_BUF_GROUP_GENERAL) 0
        (handoff_state_example (some CPU_LOW))).events_since
        (handoff_state_example (some CPU_LOW)) := by
  decide

/-- C12, amended: in `wlan_mac_high_mpdu_transmit` every write to a slot is made
while CPU High owns the mutex of that slot exactly when CPU High owns the mutex
of the slot it is given at the call. In `wlan_mac_high_process_ipc_msg` every
write to the slot the message names is made while CPU High owns the mutex of
that slot exactly when neither exception applies: an IPC_MBOX_RX_PKT_BUF_READY
message for a valid slot whose tag is RX_PKT_BUF_HIGH_CTRL or outside the enum
and whose mutex CPU High does not own, and an IPC_MBOX_TX_PKT_BUF_DONE message
for a valid slot tagged TX_PKT_BUF_DONE whose mutex CPU Low holds. A write to
another slot can only come from a handoff that a registered callback starts
(`tx_poll_callback` is `poll_tx_queues` in the station application); it is a
write of `wlan_mac_high_mpdu_transmit` and falls under the first part. -/
theorem slot_writes_under_lock (x : Extern) (c : Collab) :
    (∀ (packet : tx_queue_buffer_t) (i : Nat) (s : State),
      (∀ e ∈ (wlan_mac_high_mpdu_transmit x packet i s).events_since s,
          e.write_under_cpu_high = true) ↔
        s.tx_pkt_buf_mutex i = some CPU_HIGH) ∧
    (∀ (msg : wlan_ipc_msg_t) (payload : List Nat) (s : State),
      (∀ e ∈ (wlan_mac_high_process_ipc_msg c msg payload s).events_since s,
          e.is_write_to_named_slot msg = true → e.write_under_cpu_high = true) ↔
        ((msg.msg_id = IPC_MBOX_RX_PKT_BUF_READY → msg.arg0 < NUM_RX_PKT_BUFS →
            (s.rx_pkt_buf msg.arg0).rx_pkt_buf_state = RX_PKT_BUF_HIGH_CTRL ∨
              (s.rx_pkt_buf msg.arg0).rx_pkt_buf_state.is_enum_member = false →
            s.rx_pkt_buf_mutex msg.arg0 = some CPU_HIGH) ∧
         (msg.msg_id = IPC_MBOX_TX_PKT_BUF_DONE → msg.arg0 < NUM_TX_PKT_BUFS →
            (s.tx_pkt_buf msg.arg0).tx_pkt_buf_state = TX_PKT_BUF_DONE →
            s.tx_pkt_buf_mutex msg.arg0 ≠ some CPU_LOW))) := by
  refine ⟨fun packet i s => ⟨fun hall => ?_, fun hown => ?_⟩,
    fun msg payload s => ⟨fun hall => ⟨fun hid hi htag => ?_, fun hid hi htag hl => ?_⟩,
      fun hside => ?_⟩⟩
  · have := hall _ (mpdu_transmit_ready_write_event x packet i s)
    simpa [Event.write_under_cpu_high] using this
  · have hne : s.tx_pkt_buf_mutex i ≠ some CPU_LOW := by rw [hown]; decide
    obtain ⟨evs, h1, h2⟩ := mpdu_transmit_events_since x packet i s _
      (mpdu_transmit_ok x packet i s hne).1
    rw [h2, hown]
    intro e he
    rcases List.mem_append.mp he with h | h
    · rw [hown] at h1
      exact fill_event_write_under_cpu_high i e (h1 e h)
    · simp at h
      rcases h with h | h | h <;> subst h <;> rfl
  · have := hall _ (rx_stale_write_event c msg payload s hid hi htag)
      (by simp [Event.is_write_to_named_slot, hid])
    simpa [Event.write_under_cpu_high] using this
  · have h3 := tx_done_lock_fail_events c msg payload s hid hi htag hl
    have := hall (Event.tx_write msg.arg0 (some CPU_LOW)) (by rw [h3]; simp)
      (by simp [Event.is_write_to_named_slot, hid])
    simp [Event.write_under_cpu_high] at this
  · intro e he _
    exact (process_ipc_msg_writes c msg payload s hside.1 hside.2).events_since e he

/-- C12, amended, at concrete inputs: a handoff on slot 0 owned by CPU High; an
Rx message for slot 2, tagged READY and unlocked; and a DONE message for slot 4,
tagged DONE and unlocked, whose one write to slot 4 is made under the lock. -/
theorem slot_writes_under_lock_witness :
    (∀ e ∈ (wlan_mac_high_mpdu_transmit extern_example (packet_example PKT_BUF_GROUP_GENERAL) 0
        (handoff_state_example (some CPU_HIGH))).events_since
        (handoff_state_example (some CPU_HIGH)), e.write_under_cpu_high = true) ∧
    (∀ e ∈ (wlan_mac_high_process_ipc_msg collab_example
        (ipc_msg_example IPC_MBOX_RX_PKT_BUF_READY 2) [] ipc_state_example).events_since
        ipc_state_example,
      e.is_write_to_named_slot (ipc_msg_example IPC_MBOX_RX_PKT_BUF_READY 2) = true →
        e.write_under_cpu_high = true) ∧
    (∀ e ∈ (wlan_mac_high_process_ipc_msg collab_example
        (ipc_msg_example IPC_MBOX_TX_PKT_BUF_DONE 4) [] ipc_state_example).events_since
        ipc_state_example,
      e.is_write_to_named_slot (ipc_msg_example IPC_MBOX_TX_PKT_BUF_DONE 4) = true →
        e.write_under_cpu_high = true) ∧
    ((wlan_mac_high_process_ipc_msg collab_example
        (ipc_msg_example IPC_MBOX_TX_PKT_BUF_DONE 4) [] ipc_state_example).events_since
        ipc_state_example).filter
      (Event.is_write_to_named_slot (ipc_msg_example IPC_MBOX_TX_PKT_BUF_DONE 4)) =
      [Event.tx_write 4 (some CPU_HIGH)] :=
  ⟨((slot_writes_under_lock extern_example collab_example).1
      (packet_example PKT_BUF_GROUP_GENERAL) 0 (handoff_state_example (some CPU_HIGH))).mpr
      (by decide),
   ((slot_writes_under_lock extern_example collab_example).2
      (ipc_msg_example IPC_MBOX_RX_PKT_BUF_READY 2) [] ipc_state_example).mpr
      ⟨by decide, by decide⟩,
   ((slot_writes_under_lock extern_example collab_example).2
      (ipc_msg_example IPC_MBOX_TX_PKT_BUF_DONE 4) [] ipc_state_example).mpr
      ⟨by decide, by decide⟩,
   by decide⟩

/-! ### Messages that name no slot -/

/-- C30: an IPC_MBOX_RX_PKT_BUF_READY message with arg0 >= NUM_RX_PKT_BUFS, an
IPC_MBOX_TX_PKT_BUF_DONE or IPC_MBOX_PHY_TX_REPORT message with
arg0 >= NUM_TX_PKT_BUFS, and an IPC_MBOX_TX_BEACON_DONE message with
arg0 != TX_PKT_BUF_BEACON leave every Tx and Rx header (state tag included) and
every mutex owner as they were; the handler invokes no callback, all it does is
print at most one error line. -/
theorem invalid_slot_index_changes_nothing (c : Collab) (msg : wlan_ipc_msg_t)
    (payload : List Nat) (s : State)
    (h : (msg.msg_id = IPC_MBOX_RX_PKT_BUF_READY ∧ msg.arg0 ≥ NUM_RX_PKT_BUFS) ∨
         (msg.msg_id = IPC_MBOX_TX_PKT_BUF_DONE ∧ msg.arg0 ≥ NUM_TX_PKT_BUFS) ∨
         (msg.msg_id = IPC_MBOX_PHY_TX_REPORT ∧ msg.arg0 ≥ NUM_TX_PKT_BUFS) ∨
         (msg.msg_id = IPC_MBOX_TX_BEACON_DONE ∧ msg.arg0 ≠ TX_PKT_BUF_BEACON)) :
    (wlan_mac_high_process_ipc_msg c msg payload s).tx_pkt_buf = s.tx_pkt_buf ∧
    (wlan_mac_high_process_ipc_msg c msg payload s).rx_pkt_buf = s.rx_pkt_buf ∧
    (wlan_mac_high_process_ipc_msg c msg payload s).tx_pkt_buf_mutex = s.tx_pkt_buf_mutex ∧
    (wlan_mac_high_process_ipc_msg c msg payload s).rx_pkt_buf_mutex = s.rx_pkt_buf_mutex ∧
    (∀ which arg, Event.callback which arg ∉
      (wlan_mac_high_process_ipc_msg c msg payload s).events_since s) ∧
    (wlan_mac_high_process_ipc_msg c msg payload s).events_since s =
      (match msg.msg_id with
       | IPC_MBOX_RX_PKT_BUF_READY => [Event.print 1336]
       | IPC_MBOX_TX_PKT_BUF_DONE => [Event.print 1415]
       | IPC_MBOX_TX_BEACON_DONE => [Event.print 1265]
       | _ => []) := by
  have key : ∃ evs, wlan_mac_high_process_ipc_msg c msg payload s = s.append evs ∧
      (∀ which arg, Event.callback which arg ∉ evs) ∧
      evs = (match msg.msg_id with
       | IPC_MBOX_RX_PKT_BUF_READY => [Event.print 1336]
       | IPC_MBOX_TX_PKT_BUF_DONE => [Event.print 1415]
       | IPC_MBOX_TX_BEACON_DONE => [Event.print 1265]
       | _ => []) := by
    rcases h with ⟨hid, hge⟩ | ⟨hid, hge⟩ | ⟨hid, hge⟩ | ⟨hid, hne⟩
    · refine ⟨[Event.print 1336], ?_, by simp, by rw [hid]⟩
      unfold wlan_mac_high_process_ipc_msg
      simp only [hid]
      unfold process_rx_pkt_buf_ready
      simp only [not_lt.mpr hge, if_false]
      rfl
    · refine ⟨[Event.print 1415], ?_, by simp, by rw [hid]⟩
      unfold wlan_mac_high_process_ipc_msg
      simp only [hid]
      unfold process_tx_pkt_buf_done
      simp only [not_lt.mpr hge, if_false]
      rfl
    · refine ⟨[], ?_, by simp, by rw [hid]⟩
      unfold wlan_mac_high_process_ipc_msg
      simp only [hid]
      unfold process_phy_tx_report
      simp only [not_lt.mpr hge, if_false]
      exact (State.append_nil s).symm
    · refine ⟨[Event.print 1265], ?_, by simp, by rw [hid]⟩
      unfold wlan_mac_high_process_ipc_msg
      simp only [hid]
      unfold process_tx_beacon_done
      simp only [hne, if_false]
      rfl
  obtain ⟨evs, heq, hcb, hevs⟩ := key
  rw [heq]
  refine ⟨rfl, rfl, rfl, rfl, ?_, ?_⟩
  · intro which arg
    rw [events_since_append s (s.append evs) evs rfl]
    exact hcb which arg
  · rw [events_since_append s (s.append evs) evs rfl]
    exact hevs

/-- C30 at concrete messages: a DONE message for slot 16 of 16 only prints, and
a PHY_TX_REPORT for slot 200 does nothing at all. -/
theorem invalid_slot_index_changes_nothing_witness :
    (wlan_mac_high_process_ipc_msg collab_example
        (ipc_msg_example IPC_MBOX_TX_PKT_BUF_DONE 16) [] ipc_state_example).events_since
      ipc_state_example = [Event.print 1415] ∧
    (wlan_mac_high_process_ipc_msg collab_example
        (ipc_msg_example IPC_MBOX_PHY_TX_REPORT 200) [] ipc_state_example).events_since
      ipc_state_example = [] :=
  ⟨(invalid_slot_index_changes_nothing collab_example
      (ipc_msg_example IPC_MBOX_TX_PKT_BUF_DONE 16) [] ipc_state_example
      (Or.inr (Or.inl ⟨rfl, by decide⟩))).2.2.2.2.2,
   (invalid_slot_index_changes_nothing collab_example
      (ipc_msg_example IPC_MBOX_PHY_TX_REPORT 200) [] ipc_state_example
      (Or.inr (Or.inr (Or.inl ⟨rfl, by decide⟩)))).2.2.2.2.2⟩

/-! ### A DONE message whose lock attempt fails -/

/-- The DONE path when CPU Low still holds the mutex, as a composition: the
failed lock attempt, the print, the tag write. -/
theorem process_tx_pkt_buf_done_lock_fail (c : Collab) (msg : wlan_ipc_msg_t)
    (payload : List Nat) (s : State) (i : Nat)
    (hid : msg.msg_id = IPC_MBOX_TX_PKT_BUF_DONE) (harg : msg.arg0 = i)
    (hi : i < NUM_TX_PKT_BUFS)
    (htag : (s.tx_pkt_buf i).tx_pkt_buf_state = TX_PKT_BUF_DONE)
    (hl : s.tx_pkt_buf_mutex i = some CPU_LOW) :
    wlan_mac_high_process_ipc_msg c msg payload s =
      set_tx_pkt_buf_state i TX_PKT_BUF_HIGH_CTRL
        ((lock_tx_pkt_buf i s).2.log (Event.print 1377)) := by
  unfold wlan_mac_high_process_ipc_msg
  simp only [hid]
  unfold process_tx_pkt_buf_done
  simp only [harg, hi, if_true, htag]
  simp [lock_result_of_fail _ hl]

/-- C21, as the claim states it, fails: Tx slot 5 is tagged TX_PKT_BUF_DONE and
CPU Low holds its mutex; the DONE message makes the lock attempt fail, and on
return the tag of slot 5 is TX_PKT_BUF_HIGH_CTRL, not TX_PKT_BUF_DONE. -/
theorem tx_done_lock_failure_rewrites_tag :
    (ipc_state_example.tx_pkt_buf 5).tx_pkt_buf_state = TX_PKT_BUF_DONE ∧
    (lock_tx_pkt_buf 5 ipc_state_example).1 ≠ PKT_BUF_MUTEX_SUCCESS ∧
    ((wlan_mac_high_process_ipc_msg collab_example
        (ipc_msg_example IPC_MBOX_TX_PKT_BUF_DONE 5) [] ipc_state_example).tx_pkt_buf
          5).tx_pkt_buf_state = TX_PKT_BUF_HIGH_CTRL ∧
    ((wlan_mac_high_process_ipc_msg collab_example
        (ipc_msg_example IPC_MBOX_TX_PKT_BUF_DONE 5) [] ipc_state_example).tx_pkt_buf
          5).tx_pkt_buf_state ≠ TX_PKT_BUF_DONE := by
  decide

/-- C21, amended: for an IPC_MBOX_TX_PKT_BUF_DONE message naming a slot `i` below
NUM_TX_PKT_BUFS that is tagged TX_PKT_BUF_DONE and whose lock attempt fails,
`wlan_mac_high_process_ipc_msg` prints the error (line 1377), invokes no
callback and leaves every mutex owner as it was (CPU Low holds the mutex of
slot `i`), but it does write the slot: the tag of slot `i` is
TX_PKT_BUF_HIGH_CTRL on return, the rest of its header and every other header
being unchanged. -/
theorem tx_pkt_buf_done_lock_failure (c : Collab) (msg : wlan_ipc_msg_t) (payload : List Nat)
    (s : State) (i : Nat)
    (hid : msg.msg_id = IPC_MBOX_TX_PKT_BUF_DONE) (harg : msg.arg0 = i)
    (hi : i < NUM_TX_PKT_BUFS)
    (htag : (s.tx_pkt_buf i).tx_pkt_buf_state = TX_PKT_BUF_DONE)
    (hlock : (lock_tx_pkt_buf i s).1 ≠ PKT_BUF_MUTEX_SUCCESS) :
    (wlan_mac_high_process_ipc_msg c msg payload s).events_since s =
      [Event.lock_tx_pkt_buf i PKT_BUF_MUTEX_FAIL_ALREADY_LOCKED, Event.print 1377,
       Event.tx_write i (some CPU_LOW)] ∧
    (∀ which arg, Event.callback which arg ∉
      (wlan_mac_high_process_ipc_msg c msg payload s).events_since s) ∧
    s.tx_pkt_buf_mutex i = some CPU_LOW ∧
    (wlan_mac_high_process_ipc_msg c msg payload s).tx_pkt_buf_mutex = s.tx_pkt_buf_mutex ∧
    (wlan_mac_high_process_ipc_msg c msg payload s).tx_pkt_buf i =
      { s.tx_pkt_buf i with tx_pkt_buf_state := TX_PKT_BUF_HIGH_CTRL } ∧
    (∀ j, j ≠ i → (wlan_mac_high_process_ipc_msg c msg payload s).tx_pkt_buf j =
      s.tx_pkt_buf j) ∧
    (wlan_mac_high_process_ipc_msg c msg payload s).rx_pkt_buf = s.rx_pkt_buf ∧
    (wlan_mac_high_process_ipc_msg c msg payload s).rx_pkt_buf_mutex = s.rx_pkt_buf_mutex := by
  have hl : s.tx_pkt_buf_mutex i = some CPU_LOW := by
    by_contra h
    exact hlock (by simpa using (lock_result_success_iff _).mpr h)
  have hlr := lock_result_of_fail _ hl
  have heq := process_tx_pkt_buf_done_lock_fail c msg payload s i hid harg hi htag hl
  have hev := tx_done_lock_fail_events c msg payload s hid (by rw [harg]; exact hi)
    (by rw [harg]; exact htag) (by rw [harg]; exact hl)
  rw [harg] at hev
  refine ⟨hev, ?_, hl, ?_, ?_, ?_, ?_, ?_⟩
  · intro which arg
    rw [hev]
    simp
  · rw [heq]
    simp only [set_tx_state_tx_mutex, log_tx_mutex, lock_tx_tx_mutex, hlr]
    rw [← hl]
    exact Function.update_eq_self i s.tx_pkt_buf_mutex
  · rw [heq]; simp
  · intro j hj
    rw [heq]; simp [hj]
  · rw [heq]; simp
  · rw [heq]; simp

/-- C21, amended, at a concrete pool: Tx slot 5 is DONE and CPU Low holds its
mutex; the message prints, leaves the owner alone and sets the tag HIGH_CTRL. -/
theorem tx_pkt_buf_done_lock_failure_witness :
    (5 < NUM_TX_PKT_BUFS ∧
      (ipc_state_example.tx_pkt_buf 5).tx_pkt_buf_state = TX_PKT_BUF_DONE ∧
      (lock_tx_pkt_buf 5 ipc_state_example).1 ≠ PKT_BUF_MUTEX_SUCCESS) ∧
    (wlan_mac_high_process_ipc_msg collab_example
        (ipc_msg_example IPC_MBOX_TX_PKT_BUF_DONE 5) [] ipc_state_example).events_since
      ipc_state_example =
      [Event.lock_tx_pkt_buf 5 PKT_BUF_MUTEX_FAIL_ALREADY_LOCKED, Event.print 1377,
       Event.tx_write 5 (some CPU_LOW)] :=
  ⟨⟨by decide, by decide, by decide⟩,
    (tx_pkt_buf_done_lock_failure collab_example (ipc_msg_example IPC_MBOX_TX_PKT_BUF_DONE 5)
      [] ipc_state_example 5 rfl rfl (by decide) (by decide) (by decide)).1⟩

/-! ### A DONE message for a slot CPU High already controls -/

/-- The stale DONE path as a composition: force-lock, tag HIGH_CTRL, and the
release of the case it falls through into. -/
theorem process_tx_pkt_buf_done_stale (c : Collab) (msg : wlan_ipc_msg_t)
    (payload : List Nat) (s : State) (i : Nat)
    (hid : msg.msg_id = IPC_MBOX_TX_PKT_BUF_DONE) (harg : msg.arg0 = i)
    (hi : i < NUM_TX_PKT_BUFS)
    (htag : (s.tx_pkt_buf i).tx_pkt_buf_state = TX_PKT_BUF_UNINITIALIZED ∨
      (s.tx_pkt_buf i).tx_pkt_buf_state = TX_PKT_BUF_HIGH_CTRL) :
    wlan_mac_high_process_ipc_msg c msg payload s =
      (unlock_tx_pkt_buf i (set_tx_pkt_buf_state i TX_PKT_BUF_HIGH_CTRL
        (force_lock_tx_pkt_buf i s))).2 := by
  unfold wlan_mac_high_process_ipc_msg
  simp only [hid]
  unfold process_tx_pkt_buf_done
  simp only [harg, hi, if_true]
  rcases htag with h | h <;> simp only [h]

/-- What the stale DONE path leaves: its three events, the tag HIGH_CTRL, and a
free mutex. -/
theorem process_tx_pkt_buf_done_stale_result (c : Collab) (msg : wlan_ipc_msg_t)
    (payload : List Nat) (s : State) (i : Nat)
    (hid : msg.msg_id = IPC_MBOX_TX_PKT_BUF_DONE) (harg : msg.arg0 = i)
    (hi : i < NUM_TX_PKT_BUFS)
    (htag : (s.tx_pkt_buf i).tx_pkt_buf_state = TX_PKT_BUF_UNINITIALIZED ∨
      (s.tx_pkt_buf i).tx_pkt_buf_state = TX_PKT_BUF_HIGH_CTRL) :
    (wlan_mac_high_process_ipc_msg c msg payload s).events_since s =
      [Event.force_lock_tx_pkt_buf i, Event.tx_write i (some CPU_HIGH),
       Event.unlock_tx_pkt_buf i PKT_BUF_MUTEX_SUCCESS] ∧
    ((wlan_mac_high_process_ipc_msg c msg payload s).tx_pkt_buf i).tx_pkt_buf_state =
      TX_PKT_BUF_HIGH_CTRL ∧
    (wlan_mac_high_process_ipc_msg c msg payload s).tx_pkt_buf_mutex i = none := by
  have heq := process_tx_pkt_buf_done_stale c msg payload s i hid harg hi htag
  rw [heq]
  refine ⟨?_, by simp, by simp [unlock_result]⟩
  apply events_since_append
  simp [unlock_result, List.append_assoc]

/-- C25, the code at the failing input: Tx slot 0 is tagged TX_PKT_BUF_HIGH_CTRL
and CPU High holds its mutex; after the DONE message for slot 0 the tag is
TX_PKT_BUF_HIGH_CTRL, but the force-lock has been followed by the release of the
next case, and nobody holds the mutex. -/
theorem tx_done_stale_releases_lock :
    ((handoff_state_example (some CPU_HIGH)).tx_pkt_buf 0).tx_pkt_buf_state =
      TX_PKT_BUF_HIGH_CTRL ∧
    (handoff_state_example (some CPU_HIGH)).tx_pkt_buf_mutex 0 = some CPU_HIGH ∧
    (wlan_mac_high_process_ipc_msg collab_example
        (ipc_msg_example IPC_MBOX_TX_PKT_BUF_DONE 0) []
        (handoff_state_example (some CPU_HIGH))).events_since
      (handoff_state_example (some CPU_HIGH)) =
      [Event.force_lock_tx_pkt_buf 0, Event.tx_write 0 (some CPU_HIGH),
       Event.unlock_tx_pkt_buf 0 PKT_BUF_MUTEX_SUCCESS] ∧
    ((wlan_mac_high_process_ipc_msg collab_example
        (ipc_msg_example IPC_MBOX_TX_PKT_BUF_DONE 0) []
        (handoff_state_example (some CPU_HIGH))).tx_pkt_buf 0).tx_pkt_buf_state =
      TX_PKT_BUF_HIGH_CTRL ∧
    (wlan_mac_high_process_ipc_msg collab_example
        (ipc_msg_example IPC_MBOX_TX_PKT_BUF_DONE 0) []
        (handoff_state_example (some CPU_HIGH))).tx_pkt_buf_mutex 0 = none := by
  decide

/-- C23: for every general Tx slot `i` tagged TX_PKT_BUF_DONE when
`wlan_mac_high_init` runs, the reconciler force-locks it and sets its tag to
TX_PKT_BUF_HIGH_CTRL; and in the pool the reconciler leaves, as in every pool in
which slot `i` is tagged TX_PKT_BUF_HIGH_CTRL, an IPC_MBOX_TX_PKT_BUF_DONE
message for slot `i` invokes no callback at all (so neither
`station_info_posttx_process` nor `mpdu_tx_high_done_callback`), writes no
message to the mailbox (so no IPC_MBOX_TX_PKT_BUF_READY), and leaves the tag
TX_PKT_BUF_HIGH_CTRL. -/
theorem stale_done_after_init_not_recounted (c : Collab) (msg : wlan_ipc_msg_t)
    (payload : List Nat) (s : State) (i : Nat)
    (hi : i < NUM_TX_PKT_BUF_MPDU)
    (htag : (s.tx_pkt_buf i).tx_pkt_buf_state = TX_PKT_BUF_DONE)
    (hid : msg.msg_id = IPC_MBOX_TX_PKT_BUF_DONE) (harg : msg.arg0 = i) :
    Event.force_lock_tx_pkt_buf i ∈ (wlan_mac_high_init_tx_loop s).events_since s ∧
    (wlan_mac_high_init s).tx_pkt_buf_mutex i = some CPU_HIGH ∧
    ((wlan_mac_high_init s).tx_pkt_buf i).tx_pkt_buf_state = TX_PKT_BUF_HIGH_CTRL ∧
    (∀ s1 : State, s1 = wlan_mac_high_init s ∨
        (s1.tx_pkt_buf i).tx_pkt_buf_state = TX_PKT_BUF_HIGH_CTRL →
      (∀ which arg, Event.callback which arg ∉
        (wlan_mac_high_process_ipc_msg c msg payload s1).events_since s1) ∧
      (∀ m, Event.write_mailbox_msg m ∉
        (wlan_mac_high_process_ipc_msg c msg payload s1).events_since s1) ∧
      ((wlan_mac_high_process_ipc_msg c msg payload s1).tx_pkt_buf i).tx_pkt_buf_state =
        TX_PKT_BUF_HIGH_CTRL) := by
  have hne : (s.tx_pkt_buf i).tx_pkt_buf_state ≠ TX_PKT_BUF_READY ∧
      (s.tx_pkt_buf i).tx_pkt_buf_state ≠ TX_PKT_BUF_LOW_CTRL := by simp [htag]
  have h2 := init_tx_slot_eq s i
  rw [if_pos (general_lt_num_tx i hi), init_tx_slot_general_reclaim i hi _ hne] at h2
  have hmutex : (wlan_mac_high_init s).tx_pkt_buf_mutex i = some CPU_HIGH :=
    congrArg Prod.snd h2
  have hstate : ((wlan_mac_high_init s).tx_pkt_buf i).tx_pkt_buf_state =
      TX_PKT_BUF_HIGH_CTRL := congrArg (fun p => p.1.tx_pkt_buf_state) h2
  refine ⟨init_tx_loop_force_lock s i hi hne, hmutex, hstate, ?_⟩
  intro s1 hs1
  have ht1 : (s1.tx_pkt_buf i).tx_pkt_buf_state = TX_PKT_BUF_HIGH_CTRL := by
    rcases hs1 with h | h
    · rw [h]; exact hstate
    · exact h
  obtain ⟨hev, ht, _⟩ := process_tx_pkt_buf_done_stale_result c msg payload
    s1 i hid harg (general_lt_num_tx i hi) (Or.inr ht1)
  refine ⟨?_, ?_, ht⟩
  · intro which arg
    rw [hev]
    simp
  · intro m
    rw [hev]
    simp

/-- C23 at a concrete pool: general slot 0 was left in TX_PKT_BUF_DONE; after
the reconciliation a DONE message for it invokes no Tx-done callback and the tag
stays HIGH_CTRL. -/
theorem stale_done_after_init_not_recounted_witness :
    (0 < NUM_TX_PKT_BUF_MPDU ∧
      (reboot_state_example.tx_pkt_buf 0).tx_pkt_buf_state = TX_PKT_BUF_DONE) ∧
    Event.callback callback_t.mpdu_tx_high_done_callback 0 ∉
      (wlan_mac_high_process_ipc_msg collab_example
        (ipc_msg_example IPC_MBOX_TX_PKT_BUF_DONE 0) []
        (wlan_mac_high_init reboot_state_example)).events_since
        (wlan_mac_high_init reboot_state_example) ∧
    ((wlan_mac_high_process_ipc_msg collab_example
        (ipc_msg_example IPC_MBOX_TX_PKT_BUF_DONE 0) []
        (wlan_mac_high_init reboot_state_example)).tx_pkt_buf 0).tx_pkt_buf_state =
      TX_PKT_BUF_HIGH_CTRL :=
  ⟨⟨by decide, by decide⟩,
   ((stale_done_after_init_not_recounted collab_example
      (ipc_msg_example IPC_MBOX_TX_PKT_BUF_DONE 0) [] reboot_state_example 0 (by decide)
      (by decide) rfl rfl).2.2.2 _ (Or.inl rfl)).1 _ _,
   ((stale_done_after_init_not_recounted collab_example
      (ipc_msg_example IPC_MBOX_TX_PKT_BUF_DONE 0) [] reboot_state_example 0 (by decide)
      (by decide) rfl rfl).2.2.2 _ (Or.inl rfl)).2.2⟩

/-! ### The slot search -/

/-- The search loop either finds no slot tagged TX_PKT_BUF_HIGH_CTRL in its range
and returns -1, or returns the lowest index in its range with that tag. -/
theorem get_empty_loop_spec (s : State) (n k : Nat) :
    (get_empty_tx_packet_buffer_loop s n k = -1 ∧
      ∀ j, k ≤ j → j < k + n → (s.tx_pkt_buf j).tx_pkt_buf_state ≠ TX_PKT_BUF_HIGH_CTRL) ∨
    (∃ i : Nat, get_empty_tx_packet_buffer_loop s n k = (i : Int) ∧ k ≤ i ∧ i < k + n ∧
      (s.tx_pkt_buf i).tx_pkt_buf_state = TX_PKT_BUF_HIGH_CTRL ∧
      ∀ j, k ≤ j → j < i → (s.tx_pkt_buf j).tx_pkt_buf_state ≠ TX_PKT_BUF_HIGH_CTRL) := by
  induction n generalizing k with
  | zero =>
    left
    exact ⟨rfl, fun j h1 h2 => by omega⟩
  | succ n ih =>
    unfold get_empty_tx_packet_buffer_loop
    by_cases hk : (s.tx_pkt_buf k).tx_pkt_buf_state = TX_PKT_BUF_HIGH_CTRL
    · right
      rw [if_pos hk]
      exact ⟨k, rfl, Nat.le_refl _, by omega, hk, fun j h1 h2 => by omega⟩
    · rw [if_neg hk]
      rcases ih (k + 1) with ⟨h1, h2⟩ | ⟨i, h1, h2, h3, h4, h5⟩
      · left
        refine ⟨h1, fun j hj1 hj2 => ?_⟩
        by_cases hjk : j = k
        · rw [hjk]; exact hk
        · exact h2 j (by omega) (by omega)
      · right
        refine ⟨i, h1, by omega, by omega, h4, fun j hj1 hj2 => ?_⟩
        by_cases hjk : j = k
        · rw [hjk]; exact hk
        · exact h5 j (by omega) hj2

/-- The slot search returns -1 exactly when no general slot is tagged
TX_PKT_BUF_HIGH_CTRL. -/
theorem get_empty_eq_neg_one_iff (s : State) :
    wlan_mac_high_get_empty_tx_packet_buffer s = -1 ↔
      ∀ j, j < NUM_TX_PKT_BUF_MPDU →
        (s.tx_pkt_buf j).tx_pkt_buf_state ≠ TX_PKT_BUF_HIGH_CTRL := by
  unfold wlan_mac_high_get_empty_tx_packet_buffer
  rcases get_empty_loop_spec s NUM_TX_PKT_BUF_MPDU 0 with ⟨h1, h2⟩ | ⟨i, h1, _, h3, h4, _⟩
  · exact ⟨fun _ j hj => h2 j (Nat.zero_le _) (by omega), fun _ => h1⟩
  · constructor
    · intro h
      rw [h1] at h
      omega
    · intro h
      exact absurd h4 (h i (by omega))

/-- A positive admission result means some general slot is tagged
TX_PKT_BUF_HIGH_CTRL. -/
theorem num_tx_pkt_buf_available_pos_empty (s : State) (g : pkt_buf_group_t)
    (h : 0 < wlan_mac_num_tx_pkt_buf_available s g) :
    ∃ i, i < NUM_TX_PKT_BUF_MPDU ∧
      (s.tx_pkt_buf i).tx_pkt_buf_state = TX_PKT_BUF_HIGH_CTRL := by
  unfold wlan_mac_num_tx_pkt_buf_available at h
  rw [count_foldl] at h
  simp only [Nat.zero_add] at h
  by_cases hz : ((List.range NUM_TX_PKT_BUF_MPDU).filter (is_empty_slot s)).length = 0
  · rw [if_pos hz] at h
    exact absurd h (lt_irrefl _)
  · have hne : (List.range NUM_TX_PKT_BUF_MPDU).filter (is_empty_slot s) ≠ [] := by
      intro hnil
      exact hz (by rw [hnil]; rfl)
    obtain ⟨i, hi⟩ := List.exists_mem_of_ne_nil _ hne
    have hi2 := List.mem_filter.mp hi
    exact ⟨i, List.mem_range.mp hi2.1, by simpa [is_empty_slot] using hi2.2⟩

/-- C28: for every pool state and every group `g`, if
`wlan_mac_num_tx_pkt_buf_available(g)` returns a value > 0, then
`wlan_mac_high_get_empty_tx_packet_buffer()` on the same pool returns an index
`i` with 0 <= i < NUM_TX_PKT_BUF_MPDU (so not -1), slot `i` is tagged
TX_PKT_BUF_HIGH_CTRL, and no slot below `i` is. -/
theorem admission_implies_allocation (s : State) (g : pkt_buf_group_t)
    (h : 0 < wlan_mac_num_tx_pkt_buf_available s g) :
    wlan_mac_high_get_empty_tx_packet_buffer s ≠ -1 ∧
    ∃ i : Nat, wlan_mac_high_get_empty_tx_packet_buffer s = (i : Int) ∧
      i < NUM_TX_PKT_BUF_MPDU ∧
      (s.tx_pkt_buf i).tx_pkt_buf_state = TX_PKT_BUF_HIGH_CTRL ∧
      ∀ j, j < i → (s.tx_pkt_buf j).tx_pkt_buf_state ≠ TX_PKT_BUF_HIGH_CTRL := by
  obtain ⟨i0, hi0, ht0⟩ := num_tx_pkt_buf_available_pos_empty s g h
  have hne : wlan_mac_high_get_empty_tx_packet_buffer s ≠ -1 :=
    fun hneg => (get_empty_eq_neg_one_iff s).mp hneg i0 hi0 ht0
  refine ⟨hne, ?_⟩
  unfold wlan_mac_high_get_empty_tx_packet_buffer at hne ⊢
  rcases get_empty_loop_spec s NUM_TX_PKT_BUF_MPDU 0 with ⟨h1, _⟩ | ⟨i, h1, _, h3, h4, h5⟩
  · exact absurd h1 hne
  · exact ⟨i, h1, by omega, h4, fun j hj => h5 j (Nat.zero_le _) hj⟩

/-- C28 at a concrete pool: the admission check for GENERAL is positive and the
slot search returns slot 0. -/
theorem admission_implies_allocation_witness :
    0 < wlan_mac_num_tx_pkt_buf_available (handoff_state_example (some CPU_HIGH))
        PKT_BUF_GROUP_GENERAL ∧
    wlan_mac_high_get_empty_tx_packet_buffer (handoff_state_example (some CPU_HIGH)) ≠ -1 :=
  ⟨by decide,
   (admission_implies_allocation (handoff_state_example (some CPU_HIGH))
     PKT_BUF_GROUP_GENERAL (by decide)).1⟩

/-- C24, the code at the failing input: after a DONE message for slot 0, which
was tagged TX_PKT_BUF_HIGH_CTRL, slot 0 is tagged TX_PKT_BUF_HIGH_CTRL and its
mutex is free; `wlan_mac_high_get_empty_tx_packet_buffer` returns 0, it makes no
lock call, and slot 0 is not locked by CPU High. -/
theorem get_empty_returns_unlocked_slot :
    ((wlan_mac_high_process_ipc_msg collab_example
        (ipc_msg_example IPC_MBOX_TX_PKT_BUF_DONE 0) []
        (handoff_state_example (some CPU_HIGH))).tx_pkt_buf 0).tx_pkt_buf_state =
      TX_PKT_BUF_HIGH_CTRL ∧
    wlan_mac_high_get_empty_tx_packet_buffer
      (wlan_mac_high_process_ipc_msg collab_example
        (ipc_msg_example IPC_MBOX_TX_PKT_BUF_DONE 0) []
        (handoff_state_example (some CPU_HIGH))) = 0 ∧
    (wlan_mac_high_process_ipc_msg collab_example
        (ipc_msg_example IPC_MBOX_TX_PKT_BUF_DONE 0) []
        (handoff_state_example (some CPU_HIGH))).tx_pkt_buf_mutex 0 ≠ some CPU_HIGH ∧
    wlan_mac_high_get_empty_tx_packet_buffer (handoff_state_example (some CPU_LOW)) = 0 ∧
    (handoff_state_example (some CPU_LOW)).tx_pkt_buf_mutex 0 = some CPU_LOW := by
  decide

/-! ### The handoff and the outcome of the copy -/

/-- The result of the `unlock_tx_pkt_buf` call of a handoff is the outcome of a
release on the owner the mutex had at the call. -/
theorem mpdu_transmit_unlock_status (x : Extern) (p : tx_queue_buffer_t) (i : Nat)
    (s : State) :
    (unlock_tx_pkt_buf i (set_tx_pkt_buf_state i TX_PKT_BUF_READY
      (wlan_mac_high_mpdu_transmit_fill x p i s))).1 =
      (unlock_result (s.tx_pkt_buf_mutex i)).1 := by
  simp [mpdu_transmit_fill_mutex]

/-- Final tag and READY messages of a handoff, as functions of the result of its
`unlock_tx_pkt_buf` call alone. -/
theorem mpdu_transmit_outcome (x : Extern) (p : tx_queue_buffer_t) (i : Nat) (s : State) :
    ((wlan_mac_high_mpdu_transmit x p i s).tx_pkt_buf i).tx_pkt_buf_state =
      (if (unlock_tx_pkt_buf i (set_tx_pkt_buf_state i TX_PKT_BUF_READY
          (wlan_mac_high_mpdu_transmit_fill x p i s))).1 = PKT_BUF_MUTEX_FAIL_NOT_LOCK_OWNER
        then TX_PKT_BUF_HIGH_CTRL else TX_PKT_BUF_READY) ∧
    ((wlan_mac_high_mpdu_transmit x p i s).events_since s).filter
        Event.is_tx_pkt_buf_ready_msg =
      (if (unlock_tx_pkt_buf i (set_tx_pkt_buf_state i TX_PKT_BUF_READY
          (wlan_mac_high_mpdu_transmit_fill x p i s))).1 = PKT_BUF_MUTEX_FAIL_NOT_LOCK_OWNER
        then [] else [Event.write_mailbox_msg (tx_pkt_buf_ready_msg i)]) := by
  rw [mpdu_transmit_unlock_status, mpdu_transmit_ready_msgs]
  by_cases hlow : s.tx_pkt_buf_mutex i = some CPU_LOW
  · have hf := (unlock_result_fail_iff _).mpr hlow
    rw [if_pos hf, if_pos hf, if_pos hlow]
    exact ⟨(mpdu_transmit_fail x p i s hlow).2.1, rfl⟩
  · have hf : (unlock_result (s.tx_pkt_buf_mutex i)).1 ≠ PKT_BUF_MUTEX_FAIL_NOT_LOCK_OWNER :=
      fun h => hlow ((unlock_result_fail_iff _).mp h)
    rw [if_neg hf, if_neg hf, if_neg hlow]
    exact ⟨(mpdu_transmit_ok x p i s hlow).2.1, rfl⟩

/-- A queue entry whose length is WLAN_PHY_FCS_NBYTES: the copy is started with
length 0 and rejected. -/
theorem mpdu_transmit_start_zero_length (x : Extern) (p : tx_queue_buffer_t) (i : Nat)
    (s : State) (hlen : (x.mpdu_tx_dequeue_callback p).length = x.WLAN_PHY_FCS_NBYTES) :
    wlan_mac_high_mpdu_transmit_start x p i s =
      (s.log (Event.callback callback_t.mpdu_tx_dequeue_callback p.frame_addr)).log
        (Event.print 1032) := by
  unfold wlan_mac_high_mpdu_transmit_start
  simp [hlen, wlan_mac_high_cdma_start_transfer]

/-- C29: in `wlan_mac_high_mpdu_transmit` the final state tag of the slot and the
IPC_MBOX_TX_PKT_BUF_READY messages written are functions of the result of the
`unlock_tx_pkt_buf` call alone: two calls on slot `i`, with any platforms,
drivers, packets and pools, whose `unlock_tx_pkt_buf` calls return the same
result end with the same tag and the same READY messages. In particular, when
the queue entry has length WLAN_PHY_FCS_NBYTES the copy is requested with
length 0 and `wlan_mac_high_cdma_start_transfer` returns XST_FAILURE after its
print, and if the release does not return PKT_BUF_MUTEX_FAIL_NOT_LOCK_OWNER the
slot is still set to TX_PKT_BUF_READY and the READY message is still written. -/
theorem handoff_outcome_ignores_transfer (x x1 : Extern) (packet packet1 : tx_queue_buffer_t)
    (i : Nat) (s s1 : State) :
    ((unlock_tx_pkt_buf i (set_tx_pkt_buf_state i TX_PKT_BUF_READY
        (wlan_mac_high_mpdu_transmit_fill x packet i s))).1 =
      (unlock_tx_pkt_buf i (set_tx_pkt_buf_state i TX_PKT_BUF_READY
        (wlan_mac_high_mpdu_transmit_fill x1 packet1 i s1))).1 →
      ((wlan_mac_high_mpdu_transmit x packet i s).tx_pkt_buf i).tx_pkt_buf_state =
        ((wlan_mac_high_mpdu_transmit x1 packet1 i s1).tx_pkt_buf i).tx_pkt_buf_state ∧
      ((wlan_mac_high_mpdu_transmit x packet i s).events_since s).filter
          Event.is_tx_pkt_buf_ready_msg =
        ((wlan_mac_high_mpdu_transmit x1 packet1 i s1).events_since s1).filter
          Event.is_tx_pkt_buf_ready_msg) ∧
    ((x.mpdu_tx_dequeue_callback packet).length = x.WLAN_PHY_FCS_NBYTES →
      (unlock_tx_pkt_buf i (set_tx_pkt_buf_state i TX_PKT_BUF_READY
        (wlan_mac_high_mpdu_transmit_fill x packet i s))).1 ≠
          PKT_BUF_MUTEX_FAIL_NOT_LOCK_OWNER →
      (wlan_mac_high_cdma_start_transfer x (x.tx_pkt_buf_payload_addr i) packet.frame_addr 0
        (s.log (Event.callback callback_t.mpdu_tx_dequeue_callback packet.frame_addr))).1 =
          XST_FAILURE ∧
      (wlan_mac_high_mpdu_transmit_start x packet i s).events_since s =
        [Event.callback callback_t.mpdu_tx_dequeue_callback packet.frame_addr,
         Event.print 1032] ∧
      ((wlan_mac_high_mpdu_transmit x packet i s).tx_pkt_buf i).tx_pkt_buf_state =
        TX_PKT_BUF_READY ∧
      ((wlan_mac_high_mpdu_transmit x packet i s).events_since s).filter
          Event.is_tx_pkt_buf_ready_msg =
        [Event.write_mailbox_msg (tx_pkt_buf_ready_msg i)]) := by
  obtain ⟨ht, hm⟩ := mpdu_transmit_outcome x packet i s
  obtain ⟨ht1, hm1⟩ := mpdu_transmit_outcome x1 packet1 i s1
  refine ⟨fun heq => ?_, fun hlen hok => ⟨?_, ?_, ?_, ?_⟩⟩
  · rw [ht, hm, ht1, hm1, heq]
    exact ⟨rfl, rfl⟩
  · simp [wlan_mac_high_cdma_start_transfer]
  · apply events_since_append
    rw [mpdu_transmit_start_zero_length x packet i s hlen]
    simp [List.append_assoc]
  · rw [ht, if_neg hok]
  · rw [hm, if_neg hok]

/-- C29 at concrete inputs: a queue entry of exactly WLAN_PHY_FCS_NBYTES = 4
bytes on slot 0 owned by CPU High: the copy is rejected, the slot is READY and
the message is written, as for the 100-byte entry. -/
theorem handoff_outcome_ignores_transfer_witness :
    ((wlan_mac_high_mpdu_transmit extern_example
        { packet_example PKT_BUF_GROUP_GENERAL with length := 4 } 0
        (handoff_state_example (some CPU_HIGH))).tx_pkt_buf 0).tx_pkt_buf_state =
      ((wlan_mac_high_mpdu_transmit extern_example (packet_example PKT_BUF_GROUP_GENERAL) 0
        (handoff_state_example (some CPU_HIGH))).tx_pkt_buf 0).tx_pkt_buf_state ∧
    ((wlan_mac_high_mpdu_transmit extern_example
        { packet_example PKT_BUF_GROUP_GENERAL with length := 4 } 0
        (handoff_state_example (some CPU_HIGH))).tx_pkt_buf 0).tx_pkt_buf_state =
      TX_PKT_BUF_READY :=
  ⟨((handoff_outcome_ignores_transfer extern_example extern_example
      { packet_example PKT_BUF_GROUP_GENERAL with length := 4 }
      (packet_example PKT_BUF_GROUP_GENERAL) 0 (handoff_state_example (some CPU_HIGH))
      (handoff_state_example (some CPU_HIGH))).1 (by decide)).1,
   ((handoff_outcome_ignores_transfer extern_example extern_example
      { packet_example PKT_BUF_GROUP_GENERAL with length := 4 }
      (packet_example PKT_BUF_GROUP_GENERAL) 0 (handoff_state_example (some CPU_HIGH))
      (handoff_state_example (some CPU_HIGH))).2 (by decide) (by decide)).2.2.1⟩

/-! ### The HT to non-HT rate table -/

/-- C26: for every station without STATION_INFO_CAPABILITIES_HT_CAPABLE and
every `tx_params` with `phy_mode = PHY_MODE_HTMF` and `mcs` m in 0..7,
`wlan_mac_sanitize_tx_params` returns the input with `phy_mode` replaced by
PHY_MODE_NONHT and `mcs` replaced by the m-th entry of [0, 2, 3, 4, 5, 6, 7, 7],
every other field being that of the input; if the station is HT capable or the
requested `phy_mode` is not PHY_MODE_HTMF the result is the input. -/
theorem sanitize_tx_params_rate_table (k : RateConsts) (station_info : station_info_t)
    (tx_params : tx_params_t) :
    (station_info.capabilities &&& k.STATION_INFO_CAPABILITIES_HT_CAPABLE = 0 →
      tx_params.phy.phy_mode = k.PHY_MODE_HTMF → tx_params.phy.mcs ≤ 7 →
      wlan_mac_sanitize_tx_params k station_info tx_params =
        { tx_params with
          phy := { tx_params.phy with
            phy_mode := k.PHY_MODE_NONHT
            mcs := nonht_mcs_table.getD tx_params.phy.mcs 0 } }) ∧
    (station_info.capabilities &&& k.STATION_INFO_CAPABILITIES_HT_CAPABLE ≠ 0 ∨
        tx_params.phy.phy_mode ≠ k.PHY_MODE_HTMF →
      wlan_mac_sanitize_tx_params k station_info tx_params = tx_params) := by
  constructor
  · intro hcap hmode hmcs
    obtain ⟨⟨mcs, phy_mode, antenna_mode, power⟩, mac⟩ := tx_params
    simp only at hmode hmcs
    unfold wlan_mac_sanitize_tx_params
    simp only [hcap, hmode, ne_eq, not_true_eq_false, if_false, if_true]
    interval_cases mcs <;> simp [nonht_mcs_table]
  · intro h
    unfold wlan_mac_sanitize_tx_params
    rcases h with h | h
    · simp only [h, ne_eq, not_false_eq_true, if_true]
    · by_cases hcap : station_info.capabilities &&& k.STATION_INFO_CAPABILITIES_HT_CAPABLE = 0
      · simp only [hcap, h, ne_eq, not_true_eq_false, if_false]
      · simp only [hcap, ne_eq, not_false_eq_true, if_true]

/-- C26 at concrete inputs: a station that is not HT capable and a request for
HT MCS 3 gets non-HT MCS 4; a station that is HT capable keeps its request. -/
theorem sanitize_tx_params_rate_table_witness :
    wlan_mac_sanitize_tx_params rate_consts_example (station_info_example 0)
        (tx_params_example 3 2) = tx_params_example 4 1 ∧
    wlan_mac_sanitize_tx_params rate_consts_example (station_info_example 4)
        (tx_params_example 3 2) = tx_params_example 3 2 :=
  ⟨(sanitize_tx_params_rate_table rate_consts_example (station_info_example 0)
      (tx_params_example 3 2)).1 (by decide) (by decide) (by decide),
   (sanitize_tx_params_rate_table rate_consts_example (station_info_example 4)
      (tx_params_example 3 2)).2 (Or.inl (by decide))⟩

/-! ### Polling the Tx queues -/

/-- The admission result for PKT_BUF_GROUP_GENERAL is 0, 1 or 2. -/
theorem num_tx_pkt_buf_available_general_range (s : State) :
    0 ≤ wlan_mac_num_tx_pkt_buf_available s PKT_BUF_GROUP_GENERAL ∧
    wlan_mac_num_tx_pkt_buf_available s PKT_BUF_GROUP_GENERAL ≤ 2 := by
  unfold wlan_mac_num_tx_pkt_buf_available
  rw [count_foldl]
  simp only [Nat.zero_add, if_true]
  generalize ((List.range NUM_TX_PKT_BUF_MPDU).filter
    (is_outstanding s PKT_BUF_GROUP_GENERAL)).length = n
  generalize ((List.range NUM_TX_PKT_BUF_MPDU).filter (is_empty_slot s)).length = m
  constructor <;> split_ifs <;> omega

@[simp] theorem dequeue_from_head_checked_in (q : Nat) (st : StaState) :
    (dequeue_from_head q st).2.checked_in = st.checked_in := by
  unfold dequeue_from_head
  dsimp only
  split <;> rfl

@[simp] theorem dequeue_from_head_calls (q : Nat) (st : StaState) :
    (dequeue_from_head q st).2.dequeue_calls = st.dequeue_calls ++ [q] := by
  unfold dequeue_from_head
  dsimp only
  split <;> rfl

theorem dequeue_from_head_tx_queue_ne (q q1 : Nat) (st : StaState) (h : q1 ≠ q) :
    (dequeue_from_head q st).2.tx_queue q1 = st.tx_queue q1 := by
  unfold dequeue_from_head
  dsimp only
  split
  · rfl
  · exact Function.update_noteq h _ _

@[simp] theorem poll_submit_checked_in (k : StaExtern) (q : Nat) (e : tx_queue_buffer_t)
    (st : StaState) :
    (poll_tx_queues_submit k q e st).checked_in =
      st.checked_in ++ [(q, { e with queue_info :=
        { e.queue_info with pkt_buf_group := PKT_BUF_GROUP_GENERAL } })] := rfl

@[simp] theorem poll_submit_calls (k : StaExtern) (q : Nat) (e : tx_queue_buffer_t)
    (st : StaState) :
    (poll_tx_queues_submit k q e st).dequeue_calls = st.dequeue_calls := rfl

@[simp] theorem poll_submit_tx_queue (k : StaExtern) (q : Nat) (e : tx_queue_buffer_t)
    (st : StaState) : (poll_tx_queues_submit k q e st).tx_queue = st.tx_queue := rfl

/-- The unpaused loop with `n` iterations left and `avail` buffers to fill
passes at most `avail` entries to `transmit_checkin` and makes at most `n`
calls of `dequeue_from_head`. -/
theorem poll_unpaused_bound (k : StaExtern) :
    ∀ (n : Nat) (avail : Int) (st : StaState),
      ∃ a b, (poll_tx_queues_unpaused k n avail st).checked_in = st.checked_in ++ a ∧
        (poll_tx_queues_unpaused k n avail st).dequeue_calls = st.dequeue_calls ++ b ∧
        (a.length : Int) ≤ max avail 0 ∧ b.length ≤ n := by
  intro n
  induction n with
  | zero =>
    intro avail st
    exact ⟨[], [], by simp [poll_tx_queues_unpaused], by simp [poll_tx_queues_unpaused],
      by simp, by simp⟩
  | succ n ih =>
    intro avail st
    unfold poll_tx_queues_unpaused
    by_cases hpos : avail > 0
    · rw [if_pos hpos]
      dsimp only
      have key : ∀ (qid : Nat) (st1 : StaState), st1.checked_in = st.checked_in →
          st1.dequeue_calls = st.dequeue_calls →
          ∃ a b,
            (match (dequeue_from_head qid st1).1 with
              | some entry => poll_tx_queues_unpaused k n (avail - 1)
                  (poll_tx_queues_submit k qid entry (dequeue_from_head qid st1).2)
              | none => poll_tx_queues_unpaused k n avail
                  (dequeue_from_head qid st1).2).checked_in = st.checked_in ++ a ∧
            (match (dequeue_from_head qid st1).1 with
              | some entry => poll_tx_queues_unpaused k n (avail - 1)
                  (poll_tx_queues_submit k qid entry (dequeue_from_head qid st1).2)
              | none => poll_tx_queues_unpaused k n avail
                  (dequeue_from_head qid st1).2).dequeue_calls = st.dequeue_calls ++ b ∧
            (a.length : Int) ≤ max avail 0 ∧ b.length ≤ n + 1 := by
        intro qid st1 hc hd
        split
        · rename_i entry _
          obtain ⟨a, b, h1, h2, h3, h4⟩ := ih (avail - 1)
            (poll_tx_queues_submit k qid entry (dequeue_from_head qid st1).2)
          refine ⟨(qid, { entry with queue_info :=
              { entry.queue_info with pkt_buf_group := PKT_BUF_GROUP_GENERAL } }) :: a,
            qid :: b, ?_, ?_, ?_, ?_⟩
          · rw [h1]; simp [hc]
          · rw [h2]; simp [hd]
          · simp only [List.length_cons, Nat.cast_add, Nat.cast_one]
            have h6 : max (avail - 1) 0 = avail - 1 := max_eq_left (by omega)
            have h5 : max avail 0 = avail := max_eq_left (by omega)
            omega
          · simp only [List.length_cons]; omega
        · obtain ⟨a, b, h1, h2, h3, h4⟩ := ih avail (dequeue_from_head qid st1).2
          refine ⟨a, qid :: b, ?_, ?_, h3, ?_⟩
          · rw [h1]; simp [hc]
          · rw [h2]; simp [hd]
          · simp only [List.length_cons]; omega
      exact key _ _ rfl rfl
    · rw [if_neg hpos]
      exact ⟨[], [], by simp, by simp, by simp, by simp⟩

/-- The paused loop with `n` iterations left passes at most `n` entries to
`transmit_checkin`, calls `dequeue_from_head` on the management queue only, and
leaves every other queue as it was. -/
theorem poll_paused_bound (k : StaExtern) :
    ∀ (n : Nat) (st : StaState),
      ∃ a b, (poll_tx_queues_paused k n st).checked_in = st.checked_in ++ a ∧
        (poll_tx_queues_paused k n st).dequeue_calls = st.dequeue_calls ++ b ∧
        a.length ≤ n ∧ (∀ q ∈ b, q = k.MANAGEMENT_QID) ∧
        (∀ p ∈ a, p.1 = k.MANAGEMENT_QID) ∧
        (∀ q, q ≠ k.MANAGEMENT_QID →
          (poll_tx_queues_paused k n st).tx_queue q = st.tx_queue q) := by
  intro n
  induction n with
  | zero =>
    intro st
    exact ⟨[], [], by simp [poll_tx_queues_paused], by simp [poll_tx_queues_paused],
      by simp, by simp, by simp, fun q _ => rfl⟩
  | succ n ih =>
    intro st
    unfold poll_tx_queues_paused
    dsimp only
    split
    · rename_i entry _
      obtain ⟨a, b, h1, h2, h3, h4, h5, h6⟩ := ih (poll_tx_queues_submit k k.MANAGEMENT_QID
        entry (dequeue_from_head k.MANAGEMENT_QID st).2)
      refine ⟨(k.MANAGEMENT_QID, { entry with queue_info :=
          { entry.queue_info with pkt_buf_group := PKT_BUF_GROUP_GENERAL } }) :: a,
        k.MANAGEMENT_QID :: b, ?_, ?_, ?_, ?_, ?_, ?_⟩
      · rw [h1]; simp
      · rw [h2]; simp
      · simp only [List.length_cons]; omega
      · intro q hq
        rcases List.mem_cons.mp hq with h | h
        · exact h
        · exact h4 q h
      · intro p hp
        rcases List.mem_cons.mp hp with h | h
        · rw [h]
        · exact h5 p h
      · intro q hq
        rw [h6 q hq, poll_submit_tx_queue, dequeue_from_head_tx_queue_ne _ _ _ hq]
    · refine ⟨[], [k.MANAGEMENT_QID], by simp, by simp, by simp, by simp, by simp, ?_⟩
      intro q hq
      exact dequeue_from_head_tx_queue_ne _ _ _ hq

/-- C27: in every call of `poll_tx_queues` the number of entries passed to
`transmit_checkin` is at most the value `wlan_mac_num_tx_pkt_buf_available(
PKT_BUF_GROUP_GENERAL)` returns at the start of the call, hence at most 2; in
the branch `pause_data_queue == 0` the loop makes at most 2*MAX_NUM_QUEUE = 4
calls of `dequeue_from_head`; and when `pause_data_queue` is non-zero every
call of `dequeue_from_head` is on MANAGEMENT_QID, so that (the two queue ids
being different) nothing is dequeued from UNICAST_QID. -/
theorem poll_tx_queues_never_over_submits (k : StaExtern) (st : StaState) :
    (((poll_tx_queues k st).checked_in_since st).length : Int) ≤
      wlan_mac_num_tx_pkt_buf_available st.high PKT_BUF_GROUP_GENERAL ∧
    ((poll_tx_queues k st).checked_in_since st).length ≤ 2 ∧
    (st.pause_data_queue = 0 →
      ((poll_tx_queues k st).dequeue_calls_since st).length ≤ 2 * MAX_NUM_QUEUE ∧
      2 * MAX_NUM_QUEUE = 4) ∧
    (st.pause_data_queue ≠ 0 →
      (∀ q ∈ (poll_tx_queues k st).dequeue_calls_since st, q = k.MANAGEMENT_QID) ∧
      (∀ p ∈ (poll_tx_queues k st).checked_in_since st, p.1 = k.MANAGEMENT_QID) ∧
      (k.MANAGEMENT_QID ≠ k.UNICAST_QID →
        k.UNICAST_QID ∉ (poll_tx_queues k st).dequeue_calls_since st ∧
        (poll_tx_queues k st).tx_queue k.UNICAST_QID = st.tx_queue k.UNICAST_QID)) := by
  obtain ⟨hlo, hhi⟩ := num_tx_pkt_buf_available_general_range st.high
  by_cases hp : st.pause_data_queue = 0
  · obtain ⟨a, b, h1, h2, h3, h4⟩ := poll_unpaused_bound k (2 * MAX_NUM_QUEUE)
      (wlan_mac_num_tx_pkt_buf_available st.high PKT_BUF_GROUP_GENERAL) st
    have hc : (poll_tx_queues k st).checked_in_since st = a := by
      unfold StaState.checked_in_since poll_tx_queues
      simp only [hp, if_true]
      rw [h1]; simp
    have hd : (poll_tx_queues k st).dequeue_calls_since st = b := by
      unfold StaState.dequeue_calls_since poll_tx_queues
      simp only [hp, if_true]
      rw [h2]; simp
    rw [hc, hd]
    have h5 : max (wlan_mac_num_tx_pkt_buf_available st.high PKT_BUF_GROUP_GENERAL) 0 =
        wlan_mac_num_tx_pkt_buf_available st.high PKT_BUF_GROUP_GENERAL := max_eq_left hlo
    rw [h5] at h3
    exact ⟨h3, by omega, fun _ => ⟨h4, rfl⟩, fun h => absurd hp h⟩
  · obtain ⟨a, b, h1, h2, h3, h4, h5, h6⟩ := poll_paused_bound k
      (wlan_mac_num_tx_pkt_buf_available st.high PKT_BUF_GROUP_GENERAL % (2 ^ 32 : Int)).toNat st
    have hc : (poll_tx_queues k st).checked_in_since st = a := by
      unfold StaState.checked_in_since poll_tx_queues
      simp only [hp, if_false]
      rw [h1]; simp
    have hd : (poll_tx_queues k st).dequeue_calls_since st = b := by
      unfold StaState.dequeue_calls_since poll_tx_queues
      simp only [hp, if_false]
      rw [h2]; simp
    have hq : (poll_tx_queues k st).tx_queue k.UNICAST_QID =
        (poll_tx_queues_paused k
          (wlan_mac_num_tx_pkt_buf_available st.high PKT_BUF_GROUP_GENERAL %
            (2 ^ 32 : Int)).toNat st).tx_queue k.UNICAST_QID := by
      unfold poll_tx_queues
      simp only [hp, if_false]
    have hn : ((wlan_mac_num_tx_pkt_buf_available st.high PKT_BUF_GROUP_GENERAL %
        (2 ^ 32 : Int)).toNat : Int) =
        wlan_mac_num_tx_pkt_buf_available st.high PKT_BUF_GROUP_GENERAL := by
      rw [Int.emod_eq_of_lt hlo (by omega)]
      exact Int.toNat_of_nonneg hlo
    rw [hc, hd]
    refine ⟨by omega, by omega, fun h => absurd h hp, fun _ => ⟨h4, h5, fun hne => ⟨?_, ?_⟩⟩⟩
    · intro hmem
      exact hne (h4 _ hmem).symm
    · rw [hq]
      exact h6 _ (fun h => hne h.symm)

/-- C27 at concrete inputs: three management and three data frames are queued
and the pool is free; paused, the call submits two management frames and leaves
the data queue alone. -/
theorem poll_tx_queues_never_over_submits_witness :
    ((poll_tx_queues sta_extern_example (sta_state_example 1)).checked_in_since
      (sta_state_example 1)).length ≤ 2 ∧
    (poll_tx_queues sta_extern_example (sta_state_example 1)).tx_queue
        sta_extern_example.UNICAST_QID =
      (sta_state_example 1).tx_queue sta_extern_example.UNICAST_QID :=
  ⟨(poll_tx_queues_never_over_submits sta_extern_example (sta_state_example 1)).2.1,
   (((poll_tx_queues_never_over_submits sta_extern_example (sta_state_example 1)).2.2.2
      (by decide)).2.2 (by decide)).2⟩

/-! ### Scenario 1: two general frames fill the ceiling -/

/-- The admission result for PKT_BUF_GROUP_GENERAL from the two counts. -/
theorem available_general_formula (s : State) :
    wlan_mac_num_tx_pkt_buf_available s PKT_BUF_GROUP_GENERAL =
      if num_empty_slots s = 0 then 0
      else (2 : Int) - ((min (outstanding s PKT_BUF_GROUP_GENERAL) 2 : Nat) : Int) := by
  unfold wlan_mac_num_tx_pkt_buf_available
  rw [count_foldl]
  simp only [Nat.zero_add, if_true]
  show (if num_empty_slots s = 0 then (0 : Int) else _) = _
  by_cases he : num_empty_slots s = 0
  · rw [if_pos he, if_pos he]
  · rw [if_neg he, if_neg he]
    have ho : ((List.range NUM_TX_PKT_BUF_MPDU).filter
        (is_outstanding s PKT_BUF_GROUP_GENERAL)).length =
        outstanding s PKT_BUF_GROUP_GENERAL := rfl
    rw [ho]
    generalize outstanding s PKT_BUF_GROUP_GENERAL = n
    split_ifs <;> omega

theorem num_empty_slots_ne_zero (s : State) (i : Nat) (hi : i < NUM_TX_PKT_BUF_MPDU)
    (h : (s.tx_pkt_buf i).tx_pkt_buf_state = TX_PKT_BUF_HIGH_CTRL) :
    num_empty_slots s ≠ 0 := by
  unfold num_empty_slots
  have hm : i ∈ (List.range NUM_TX_PKT_BUF_MPDU).filter (is_empty_slot s) :=
    List.mem_filter.mpr ⟨List.mem_range.mpr hi, by simp [is_empty_slot, h]⟩
  exact fun h0 => List.ne_nil_of_mem hm (List.length_eq_zero.mp h0)

theorem outstanding_eq_zero (s : State) (g : pkt_buf_group_t)
    (h : ∀ i, i < NUM_TX_PKT_BUF_MPDU → is_outstanding s g i = false) :
    outstanding s g = 0 := by
  unfold outstanding
  rw [List.length_eq_zero, List.filter_eq_nil_iff]
  intro i hi
  rw [h i (List.mem_range.mp hi)]
  simp

/-- The count of outstanding slots when one general slot becomes outstanding and
the others keep their headers. -/
theorem outstanding_succ (s s1 : State) (g : pkt_buf_group_t) (i : Nat)
    (hi : i < NUM_TX_PKT_BUF_MPDU)
    (hsame : ∀ j, j ≠ i → s1.tx_pkt_buf j = s.tx_pkt_buf j)
    (h1 : is_outstanding s1 g i = true) (h0 : is_outstanding s g i = false) :
    outstanding s1 g = outstanding s g + 1 := by
  unfold outstanding
  apply filter_length_succ_of_agree _ _ i
  · intro j hj
    unfold is_outstanding
    rw [hsame j hj]
  · exact h1
  · exact h0
  · exact List.nodup_range _
  · exact List.mem_range.mpr hi

/-- The handoff leaves the mutex of every other slot alone. -/
theorem mpdu_transmit_tx_mutex_ne (x : Extern) (p : tx_queue_buffer_t) (i : Nat)
    (s : State) (j : Nat) (h : j ≠ i) :
    (wlan_mac_high_mpdu_transmit x p i s).tx_pkt_buf_mutex j = s.tx_pkt_buf_mutex j := by
  have hm := mpdu_transmit_fill_mutex x p i s
  unfold wlan_mac_high_mpdu_transmit
  dsimp only
  split_ifs <;> simp [hm, h]

/-- While general slots 0 and 1 are both outstanding for PKT_BUF_GROUP_GENERAL
the admission result for that group is 0. -/
theorem available_zero_of_two_outstanding (s : State)
    (h0 : is_outstanding s PKT_BUF_GROUP_GENERAL 0 = true)
    (h1 : is_outstanding s PKT_BUF_GROUP_GENERAL 1 = true) :
    wlan_mac_num_tx_pkt_buf_available s PKT_BUF_GROUP_GENERAL = 0 := by
  have hge : 2 ≤ outstanding s PKT_BUF_GROUP_GENERAL := by
    unfold outstanding
    have hr : List.range NUM_TX_PKT_BUF_MPDU = [0, 1, 2, 3, 4, 5] := by decide
    rw [hr]
    simp only [List.filter_cons, h0, h1, if_true, List.length_cons]
    omega
  rw [available_general_formula]
  split_ifs
  · rfl
  · have : min (outstanding s PKT_BUF_GROUP_GENERAL) 2 = 2 := min_eq_right hge
    rw [this]
    rfl

/-- C22, as the claim states it, fails: after two general frames have been
handed off on the free pool the admission result is 0; once CPU Low has tagged
slot 0 DONE, and before any IPC_MBOX_TX_PKT_BUF_DONE message has been processed
(slot 0 is still DONE, not HIGH_CTRL, slot 1 still READY), the admission result
is already 1. -/
theorem admission_positive_before_done_handler :
    wlan_mac_num_tx_pkt_buf_available
      (wlan_mac_high_mpdu_transmit extern_example (packet_example PKT_BUF_GROUP_GENERAL) 1
        (wlan_mac_high_mpdu_transmit extern_example (packet_example PKT_BUF_GROUP_GENERAL) 0
          all_free_state_example)) PKT_BUF_GROUP_GENERAL = 0 ∧
    ((radio_marks_done 0
      (wlan_mac_high_mpdu_transmit extern_example (packet_example PKT_BUF_GROUP_GENERAL) 1
        (wlan_mac_high_mpdu_transmit extern_example (packet_example PKT_BUF_GROUP_GENERAL) 0
          all_free_state_example))).tx_pkt_buf 0).tx_pkt_buf_state = TX_PKT_BUF_DONE ∧
    ((radio_marks_done 0
      (wlan_mac_high_mpdu_transmit extern_example (packet_example PKT_BUF_GROUP_GENERAL) 1
        (wlan_mac_high_mpdu_transmit extern_example (packet_example PKT_BUF_GROUP_GENERAL) 0
          all_free_state_example))).tx_pkt_buf 1).tx_pkt_buf_state = TX_PKT_BUF_READY ∧
    wlan_mac_num_tx_pkt_buf_available
      (radio_marks_done 0
        (wlan_mac_high_mpdu_transmit extern_example (packet_example PKT_BUF_GROUP_GENERAL) 1
          (wlan_mac_high_mpdu_transmit extern_example (packet_example PKT_BUF_GROUP_GENERAL) 0
            all_free_state_example))) PKT_BUF_GROUP_GENERAL = 1 := by
  decide

/-- C22, amended: starting from a pool in which every general Tx slot is
TX_PKT_BUF_HIGH_CTRL and locked by CPU High,
`wlan_mac_num_tx_pkt_buf_available(PKT_BUF_GROUP_GENERAL)` is 2 and the slot
search returns 0; after a general frame has been handed off on slot 0 (tag
READY) it is 1 and the slot search returns 1; after a second on slot 1 it is 0;
it is 0 in every pool in which slots 0 and 1 are both READY or LOW_CTRL for
PKT_BUF_GROUP_GENERAL; and it is positive again, 1, as soon as CPU Low has
tagged slot 0 DONE and released it, before any IPC_MBOX_TX_PKT_BUF_DONE message
is processed. -/
theorem general_ceiling_scenario (x : Extern) (p1 p2 : tx_queue_buffer_t)
    (s s1 s2 s3 : State)
    (hfree : ∀ i, i < NUM_TX_PKT_BUF_MPDU →
      (s.tx_pkt_buf i).tx_pkt_buf_state = TX_PKT_BUF_HIGH_CTRL ∧
      s.tx_pkt_buf_mutex i = some CPU_HIGH)
    (hg1 : (x.mpdu_tx_dequeue_callback p1).queue_info.pkt_buf_group = PKT_BUF_GROUP_GENERAL)
    (hg2 : (x.mpdu_tx_dequeue_callback p2).queue_info.pkt_buf_group = PKT_BUF_GROUP_GENERAL)
    (h1 : s1 = wlan_mac_high_mpdu_transmit x p1 0 s)
    (h2 : s2 = wlan_mac_high_mpdu_transmit x p2 1 s1)
    (h3 : s3 = radio_marks_done 0 s2) :
    (wlan_mac_num_tx_pkt_buf_available s PKT_BUF_GROUP_GENERAL = 2 ∧
      wlan_mac_high_get_empty_tx_packet_buffer s = 0) ∧
    ((s1.tx_pkt_buf 0).tx_pkt_buf_state = TX_PKT_BUF_READY ∧
      wlan_mac_num_tx_pkt_buf_available s1 PKT_BUF_GROUP_GENERAL = 1 ∧
      wlan_mac_high_get_empty_tx_packet_buffer s1 = 1) ∧
    ((s2.tx_pkt_buf 0).tx_pkt_buf_state = TX_PKT_BUF_READY ∧
      (s2.tx_pkt_buf 1).tx_pkt_buf_state = TX_PKT_BUF_READY ∧
      wlan_mac_num_tx_pkt_buf_available s2 PKT_BUF_GROUP_GENERAL = 0) ∧
    (∀ s5 : State, is_outstanding s5 PKT_BUF_GROUP_GENERAL 0 = true →
      is_outstanding s5 PKT_BUF_GROUP_GENERAL 1 = true →
      wlan_mac_num_tx_pkt_buf_available s5 PKT_BUF_GROUP_GENERAL = 0) ∧
    ((s3.tx_pkt_buf 0).tx_pkt_buf_state = TX_PKT_BUF_DONE ∧
      (s3.tx_pkt_buf 1).tx_pkt_buf_state = TX_PKT_BUF_READY ∧
      wlan_mac_num_tx_pkt_buf_available s3 PKT_BUF_GROUP_GENERAL = 1) := by
  have n0 : (0 : Nat) < NUM_TX_PKT_BUF_MPDU := by decide
  have n1 : (1 : Nat) < NUM_TX_PKT_BUF_MPDU := by decide
  have n2 : (2 : Nat) < NUM_TX_PKT_BUF_MPDU := by decide
  -- the free pool
  have hs_out : ∀ i, i < NUM_TX_PKT_BUF_MPDU →
      is_outstanding s PKT_BUF_GROUP_GENERAL i = false := by
    intro i hi
    simp [is_outstanding, (hfree i hi).1]
  have ho_s := outstanding_eq_zero s PKT_BUF_GROUP_GENERAL hs_out
  have he_s := num_empty_slots_ne_zero s 0 n0 (hfree 0 n0).1
  have ha_s : wlan_mac_num_tx_pkt_buf_available s PKT_BUF_GROUP_GENERAL = 2 := by
    rw [available_general_formula, if_neg he_s, ho_s]
    rfl
  have hget_s : wlan_mac_high_get_empty_tx_packet_buffer s = 0 := by
    have := get_empty_loop_first s NUM_TX_PKT_BUF_MPDU 0 0 (Nat.le_refl _) (by decide)
      (hfree 0 n0).1 (fun j hj1 hj2 => by omega)
    simpa [wlan_mac_high_get_empty_tx_packet_buffer] using this
  -- after the first handoff
  have hm0 : s.tx_pkt_buf_mutex 0 ≠ some CPU_LOW := by
    rw [(hfree 0 n0).2]; decide
  have ht1 : (s1.tx_pkt_buf 0).tx_pkt_buf_state = TX_PKT_BUF_READY := by
    rw [h1]; exact (mpdu_transmit_ok x p1 0 s hm0).2.1
  have ne1 : ∀ j, j ≠ 0 → s1.tx_pkt_buf j = s.tx_pkt_buf j := by
    intro j hj
    rw [h1]; exact mpdu_transmit_tx_pkt_buf_ne x p1 0 s j hj
  have out1_0 : is_outstanding s1 PKT_BUF_GROUP_GENERAL 0 = true := by
    have hq : (s1.tx_pkt_buf 0).queue_info.pkt_buf_group = PKT_BUF_GROUP_GENERAL := by
      rw [h1, mpdu_transmit_queue_info]; exact hg1
    simp [is_outstanding, hq, ht1]
  have ho_1 : outstanding s1 PKT_BUF_GROUP_GENERAL = 1 := by
    rw [outstanding_succ s s1 PKT_BUF_GROUP_GENERAL 0 n0 ne1 out1_0 (hs_out 0 n0), ho_s]
  have ht1_1 : (s1.tx_pkt_buf 1).tx_pkt_buf_state = TX_PKT_BUF_HIGH_CTRL := by
    rw [ne1 1 (by decide)]; exact (hfree 1 n1).1
  have ha_1 : wlan_mac_num_tx_pkt_buf_available s1 PKT_BUF_GROUP_GENERAL = 1 := by
    rw [available_general_formula, if_neg (num_empty_slots_ne_zero s1 1 n1 ht1_1), ho_1]
    rfl
  have hget_1 : wlan_mac_high_get_empty_tx_packet_buffer s1 = 1 := by
    have := get_empty_loop_first s1 NUM_TX_PKT_BUF_MPDU 0 1 (by omega) (by decide) ht1_1
      (fun j hj1 hj2 => by
        have hj : j = 0 := by omega
        rw [hj, ht1]; decide)
    simpa [wlan_mac_high_get_empty_tx_packet_buffer] using this
  have hm1 : s1.tx_pkt_buf_mutex 1 ≠ some CPU_LOW := by
    rw [h1, mpdu_transmit_tx_mutex_ne x p1 0 s 1 (by decide), (hfree 1 n1).2]; decide
  -- after the second handoff
  have ht2 : (s2.tx_pkt_buf 1).tx_pkt_buf_state = TX_PKT_BUF_READY := by
    rw [h2]; exact (mpdu_transmit_ok x p2 1 s1 hm1).2.1
  have ne2 : ∀ j, j ≠ 1 → s2.tx_pkt_buf j = s1.tx_pkt_buf j := by
    intro j hj
    rw [h2]; exact mpdu_transmit_tx_pkt_buf_ne x p2 1 s1 j hj
  have out2_1 : is_outstanding s2 PKT_BUF_GROUP_GENERAL 1 = true := by
    have hq : (s2.tx_pkt_buf 1).queue_info.pkt_buf_group = PKT_BUF_GROUP_GENERAL := by
      rw [h2, mpdu_transmit_queue_info]; exact hg2
    simp [is_outstanding, hq, ht2]
  have out1_1 : is_outstanding s1 PKT_BUF_GROUP_GENERAL 1 = false := by
    simp [is_outstanding, ht1_1]
  have ho_2 : outstanding s2 PKT_BUF_GROUP_GENERAL = 2 := by
    rw [outstanding_succ s1 s2 PKT_BUF_GROUP_GENERAL 1 n1 ne2 out2_1 out1_1, ho_1]
  have out2_0 : is_outstanding s2 PKT_BUF_GROUP_GENERAL 0 = true := by
    unfold is_outstanding at out1_0 ⊢
    rw [ne2 0 (by decide)]; exact out1_0
  have ht2_0 : (s2.tx_pkt_buf 0).tx_pkt_buf_state = TX_PKT_BUF_READY := by
    rw [ne2 0 (by decide)]; exact ht1
  have ht2_2 : (s2.tx_pkt_buf 2).tx_pkt_buf_state = TX_PKT_BUF_HIGH_CTRL := by
    rw [ne2 2 (by decide), ne1 2 (by decide)]; exact (hfree 2 n2).1
  have ha_2 : wlan_mac_num_tx_pkt_buf_available s2 PKT_BUF_GROUP_GENERAL = 0 :=
    available_zero_of_two_outstanding s2 out2_0 out2_1
  -- CPU Low tags slot 0 DONE
  have ne3 : ∀ j, j ≠ 0 → s3.tx_pkt_buf j = s2.tx_pkt_buf j := by
    intro j hj
    rw [h3]
    simp [radio_marks_done, hj]
  have ht3 : (s3.tx_pkt_buf 0).tx_pkt_buf_state = TX_PKT_BUF_DONE := by
    rw [h3]; simp [radio_marks_done]
  have ht3_1 : (s3.tx_pkt_buf 1).tx_pkt_buf_state = TX_PKT_BUF_READY := by
    rw [ne3 1 (by decide)]; exact ht2
  have out3_0 : is_outstanding s3 PKT_BUF_GROUP_GENERAL 0 = false := by
    simp [is_outstanding, ht3]
  have ho_3 : outstanding s3 PKT_BUF_GROUP_GENERAL = 1 := by
    have := outstanding_succ s3 s2 PKT_BUF_GROUP_GENERAL 0 n0
      (fun j hj => (ne3 j hj).symm) out2_0 out3_0
    omega
  have ht3_2 : (s3.tx_pkt_buf 2).tx_pkt_buf_state = TX_PKT_BUF_HIGH_CTRL := by
    rw [ne3 2 (by decide)]; exact ht2_2
  have ha_3 : wlan_mac_num_tx_pkt_buf_available s3 PKT_BUF_GROUP_GENERAL = 1 := by
    rw [available_general_formula, if_neg (num_empty_slots_ne_zero s3 2 n2 ht3_2), ho_3]
    rfl
  exact ⟨⟨ha_s, hget_s⟩, ⟨ht1, ha_1, hget_1⟩, ⟨ht2_0, ht2, ha_2⟩,
    fun s5 h5 h6 => available_zero_of_two_outstanding s5 h5 h6, ⟨ht3, ht3_1, ha_3⟩⟩

/-- C22, amended, on the pool right after boot with two 100-byte frames of the
general group: the admission result is 2, then 1, then 0, and 1 again once CPU
Low has tagged slot 0 DONE. -/
theorem general_ceiling_scenario_witness :
    (∀ i, i < NUM_TX_PKT_BUF_MPDU →
      (all_free_state_example.tx_pkt_buf i).tx_pkt_buf_state = TX_PKT_BUF_HIGH_CTRL ∧
      all_free_state_example.tx_pkt_buf_mutex i = some CPU_HIGH) ∧
    wlan_mac_num_tx_pkt_buf_available all_free_state_example PKT_BUF_GROUP_GENERAL = 2 ∧
    wlan_mac_num_tx_pkt_buf_available
      (wlan_mac_high_mpdu_transmit extern_example (packet_example PKT_BUF_GROUP_GENERAL) 0
        all_free_state_example) PKT_BUF_GROUP_GENERAL = 1 ∧
    wlan_mac_num_tx_pkt_buf_available
      (wlan_mac_high_mpdu_transmit extern_example (packet_example PKT_BUF_GROUP_GENERAL) 1
        (wlan_mac_high_mpdu_transmit extern_example (packet_example PKT_BUF_GROUP_GENERAL) 0
          all_free_state_example)) PKT_BUF_GROUP_GENERAL = 0 ∧
    wlan_mac_num_tx_pkt_buf_available
      (radio_marks_done 0
        (wlan_mac_high_mpdu_transmit extern_example (packet_example PKT_BUF_GROUP_GENERAL) 1
          (wlan_mac_high_mpdu_transmit extern_example
            (packet_example PKT_BUF_GROUP_GENERAL) 0 all_free_state_example)))
      PKT_BUF_GROUP_GENERAL = 1 :=
  have h := general_ceiling_scenario extern_example
    (packet_example PKT_BUF_GROUP_GENERAL) (packet_example PKT_BUF_GROUP_GENERAL)
    all_free_state_example _ _ _ (fun _ _ => ⟨rfl, rfl⟩) rfl rfl rfl rfl rfl
  ⟨fun _ _ => ⟨rfl, rfl⟩, h.1.1, h.2.1.2.1, h.2.2.1.2.2, h.2.2.2.2.2.2⟩

end WlanMacHigh
